import Mathlib

/-!
# Gateway signature and reconciliation protocol of the VNPay payment service

Shallow embedding of `internal/service/vnpay_service.go`,
`internal/service/payment_service.go`, `internal/repository/invoice_repository.go`,
of the callback verifier of `pkg/utils/vnpay_helper.go`
and of the library routines they call (`net/url`, `sort`, `strconv`, `crypto/hmac`,
`crypto/sha512`, `encoding/hex`), followed by the theorems about them.

Go strings are byte sequences; they are modelled as lists of bytes. Amounts are `float64`:
a finite value is held as the rational number it denotes, and every operation rounds its
exact result to the nearest value, to the even one of two nearest.
-/

namespace VNPay

/-! ## Strings -/

/-- One byte of a Go string. -/
abbrev Byte := Fin 256

/-- A Go `string`: an immutable sequence of bytes. -/
abbrev GoString := List Byte

/-- UTF-8 encoding of one character, as Go source text is encoded. -/
def utf8Char (c : Char) : GoString :=
  let v := c.toNat
  if v < 0x80 then [Fin.ofNat v]
  else if v < 0x800 then [Fin.ofNat (0xC0 + v / 64), Fin.ofNat (0x80 + v % 64)]
  else if v < 0x10000 then
    [Fin.ofNat (0xE0 + v / 4096), Fin.ofNat (0x80 + v / 64 % 64), Fin.ofNat (0x80 + v % 64)]
  else
    [Fin.ofNat (0xF0 + v / 262144), Fin.ofNat (0x80 + v / 4096 % 64),
     Fin.ofNat (0x80 + v / 64 % 64), Fin.ofNat (0x80 + v % 64)]

/-- The bytes of a string literal of the source. -/
def bytes (s : String) : GoString := s.data.flatMap utf8Char

/-! ## crypto/sha512, crypto/hmac, encoding/hex -/

namespace SHA512

/-- Addition of 64-bit words. -/
def add64 (a b : Nat) : Nat := (a + b) % 2 ^ 64

/-- Rotate a 64-bit word right by `n` bits (`bits.RotateLeft64(x, -n)`). -/
def rotr (n x : Nat) : Nat := ((x >>> n) ||| (x <<< (64 - n))) % 2 ^ 64

def bigSigma0 (x : Nat) : Nat := rotr 28 x ^^^ rotr 34 x ^^^ rotr 39 x
def bigSigma1 (x : Nat) : Nat := rotr 14 x ^^^ rotr 18 x ^^^ rotr 41 x
def smallSigma0 (x : Nat) : Nat := rotr 1 x ^^^ rotr 8 x ^^^ (x >>> 7)
def smallSigma1 (x : Nat) : Nat := rotr 19 x ^^^ rotr 61 x ^^^ (x >>> 6)
def ch (x y z : Nat) : Nat := (x &&& y) ^^^ ((x ^^^ (2 ^ 64 - 1)) &&& z)
def maj (x y z : Nat) : Nat := (x &&& y) ^^^ (x &&& z) ^^^ (y &&& z)

/-- The round constants `_K`, in decimal. -/
def K : List Nat := [
   4794697086780616226, 8158064640168781261, 13096744586834688815, 16840607885511220156,
   4131703408338449720, 6480981068601479193, 10538285296894168987, 12329834152419229976,
   15566598209576043074, 1334009975649890238, 2608012711638119052, 6128411473006802146,
   8268148722764581231, 9286055187155687089, 11230858885718282805, 13951009754708518548,
   16472876342353939154, 17275323862435702243, 1135362057144423861, 2597628984639134821,
   3308224258029322869, 5365058923640841347, 6679025012923562964, 8573033837759648693,
   10970295158949994411, 12119686244451234320, 12683024718118986047, 13788192230050041572,
   14330467153632333762, 15395433587784984357, 489312712824947311, 1452737877330783856,
   2861767655752347644, 3322285676063803686, 5560940570517711597, 5996557281743188959,
   7280758554555802590, 8532644243296465576, 9350256976987008742, 10552545826968843579,
   11727347734174303076, 12113106623233404929, 14000437183269869457, 14369950271660146224,
   15101387698204529176, 15463397548674623760, 17586052441742319658, 1182934255886127544,
   1847814050463011016, 2177327727835720531, 2830643537854262169, 3796741975233480872,
   4115178125766777443, 5681478168544905931, 6601373596472566643, 7507060721942968483,
   8399075790359081724, 8693463985226723168, 9568029438360202098, 10144078919501101548,
   10430055236837252648, 11840083180663258601, 13761210420658862357, 14299343276471374635,
   14566680578165727644, 15097957966210449927, 16922976911328602910, 17689382322260857208,
   500013540394364858, 748580250866718886, 1242879168328830382, 1977374033974150939,
   2944078676154940804, 3659926193048069267, 4368137639120453308, 4836135668995329356,
   5532061633213252278, 6448918945643986474, 6902733635092675308, 7801388544844847127
]

/-- The initial hash value (`init0` .. `init7`), in decimal. -/
def H0 : List Nat := [
   7640891576956012808, 13503953896175478587, 4354685564936845355, 11912009170470909681,
   5840696475078001361, 11170449401992604703, 2270897969802886507, 6620516959819538809
]

/-- Big-endian value of a byte sequence. -/
def beNat (bs : List Nat) : Nat := bs.foldl (fun acc b => acc * 256 + b) 0

/-- Big-endian bytes of `x`, `n` of them. -/
def beBytes : Nat → Nat → List Nat
  | 0, _ => []
  | n + 1, x => (x / 256 ^ n % 256) :: beBytes n x

/-- Cut a byte sequence into `n` groups of `size` bytes. -/
def chunks (size : Nat) : Nat → List Nat → List (List Nat)
  | 0, _ => []
  | n + 1, bs => bs.take size :: chunks size n (bs.drop size)

/-- The message with the padding and the bit length that `digest.checkSum` appends. -/
def pad (msg : List Nat) : List Nat :=
  msg ++ [0x80] ++ List.replicate ((128 - (msg.length + 17) % 128) % 128) 0
    ++ beBytes 16 (msg.length * 8)

/-- One round: the working variables and the sixteen-word window of the schedule. -/
def round (st : List Nat × List Nat) (k : Nat) : List Nat × List Nat :=
  match st with
  | ([a, b, c, d, e, f, g, h],
     [w0, w1, w2, w3, w4, w5, w6, w7, w8, w9, w10, w11, w12, w13, w14, w15]) =>
    let t1 := add64 (add64 (add64 (add64 h (bigSigma1 e)) (ch e f g)) k) w0
    let t2 := add64 (bigSigma0 a) (maj a b c)
    let w16 := add64 (add64 (add64 (smallSigma1 w14) w9) (smallSigma0 w1)) w0
    ([add64 t1 t2, a, b, c, add64 d t1, e, f, g],
     [w1, w2, w3, w4, w5, w6, w7, w8, w9, w10, w11, w12, w13, w14, w15, w16])
  | _ => st

/-- The compression function on one 128-byte block (`blockGeneric`). -/
def block (h : List Nat) (blk : List Nat) : List Nat :=
  let w := (chunks 8 16 blk).map beNat
  List.zipWith add64 h (K.foldl round (h, w)).1

/-- `sha512.Sum512`. -/
def sum (msg : List Nat) : List Nat :=
  let p := pad msg
  ((chunks 128 (p.length / 128) p).foldl block H0).flatMap (beBytes 8)

end SHA512

/-- `hmac.New(sha512.New, key)` followed by `Write(msg)` and `Sum(nil)`. -/
def hmacSHA512 (key msg : GoString) : GoString :=
  let k := key.map Fin.val
  let k0 := if k.length > 128 then SHA512.sum k else k
  let kp := k0 ++ List.replicate (128 - k0.length) 0
  let inner := SHA512.sum (kp.map (fun b => b ^^^ 0x36) ++ msg.map Fin.val)
  (SHA512.sum (kp.map (fun b => b ^^^ 0x5c) ++ inner)).map Fin.ofNat

/-- The table `hextable` of `encoding/hex`. -/
def hextable : GoString := bytes "0123456789abcdef"

/-- `hex.EncodeToString`. -/
def hexEncodeToString (src : GoString) : GoString :=
  src.flatMap (fun v => [hextable.getD (v.val / 16) 0, hextable.getD (v.val % 16) 0])

/-! ## strings, sort, net/url -/

/-- The byte of an ASCII character literal of the source. -/
def ascii (c : Char) : Byte := Fin.ofNat c.toNat

/-- `strings.HasPrefix`. -/
def HasPrefix (s pre : GoString) : Bool := pre.isPrefixOf s

/-- Go's `<` on strings: lexicographic comparison of the bytes. -/
def strLess : GoString → GoString → Bool
  | [], [] => false
  | [], _ :: _ => true
  | _ :: _, [] => false
  | a :: s, b :: t => a.val < b.val || (a == b && strLess s t)

/-- Insert `k` before the first element that is not below it. -/
def insertSorted (k : GoString) : List GoString → List GoString
  | [] => [k]
  | x :: xs => if strLess x k then x :: insertSorted k xs else k :: x :: xs

/-- `sort.Strings`: the keys in increasing order. The library sorts in place with
pattern-defeating quicksort; on a total order the outcome of every sorting routine
is the same list, here computed by insertion. -/
def sortStrings (keys : List GoString) : List GoString :=
  keys.foldr insertSorted []

/-- `shouldEscape(c, encodeQueryComponent)` of `net/url`. -/
def shouldEscape (c : Byte) : Bool :=
  -- §2.3 Unreserved characters (alphanum)
  if (ascii 'a').val ≤ c.val ∧ c.val ≤ (ascii 'z').val ∨
     (ascii 'A').val ≤ c.val ∧ c.val ≤ (ascii 'Z').val ∨
     (ascii '0').val ≤ c.val ∧ c.val ≤ (ascii '9').val then false
  -- §2.3 Unreserved characters (mark)
  else if c ∈ [ascii '-', ascii '_', ascii '.', ascii '~'] then false
  -- §2.2 Reserved characters: in a query component everything reserved is escaped
  else if c ∈ [ascii '$', ascii '&', ascii '+', ascii ',', ascii '/', ascii ':', ascii ';',
      ascii '=', ascii '?', ascii '@'] then true
  -- Everything else must be escaped.
  else true

/-- The table `upperhex` of `net/url`. -/
def upperhex : GoString := bytes "0123456789ABCDEF"

/-- What `escape(s, encodeQueryComponent)` writes for one byte of `s`. -/
def escapeByte (c : Byte) : GoString :=
  if c = ascii ' ' then [ascii '+']
  else if shouldEscape c then
    [ascii '%', upperhex.getD (c.val / 16) 0, upperhex.getD (c.val % 16) 0]
  else [c]

/-- `url.QueryEscape`. -/
def QueryEscape (s : GoString) : GoString := s.flatMap escapeByte

/-! ## strconv -/

/-- The error kinds of `strconv.NumError`. -/
inductive NumError where
  | ErrSyntax
  | ErrRange
  deriving DecidableEq, Repr

/-- Decimal digits of a natural number, most significant first; `fuel` bounds the
number of digits. -/
def digitsAux : Nat → Nat → GoString → GoString
  | 0, _, acc => acc
  | fuel + 1, n, acc =>
    let acc1 := (Fin.ofNat (48 + n % 10) : Byte) :: acc
    if n / 10 = 0 then acc1 else digitsAux fuel (n / 10) acc1

/-- `strconv.Itoa`. -/
def Itoa (i : Int) : GoString :=
  if i < 0 then ascii '-' :: digitsAux (i.natAbs + 1) i.natAbs []
  else digitsAux (i.natAbs + 1) i.natAbs []

/-- The digit loop of `strconv.ParseUint(s, 10, 64)`: `n` is the value read so far. -/
def parseUintLoop : Nat → GoString → Nat × Option NumError
  | n, [] => (n, none)
  | n, c :: cs =>
    if (ascii '0').val ≤ c.val ∧ c.val ≤ (ascii '9').val then
      let d := c.val - (ascii '0').val
      -- n*base overflows
      if n ≥ (2 ^ 64 - 1) / 10 + 1 then (2 ^ 64 - 1, some NumError.ErrRange)
      else
        let n1 := n * 10 + d
        -- n+d overflows
        if n1 > 2 ^ 64 - 1 then (2 ^ 64 - 1, some NumError.ErrRange)
        else parseUintLoop n1 cs
    else
      -- a letter is a digit not below the base, anything else is no digit
      (0, some NumError.ErrSyntax)

/-- `strconv.ParseUint(s, 10, 64)`. -/
def ParseUint (s : GoString) : Nat × Option NumError :=
  if s = [] then (0, some NumError.ErrSyntax) else parseUintLoop 0 s

/-- `strconv.ParseInt(s, 10, 0)` with 64-bit `int`. -/
def ParseInt (s : GoString) : Int × Option NumError :=
  match s with
  | [] => (0, some NumError.ErrSyntax)
  | c :: rest =>
    let neg := c = ascii '-'
    let s1 := if c = ascii '+' ∨ c = ascii '-' then rest else s
    match ParseUint s1 with
    | (_, some NumError.ErrSyntax) => (0, some NumError.ErrSyntax)
    | (un, _) =>
      if ¬ neg ∧ un ≥ 2 ^ 63 then ((2 ^ 63 - 1 : Int), some NumError.ErrRange)
      else if neg ∧ un > 2 ^ 63 then (-(2 ^ 63 : Int), some NumError.ErrRange)
      else if neg then (-(un : Int), none) else ((un : Int), none)

/-- The digit loop of the fast path of `strconv.Atoi`. -/
def atoiLoop : Nat → GoString → Option Nat
  | n, [] => some n
  | n, ch :: cs =>
    -- ch -= '0' in byte arithmetic
    let d := (ch.val + 256 - (ascii '0').val) % 256
    if d > 9 then none else atoiLoop (n * 10 + d) cs

/-- `strconv.Atoi` with 64-bit `int`: the value and the error it returns. -/
def Atoi (s : GoString) : Int × Option NumError :=
  if 0 < s.length ∧ s.length < 19 then
    -- Fast path for small integers that fit int type.
    match s with
    | [] => (0, some NumError.ErrSyntax)
    | c :: rest =>
      let s1 := if c = ascii '-' ∨ c = ascii '+' then rest else s
      if s1.length < 1 then (0, some NumError.ErrSyntax)
      else
        match atoiLoop 0 s1 with
        | none => (0, some NumError.ErrSyntax)
        | some n => if c = ascii '-' then (-(n : Int), none) else ((n : Int), none)
  else
    -- Slow path for invalid, big, or underscored integers.
    ParseInt s

/-! ## float64 -/

/-- A value of Go's `float64` (IEEE 754 binary64): a finite value, held as the rational
number it denotes, an infinity or a NaN. The two zeros are one value. -/
inductive Float64 where
  | finite (q : Rat)
  | inf (negative : Bool)
  | nan
  deriving DecidableEq

/-- The integer nearest to `n / d` for a positive `d`, the even one of two nearest. -/
def roundHalfEven (n : Int) (d : Nat) : Int :=
  let q := n / (d : Int)
  let r := n % (d : Int)
  if 2 * r < d then q else if (d : Int) < 2 * r then q + 1 else if q % 2 = 0 then q else q + 1

/-- The number of halvings that take `n` below 2, at most `fuel` of them. -/
def log2Aux : Nat → Nat → Nat
  | 0, _ => 0
  | fuel + 1, n => if n < 2 then 0 else log2Aux fuel (n / 2) + 1

/-- The integer part of the binary logarithm of `a / d`, for positive `a` and `d`. -/
def floorLog2 (a d : Nat) : Int :=
  let k : Int := (log2Aux a a : Int) - (log2Aux d d : Int)
  if d * 2 ^ k.toNat ≤ a * 2 ^ (-k).toNat then k else k - 1

/-- Rounding of a rational number to `float64`, to the nearest value and to the one with
the even significand of two nearest: 53 bits of significand, exponents of the last place
from -1074 on, and an infinity from `2 ^ 1024` on. -/
def Float64.round (q : Rat) : Float64 :=
  if q.num = 0 then Float64.finite 0
  else
    let e := floorLog2 q.num.natAbs q.den
    -- the exponent of the unit in the last place
    let p := max (e - 52) (-1074)
    let up : Nat := 2 ^ (-p).toNat
    let dn : Nat := 2 ^ p.toNat
    -- the significand, as a multiple of the unit in the last place
    let m := roundHalfEven (q.num * up) (q.den * dn)
    if 2 ^ 1024 * up ≤ (m * dn).natAbs then Float64.inf (decide (q.num < 0))
    else Float64.finite (mkRat (m * dn) up)

/-- The unary `-x`. -/
def Float64.neg : Float64 → Float64
  | Float64.finite a => Float64.finite (-a)
  | Float64.inf s => Float64.inf (!s)
  | Float64.nan => Float64.nan

/-- The sum `x + y`. -/
def Float64.add : Float64 → Float64 → Float64
  | Float64.finite a, Float64.finite b => Float64.round (a + b)
  | Float64.finite _, Float64.inf t => Float64.inf t
  | Float64.inf s, Float64.finite _ => Float64.inf s
  | Float64.inf s, Float64.inf t => if s = t then Float64.inf s else Float64.nan
  | Float64.nan, _ => Float64.nan
  | _, Float64.nan => Float64.nan

/-- The difference `x - y`. -/
def Float64.sub (x y : Float64) : Float64 := Float64.add x (Float64.neg y)

/-- The product `x * y`. -/
def Float64.mul : Float64 → Float64 → Float64
  | Float64.finite a, Float64.finite b => Float64.round (a * b)
  | Float64.finite a, Float64.inf t =>
    if a.num = 0 then Float64.nan else Float64.inf (xor (decide (a.num < 0)) t)
  | Float64.inf s, Float64.finite b =>
    if b.num = 0 then Float64.nan else Float64.inf (xor s (decide (b.num < 0)))
  | Float64.inf s, Float64.inf t => Float64.inf (xor s t)
  | Float64.nan, _ => Float64.nan
  | _, Float64.nan => Float64.nan

/-- The quotient `x / y`; a zero divisor is taken as the positive zero. -/
def Float64.div : Float64 → Float64 → Float64
  | Float64.finite a, Float64.finite b =>
    if b.num = 0 then
      if a.num = 0 then Float64.nan else Float64.inf (decide (a.num < 0))
    else Float64.round (a / b)
  | Float64.finite _, Float64.inf _ => Float64.finite 0
  | Float64.inf s, Float64.finite b => Float64.inf (xor s (decide (b.num < 0)))
  | Float64.inf _, Float64.inf _ => Float64.nan
  | Float64.nan, _ => Float64.nan
  | _, Float64.nan => Float64.nan

instance Float64.instNeg : Neg Float64 := ⟨Float64.neg⟩
instance Float64.instAdd : Add Float64 := ⟨Float64.add⟩
instance Float64.instSub : Sub Float64 := ⟨Float64.sub⟩
instance Float64.instMul : Mul Float64 := ⟨Float64.mul⟩
instance Float64.instDiv : Div Float64 := ⟨Float64.div⟩

/-- The conversion `float64(n)` of an integer. -/
def Float64.ofInt (n : Int) : Float64 := Float64.round (n : Rat)

/-- A numeric constant in a `float64` expression. -/
instance Float64.instOfNat (n : Nat) : OfNat Float64 n := ⟨Float64.ofInt n⟩

/-- The conversion `int(x)` to the 64-bit `int`: the fraction is discarded; for a value
that `int` cannot hold the language leaves the result to the implementation, and the one
of the amd64 compiler is taken, the least `int`. -/
def Float64.toInt : Float64 → Int
  | Float64.finite q =>
    let t := Int.tdiv q.num q.den
    if -2 ^ 63 ≤ t ∧ t < 2 ^ 63 then t else -2 ^ 63
  | _ => -2 ^ 63

/-! ## Maps -/

/-- A Go `map[string]string`, listed in the order a `range` loop visits it. The keys of a
map are pairwise distinct; the order of the listing is not specified by the language. -/
abbrev StringMap := List (GoString × GoString)

/-- The map index expression `m[k]`: the zero value for a key that is absent. -/
def StringMap.get (m : StringMap) (k : GoString) : GoString :=
  match m with
  | [] => []
  | (k1, v) :: rest => if k1 = k then v else StringMap.get rest k

/-- The assignment `m[k] = v`. -/
def StringMap.set (m : StringMap) (k v : GoString) : StringMap :=
  match m with
  | [] => [(k, v)]
  | (k1, v1) :: rest => if k1 = k then (k, v) :: rest else (k1, v1) :: StringMap.set rest k v

/-- The keys collected by `for k := range m { keys = append(keys, k) }`. -/
def StringMap.keys (m : StringMap) : List GoString := m.map Prod.fst

/-- A `url.Values` as `URL.Query()` returns it, listed in the order a `range` loop visits
it: a map from a parameter name to its values, of which there is at least one (the first
value and the rest). -/
structure Values where
  entries : List (GoString × GoString × List GoString)
  nodup : (entries.map Prod.fst).Nodup

/-- `Values.Get`: the first value of the key, or the empty string. -/
def Values.Get (v : Values) (key : GoString) : GoString :=
  match v.entries.find? (fun e => e.1 = key) with
  | some e => e.2.1
  | none => []

/-! ## domain/model -/

/-- `model.PaymentStatus` with its four constants. -/
inductive PaymentStatus where
  | Pending
  | Completed
  | Failed
  | Refunded
  deriving DecidableEq, Repr

/-- `model.PaymentMethod`. -/
inductive PaymentMethod where
  | VNPay
  deriving DecidableEq, Repr

/-- `model.Invoice`, a row of the table `invoices`. Monetary amounts are `float64`, and a
row gives back the amounts that were written to it. Times are instants counted in
nanoseconds, identifiers are UUIDs in their textual form. -/
structure Invoice where
  InvoiceID : GoString
  InvoiceNumber : GoString
  InvoiceType : GoString
  CustomerID : GoString
  TicketID : GoString
  TotalAmount : Float64
  DiscountAmount : Float64
  TaxAmount : Float64
  FinalAmount : Float64
  PaymentStatus : PaymentStatus
  PaymentMethod : PaymentMethod
  IssueDate : Nat
  Notes : GoString
  CreatedAt : Nat
  UpdatedAt : Nat
  VNPayTxnRef : GoString
  VNPayBankCode : GoString
  VNPayTxnNo : GoString
  VNPayPayDate : GoString
  deriving DecidableEq

/-- `model.VNPayPaymentRequest`. -/
structure VNPayPaymentRequest where
  CustomerID : GoString
  TicketID : GoString
  Amount : Float64
  Language : GoString
  BankCode : GoString
  InvoiceType : GoString
  DiscountAmount : Float64
  TaxAmount : Float64

/-- The field `Data` of `model.VNPayPaymentResponse`. -/
structure VNPayPaymentData where
  PaymentURL : GoString
  TxnRef : Int
  deriving DecidableEq

/-- `model.VNPayPaymentResponse`. -/
structure VNPayPaymentResponse where
  Code : GoString
  Message : GoString
  Data : VNPayPaymentData
  InvoiceID : GoString
  deriving DecidableEq

/-- `model.VNPayReturnResponse`. -/
structure VNPayReturnResponse where
  IsValid : Bool
  TransactionNo : GoString
  Amount : Float64
  OrderInfo : GoString
  ResponseCode : GoString
  BankCode : GoString
  PaymentTime : GoString
  TransactionRef : GoString
  Result : GoString
  InvoiceID : GoString

/-- `model.VNPayIPNResponse`. -/
structure VNPayIPNResponse where
  RspCode : GoString
  Message : GoString
  deriving DecidableEq

/-- `model.VNPayQueryRequest`. -/
structure VNPayQueryRequest where
  TxnRef : GoString
  TransactionDate : GoString

/-- `model.VNPayRefundRequest`. -/
structure VNPayRefundRequest where
  TxnRef : GoString
  TransactionType : GoString
  Amount : Float64
  TransactionDate : GoString
  CreateBy : GoString

/-- `config.VNPayConfig`. -/
structure VNPayConfig where
  TmnCode : GoString
  HashSecret : GoString
  VNPayURL : GoString
  ReturnURL : GoString
  APIUrl : GoString
  MerchantAPI : GoString
  TransactionAPI : GoString

/-- The expression `int(x * 100)` for a `float64` amount `x`. -/
def toCents (x : Float64) : Int := Float64.toInt (x * 100)

/-! ## internal/repository -/

/-- The table `invoices`, in the order in which the engine returns its rows. -/
abbrev Store := List Invoice

/-- The errors of a database call: `pgx.ErrNoRows`, or a failure of the statement or the
connection. The wrapping with `fmt.Errorf` adds text only. -/
inductive DbError where
  | noRows
  | failure
  deriving DecidableEq, Repr

/-- What the database does with the statements of one service call: which of them fail,
and the value of `NOW()`. -/
structure Driver where
  selectFails : Bool
  updateFails : Bool
  insertFails : Bool
  now : Nat

/-- `uuid.Nil` in textual form. -/
def uuidNil : GoString := bytes "00000000-0000-0000-0000-000000000000"

/-- `InvoiceRepository.CreateInvoice`. `newID` is the outcome of `uuid.New()`, `today` of
`time.Now().Format("20060102")` and `unixNano` of `time.Now().UnixNano()`. The columns the
statement does not name are empty in the new row. -/
def InvoiceRepository.CreateInvoice (d : Driver) (newID today : GoString) (unixNano : Nat)
    (db : Store) (invoice : Invoice) : Except DbError Invoice × Store :=
  -- If invoice_id is nil (zero uuid), generate a new one
  let invoice := if invoice.InvoiceID = uuidNil then { invoice with InvoiceID := newID }
    else invoice
  -- Generate invoice number with current timestamp if empty
  let invoice := if invoice.InvoiceNumber = [] then
      { invoice with
        InvoiceNumber :=
          bytes "INV-" ++ today ++ bytes "-" ++ Itoa ((unixNano % 1000000 : Nat) : Int) }
    else invoice
  if d.insertFails then (Except.error DbError.failure, db)
  else
    let invoice := { invoice with CreatedAt := d.now, UpdatedAt := d.now }
    (Except.ok invoice,
      db ++ [{ invoice with VNPayBankCode := [], VNPayTxnNo := [], VNPayPayDate := [] }])

/-- `InvoiceRepository.GetInvoiceByVNPayTxnRef`: the first row of
`SELECT ... WHERE vnpay_txn_ref = $1`. -/
def InvoiceRepository.GetInvoiceByVNPayTxnRef (d : Driver) (db : Store) (txnRef : GoString) :
    Except DbError Invoice :=
  if d.selectFails then Except.error DbError.failure
  else
    match db.find? (fun inv => inv.VNPayTxnRef = txnRef) with
    | some inv => Except.ok inv
    | none => Except.error DbError.noRows

/-- `InvoiceRepository.UpdateInvoicePaymentStatus`:
`UPDATE invoices SET ... WHERE vnpay_txn_ref = $5`, which touches every row with that
reference and is no error when there is none. -/
def InvoiceRepository.UpdateInvoicePaymentStatus (d : Driver) (db : Store) (txnRef : GoString)
    (status : PaymentStatus) (vnpayData : StringMap) : Except DbError Store :=
  if d.updateFails then Except.error DbError.failure
  else
    Except.ok (db.map (fun inv =>
      if inv.VNPayTxnRef = txnRef then
        { inv with
          PaymentStatus := status
          VNPayBankCode := vnpayData.get (bytes "bankCode")
          VNPayTxnNo := vnpayData.get (bytes "transactionNo")
          VNPayPayDate := vnpayData.get (bytes "payDate")
          UpdatedAt := d.now }
      else inv))

/-! ## internal/service: InvoiceService -/

/-- The outcomes of the clock and of the random sources during one `CreatePayment`. -/
structure PaymentEnv where
  /-- The value of `rand.Intn(9999999)`. -/
  randIntn : Fin 9999999
  /-- The value of `now.Format("20060102150405")`. -/
  createDate : GoString
  /-- The value of `now.Add(15 * time.Minute).Format("20060102150405")`. -/
  expireTime : GoString
  /-- The value of `time.Now()` in `InvoiceService.CreateInvoice`. -/
  issueDate : Nat
  /-- The value of `uuid.New()` in `InvoiceService.CreateInvoice`. -/
  serviceUUID : GoString
  /-- The value of `uuid.New()` in `InvoiceRepository.CreateInvoice`. -/
  repoUUID : GoString
  /-- The value of `time.Now().Format("20060102")`. -/
  today : GoString
  /-- The value of `time.Now().UnixNano()`. -/
  unixNano : Nat
  driver : Driver

/-- `InvoiceService.CreateInvoice`. -/
def InvoiceService.CreateInvoice (env : PaymentEnv) (db : Store) (req : VNPayPaymentRequest)
    (txnRef : GoString) : Except DbError Invoice × Store :=
  -- Calculate final amount
  let finalAmount := req.Amount - req.DiscountAmount + req.TaxAmount
  let invoice : Invoice :=
    { InvoiceID := env.serviceUUID
      InvoiceNumber := []
      InvoiceType := req.InvoiceType
      CustomerID := req.CustomerID
      TicketID := req.TicketID
      TotalAmount := req.Amount
      DiscountAmount := req.DiscountAmount
      TaxAmount := req.TaxAmount
      FinalAmount := finalAmount
      PaymentStatus := PaymentStatus.Pending
      PaymentMethod := PaymentMethod.VNPay
      IssueDate := env.issueDate
      Notes := bytes "Payment via VNPay, TxnRef: " ++ txnRef
      CreatedAt := 0
      UpdatedAt := 0
      VNPayTxnRef := txnRef
      VNPayBankCode := []
      VNPayTxnNo := []
      VNPayPayDate := [] }
  InvoiceRepository.CreateInvoice env.driver env.repoUUID env.today env.unixNano db invoice

/-- `InvoiceService.GetInvoiceByVNPayTxnRef`. -/
def InvoiceService.GetInvoiceByVNPayTxnRef (d : Driver) (db : Store) (txnRef : GoString) :
    Except DbError Invoice :=
  InvoiceRepository.GetInvoiceByVNPayTxnRef d db txnRef

/-- `InvoiceService.UpdateInvoicePaymentStatus`. -/
def InvoiceService.UpdateInvoicePaymentStatus (d : Driver) (db : Store) (txnRef : GoString)
    (status : PaymentStatus) (vnpayData : StringMap) : Except DbError Store :=
  InvoiceRepository.UpdateInvoicePaymentStatus d db txnRef status vnpayData

/-! ## internal/service: VNPayService -/

/-- The loop `for i, k := range keys` of `CreatePayment`: the contents of `queryBuilder`
and of `hashDataBuilder`, `i` being the index of the next key. -/
def VNPayService.encodeLoop (inputData : StringMap) :
    Nat → List GoString → GoString × GoString → GoString × GoString
  | _, [], builders => builders
  | i, k :: keys, (queryBuilder, hashDataBuilder) =>
    -- URL encode both key and value
    let encodedKey := QueryEscape k
    let encodedValue := QueryEscape (inputData.get k)
    -- Add to query string
    let queryBuilder := if i > 0 then queryBuilder ++ bytes "&" else queryBuilder
    let queryBuilder := queryBuilder ++ encodedKey ++ bytes "=" ++ encodedValue
    -- Add to hash data
    let hashDataBuilder := if i > 0 then hashDataBuilder ++ bytes "&" else hashDataBuilder
    let hashDataBuilder := hashDataBuilder ++ encodedKey ++ bytes "=" ++ encodedValue
    VNPayService.encodeLoop inputData (i + 1) keys (queryBuilder, hashDataBuilder)

/-- The loop `for i, k := range keys` of `ProcessReturn` and of `ProcessIPN`: the contents
of `hashDataBuilder`, `i` being the index of the next key. -/
def VNPayService.hashDataLoop (inputData : StringMap) :
    Nat → List GoString → GoString → GoString
  | _, [], hashDataBuilder => hashDataBuilder
  | i, k :: keys, hashDataBuilder =>
    let hashDataBuilder := if i > 0 then hashDataBuilder ++ bytes "&" else hashDataBuilder
    let hashDataBuilder :=
      hashDataBuilder ++ QueryEscape k ++ bytes "=" ++ QueryEscape (inputData.get k)
    VNPayService.hashDataLoop inputData (i + 1) keys hashDataBuilder

/-- The loop `for key, values := range queryParams` of `ProcessReturn` and of
`ProcessIPN`, which stores all "vnp_" parameters in `inputData`. -/
def VNPayService.collectInputData (queryParams : Values) : StringMap :=
  queryParams.entries.foldl
    (fun inputData e =>
      if HasPrefix e.1 (bytes "vnp_") ∧ e.1 ≠ bytes "vnp_SecureHash" then
        inputData.set e.1 e.2.1
      else inputData)
    []

/-- The secure hash that `ProcessReturn` and `ProcessIPN` compute for a query. -/
def VNPayService.callbackSecureHash (cfg : VNPayConfig) (queryParams : Values) : GoString :=
  let inputData := VNPayService.collectInputData queryParams
  -- Sort the keys
  let keys := sortStrings inputData.keys
  -- Build the hash data
  let hashData := VNPayService.hashDataLoop inputData 0 keys []
  -- Calculate secure hash
  hexEncodeToString (hmacSHA512 cfg.HashSecret hashData)

/-- The parameters of the payment request, as `CreatePayment` puts them in `inputData`. -/
def VNPayService.paymentInputData (cfg : VNPayConfig) (env : PaymentEnv)
    (req : VNPayPaymentRequest) (txnRef : GoString) (invoice : Invoice) : StringMap :=
  -- Convert amount to VND cents (multiply by 100)
  let amountInCents := toCents req.Amount
  let inputData : StringMap :=
    [ (bytes "vnp_Version", bytes "2.1.0"),
      (bytes "vnp_TmnCode", cfg.TmnCode),
      (bytes "vnp_Amount", Itoa amountInCents),
      (bytes "vnp_Command", bytes "pay"),
      (bytes "vnp_CreateDate", env.createDate),
      (bytes "vnp_CurrCode", bytes "VND"),
      (bytes "vnp_IpAddr", bytes "127.0.0.1"),
      (bytes "vnp_Locale", req.Language),
      (bytes "vnp_OrderInfo", bytes "Thanh toan cho don hang " ++ invoice.InvoiceNumber),
      (bytes "vnp_OrderType", bytes "other"),
      (bytes "vnp_ReturnUrl", cfg.ReturnURL),
      (bytes "vnp_TxnRef", txnRef),
      (bytes "vnp_ExpireDate", env.expireTime) ]
  -- Add bank code if provided
  if req.BankCode ≠ [] then inputData.set (bytes "vnp_BankCode") req.BankCode else inputData

/-- `VNPayService.CreatePayment`: the response or the error, and the table afterwards. -/
def VNPayService.CreatePayment (cfg : VNPayConfig) (env : PaymentEnv) (db : Store)
    (req : VNPayPaymentRequest) : Except DbError VNPayPaymentResponse × Store :=
  -- Set transaction reference (order ID)
  let txnRef := Itoa ((env.randIntn.val + 1000000 : Nat) : Int)
  -- Create invoice in database
  match InvoiceService.CreateInvoice env db req txnRef with
  | (Except.error err, db1) => (Except.error err, db1)
  | (Except.ok invoice, db1) =>
    let inputData := VNPayService.paymentInputData cfg env req txnRef invoice
    -- Sort the keys for secure hash generation
    let keys := sortStrings inputData.keys
    -- Build query and hash data
    let builders := VNPayService.encodeLoop inputData 0 keys ([], [])
    -- Create the payment URL
    let vnpURL := cfg.VNPayURL ++ bytes "?" ++ builders.1
    -- Calculate secure hash
    let hashData := builders.2
    let vnpSecureHash := hexEncodeToString (hmacSHA512 cfg.HashSecret hashData)
    -- Add secure hash to URL
    let vnpURL := vnpURL ++ bytes "&vnp_SecureHash=" ++ vnpSecureHash
    -- Prepare response
    let txnRefInt := (Atoi txnRef).1
    (Except.ok
      { Code := bytes "00"
        Message := bytes "success"
        Data := { PaymentURL := vnpURL, TxnRef := txnRefInt }
        InvoiceID := invoice.InvoiceID },
     db1)

/-- `VNPayService.ProcessReturn`: the result or the error, and the table afterwards. -/
def VNPayService.ProcessReturn (cfg : VNPayConfig) (d : Driver) (db : Store)
    (queryParams : Values) : Except DbError VNPayReturnResponse × Store :=
  -- Get the secure hash from the query
  let vnpSecureHash := queryParams.Get (bytes "vnp_SecureHash")
  let secureHash := VNPayService.callbackSecureHash cfg queryParams
  -- Verify the secure hash
  let isValidSignature : Bool := secureHash = vnpSecureHash
  -- Get amount, convert to number
  let amountStr := queryParams.Get (bytes "vnp_Amount")
  let amountInt := (Atoi amountStr).1
  let amount := Float64.ofInt amountInt / 100
  -- Get transaction reference
  let txnRef := queryParams.Get (bytes "vnp_TxnRef")
  -- Check payment status
  let responseCode := queryParams.Get (bytes "vnp_ResponseCode")
  -- Extract details for updating the invoice
  let vnpayData : StringMap :=
    [ (bytes "transactionNo", queryParams.Get (bytes "vnp_TransactionNo")),
      (bytes "bankCode", queryParams.Get (bytes "vnp_BankCode")),
      (bytes "payDate", queryParams.Get (bytes "vnp_PayDate")) ]
  -- Get invoice ID for the transaction and return payment result
  let respond (db1 : Store) (result : GoString) : VNPayReturnResponse :=
    let invoiceID :=
      match InvoiceService.GetInvoiceByVNPayTxnRef d db1 txnRef with
      | Except.ok invoice => invoice.InvoiceID
      | Except.error _ => []
    { IsValid := isValidSignature
      TransactionNo := queryParams.Get (bytes "vnp_TransactionNo")
      Amount := amount
      OrderInfo := queryParams.Get (bytes "vnp_OrderInfo")
      ResponseCode := responseCode
      BankCode := queryParams.Get (bytes "vnp_BankCode")
      PaymentTime := queryParams.Get (bytes "vnp_PayDate")
      TransactionRef := txnRef
      Result := result
      InvoiceID := invoiceID }
  if isValidSignature then
    let result := if responseCode = bytes "00" then bytes "Payment successful"
      else bytes "Payment failed"
    let paymentStatus := if responseCode = bytes "00" then PaymentStatus.Completed
      else PaymentStatus.Failed
    -- Update invoice payment status
    match InvoiceService.UpdateInvoicePaymentStatus d db txnRef paymentStatus vnpayData with
    | Except.error err => (Except.error err, db)
    | Except.ok db1 => (Except.ok (respond db1 result), db1)
  else
    (Except.ok (respond db (bytes "Invalid signature")), db)

/-- `VNPayService.ProcessIPN`: the acknowledgment, the error if there is one, and the
table afterwards. -/
def VNPayService.ProcessIPN (cfg : VNPayConfig) (d : Driver) (db : Store)
    (queryParams : Values) : (VNPayIPNResponse × Option DbError) × Store :=
  -- Get the secure hash from the query
  let vnpSecureHash := queryParams.Get (bytes "vnp_SecureHash")
  let secureHash := VNPayService.callbackSecureHash cfg queryParams
  -- Verify the secure hash
  if secureHash = vnpSecureHash then
    -- Get transaction data
    let txnRef := queryParams.Get (bytes "vnp_TxnRef")
    let responseCode := queryParams.Get (bytes "vnp_ResponseCode")
    let transactionStatus := queryParams.Get (bytes "vnp_TransactionStatus")
    -- Extract details for updating the invoice
    let vnpayData : StringMap :=
      [ (bytes "transactionNo", queryParams.Get (bytes "vnp_TransactionNo")),
        (bytes "bankCode", queryParams.Get (bytes "vnp_BankCode")),
        (bytes "payDate", queryParams.Get (bytes "vnp_PayDate")) ]
    -- Try to get the invoice
    match InvoiceService.GetInvoiceByVNPayTxnRef d db txnRef with
    | Except.error _ =>
      (({ RspCode := bytes "01", Message := bytes "Order not found" }, none), db)
    | Except.ok invoice =>
      -- Verify amount
      let vnpAmount := queryParams.Get (bytes "vnp_Amount")
      let amount := (Atoi vnpAmount).1
      let amount := amount.tdiv 100 -- Convert back from VND cents
      let expectedAmount := toCents invoice.FinalAmount
      if amount ≠ expectedAmount then
        (({ RspCode := bytes "04", Message := bytes "Invalid amount" }, none), db)
      -- Check if payment is already processed
      else if invoice.PaymentStatus ≠ PaymentStatus.Pending then
        (({ RspCode := bytes "02", Message := bytes "Order already confirmed" }, none), db)
      else
        -- Update payment status based on VNPay response
        let paymentStatus :=
          if responseCode = bytes "00" ∧ transactionStatus = bytes "00" then
            PaymentStatus.Completed
          else PaymentStatus.Failed
        -- Update invoice payment status
        match InvoiceService.UpdateInvoicePaymentStatus d db txnRef paymentStatus vnpayData with
        | Except.error err =>
          (({ RspCode := bytes "99", Message := bytes "Error updating payment status" },
            some err), db)
        | Except.ok db1 =>
          (({ RspCode := bytes "00", Message := bytes "Confirm Success" }, none), db1)
  else
    (({ RspCode := bytes "97", Message := bytes "Invalid signature" }, none), db)

/-- The outcomes of the random source and of the clock during one `QueryTransaction` or
`RefundTransaction`. -/
structure RequestEnv where
  /-- The value of `rand.Intn(9999)`. -/
  randIntn : Fin 9999
  /-- The value of `time.Now().Format("20060102150405")`. -/
  createDate : GoString

/-- The data request of `QueryTransaction` before the checksum is added. -/
def VNPayService.queryDataRequest (cfg : VNPayConfig) (env : RequestEnv)
    (req : VNPayQueryRequest) (ipAddr : GoString) : StringMap :=
  -- Create a request ID
  let requestId := Itoa ((env.randIntn.val + 1 : Nat) : Int)
  [ (bytes "vnp_RequestId", requestId),
    (bytes "vnp_Version", bytes "2.1.0"),
    (bytes "vnp_Command", bytes "querydr"),
    (bytes "vnp_TmnCode", cfg.TmnCode),
    (bytes "vnp_TxnRef", req.TxnRef),
    (bytes "vnp_OrderInfo", bytes "Query transaction"),
    (bytes "vnp_TransactionDate", req.TransactionDate),
    (bytes "vnp_CreateDate", env.createDate),
    (bytes "vnp_IpAddr", ipAddr) ]

/-- The hash data string of `QueryTransaction`:
`fmt.Sprintf("%s|%s|%s|%s|%s|%s|%s|%s|%s", ...)`. -/
def VNPayService.queryHashData (dataRequest : StringMap) : GoString :=
  dataRequest.get (bytes "vnp_RequestId") ++ bytes "|" ++
  dataRequest.get (bytes "vnp_Version") ++ bytes "|" ++
  dataRequest.get (bytes "vnp_Command") ++ bytes "|" ++
  dataRequest.get (bytes "vnp_TmnCode") ++ bytes "|" ++
  dataRequest.get (bytes "vnp_TxnRef") ++ bytes "|" ++
  dataRequest.get (bytes "vnp_TransactionDate") ++ bytes "|" ++
  dataRequest.get (bytes "vnp_CreateDate") ++ bytes "|" ++
  dataRequest.get (bytes "vnp_IpAddr") ++ bytes "|" ++
  dataRequest.get (bytes "vnp_OrderInfo")

/-- `VNPayService.QueryTransaction`: the data request; the error it returns is always
`nil`. -/
def VNPayService.QueryTransaction (cfg : VNPayConfig) (env : RequestEnv)
    (req : VNPayQueryRequest) (ipAddr : GoString) : StringMap :=
  -- Build data request
  let dataRequest := VNPayService.queryDataRequest cfg env req ipAddr
  -- Create hash data string
  let hashData := VNPayService.queryHashData dataRequest
  -- Calculate checksum
  let checksum := hexEncodeToString (hmacSHA512 cfg.HashSecret hashData)
  -- Add checksum to request
  dataRequest.set (bytes "vnp_SecureHash") checksum

/-- The refund data of `RefundTransaction` before the checksum is added. -/
def VNPayService.refundDataRequest (cfg : VNPayConfig) (env : RequestEnv)
    (req : VNPayRefundRequest) (ipAddr : GoString) : StringMap :=
  -- Create a request ID
  let requestId := Itoa ((env.randIntn.val + 1 : Nat) : Int)
  -- Convert amount to VND cents (multiply by 100)
  let amountInCents := toCents req.Amount
  [ (bytes "vnp_RequestId", requestId),
    (bytes "vnp_Version", bytes "2.1.0"),
    (bytes "vnp_Command", bytes "refund"),
    (bytes "vnp_TmnCode", cfg.TmnCode),
    (bytes "vnp_TransactionType", req.TransactionType),
    (bytes "vnp_TxnRef", req.TxnRef),
    (bytes "vnp_Amount", Itoa amountInCents),
    (bytes "vnp_OrderInfo", bytes "Hoan Tien Giao Dich"),
    (bytes "vnp_TransactionNo", bytes "0"),
    (bytes "vnp_TransactionDate", req.TransactionDate),
    (bytes "vnp_CreateDate", env.createDate),
    (bytes "vnp_CreateBy", req.CreateBy),
    (bytes "vnp_IpAddr", ipAddr) ]

/-- The hash data string of `RefundTransaction`:
`fmt.Sprintf("%s|%s|%s|%s|%s|%s|%s|%s|%s|%s|%s|%s|%s", ...)`. -/
def VNPayService.refundHashData (refundData : StringMap) : GoString :=
  refundData.get (bytes "vnp_RequestId") ++ bytes "|" ++
  refundData.get (bytes "vnp_Version") ++ bytes "|" ++
  refundData.get (bytes "vnp_Command") ++ bytes "|" ++
  refundData.get (bytes "vnp_TmnCode") ++ bytes "|" ++
  refundData.get (bytes "vnp_TransactionType") ++ bytes "|" ++
  refundData.get (bytes "vnp_TxnRef") ++ bytes "|" ++
  refundData.get (bytes "vnp_Amount") ++ bytes "|" ++
  refundData.get (bytes "vnp_TransactionNo") ++ bytes "|" ++
  refundData.get (bytes "vnp_TransactionDate") ++ bytes "|" ++
  refundData.get (bytes "vnp_CreateBy") ++ bytes "|" ++
  refundData.get (bytes "vnp_CreateDate") ++ bytes "|" ++
  refundData.get (bytes "vnp_IpAddr") ++ bytes "|" ++
  refundData.get (bytes "vnp_OrderInfo")

/-- The refund data that `RefundTransaction` returns, checksum included. -/
def VNPayService.signedRefundData (cfg : VNPayConfig) (env : RequestEnv)
    (req : VNPayRefundRequest) (ipAddr : GoString) : StringMap :=
  -- Build data request
  let refundData := VNPayService.refundDataRequest cfg env req ipAddr
  -- Create hash data string
  let hashData := VNPayService.refundHashData refundData
  -- Calculate checksum
  let checksum := hexEncodeToString (hmacSHA512 cfg.HashSecret hashData)
  -- Add checksum to request
  refundData.set (bytes "vnp_SecureHash") checksum

/-- `VNPayService.RefundTransaction`: the refund data, the error if there is one, and the
table afterwards. -/
def VNPayService.RefundTransaction (cfg : VNPayConfig) (env : RequestEnv) (d : Driver)
    (db : Store) (req : VNPayRefundRequest) (ipAddr : GoString) :
    (StringMap × Option DbError) × Store :=
  let refundData := VNPayService.signedRefundData cfg env req ipAddr
  -- If successful, update invoice status
  match InvoiceService.GetInvoiceByVNPayTxnRef d db req.TxnRef with
  | Except.ok _ =>
    let vnpayData : StringMap := []
    match InvoiceService.UpdateInvoicePaymentStatus d db req.TxnRef PaymentStatus.Refunded
        vnpayData with
    | Except.error err => ((refundData, some err), db)
    | Except.ok db1 => ((refundData, none), db1)
  | Except.error _ => ((refundData, none), db)

/-- What `ProcessIPN` has decided once it has read the invoice: the acknowledgment it
returns without writing, or the update it is about to issue (transaction reference,
payment status and `vnpayData`). -/
inductive IPNDecision where
  | respond (ack : VNPayIPNResponse)
  | update (txnRef : GoString) (paymentStatus : PaymentStatus) (vnpayData : StringMap)

/-- The part of `ProcessIPN` up to the choice of the payment status: the verification,
the `SELECT` of the invoice and the checks on what was read. -/
def VNPayService.ipnRead (cfg : VNPayConfig) (d : Driver) (db : Store)
    (queryParams : Values) : IPNDecision :=
  let vnpSecureHash := queryParams.Get (bytes "vnp_SecureHash")
  let secureHash := VNPayService.callbackSecureHash cfg queryParams
  if secureHash = vnpSecureHash then
    let txnRef := queryParams.Get (bytes "vnp_TxnRef")
    let responseCode := queryParams.Get (bytes "vnp_ResponseCode")
    let transactionStatus := queryParams.Get (bytes "vnp_TransactionStatus")
    let vnpayData : StringMap :=
      [ (bytes "transactionNo", queryParams.Get (bytes "vnp_TransactionNo")),
        (bytes "bankCode", queryParams.Get (bytes "vnp_BankCode")),
        (bytes "payDate", queryParams.Get (bytes "vnp_PayDate")) ]
    match InvoiceService.GetInvoiceByVNPayTxnRef d db txnRef with
    | Except.error _ =>
      IPNDecision.respond { RspCode := bytes "01", Message := bytes "Order not found" }
    | Except.ok invoice =>
      let vnpAmount := queryParams.Get (bytes "vnp_Amount")
      let amount := (Atoi vnpAmount).1
      let amount := amount.tdiv 100
      let expectedAmount := toCents invoice.FinalAmount
      if amount ≠ expectedAmount then
        IPNDecision.respond { RspCode := bytes "04", Message := bytes "Invalid amount" }
      else if invoice.PaymentStatus ≠ PaymentStatus.Pending then
        IPNDecision.respond
          { RspCode := bytes "02", Message := bytes "Order already confirmed" }
      else
        let paymentStatus :=
          if responseCode = bytes "00" ∧ transactionStatus = bytes "00" then
            PaymentStatus.Completed
          else PaymentStatus.Failed
        IPNDecision.update txnRef paymentStatus vnpayData
  else
    IPNDecision.respond { RspCode := bytes "97", Message := bytes "Invalid signature" }

/-- The rest of `ProcessIPN`: the `UPDATE`, if one was decided, and the acknowledgment. -/
def VNPayService.ipnWrite (d : Driver) (db : Store) :
    IPNDecision → (VNPayIPNResponse × Option DbError) × Store
  | IPNDecision.respond ack => ((ack, none), db)
  | IPNDecision.update txnRef paymentStatus vnpayData =>
    match InvoiceService.UpdateInvoicePaymentStatus d db txnRef paymentStatus vnpayData with
    | Except.error err =>
      (({ RspCode := bytes "99", Message := bytes "Error updating payment status" },
        some err), db)
    | Except.ok db1 =>
      (({ RspCode := bytes "00", Message := bytes "Confirm Success" }, none), db1)

/-- Two invocations of `ProcessIPN` on one store, scheduled so that both read before
either writes: the first reads, the second reads, the first writes, the second writes.
The two acknowledgments, the store between the writes and the store afterwards. -/
def VNPayService.interleavedIPN (cfg : VNPayConfig) (d1 d2 : Driver) (db : Store)
    (q1 q2 : Values) :
    (VNPayIPNResponse × Option DbError) × (VNPayIPNResponse × Option DbError) × Store × Store :=
  let decision1 := VNPayService.ipnRead cfg d1 db q1
  let decision2 := VNPayService.ipnRead cfg d2 db q2
  let written1 := VNPayService.ipnWrite d1 db decision1
  let written2 := VNPayService.ipnWrite d2 written1.2 decision2
  (written1.1, written2.1, written1.2, written2.2)

/-! ## pkg/utils: VNPayHelper -/

/-- `utils.VNPayHelper`. -/
structure VNPayHelper where
  MerchantID : GoString
  SecretKey : GoString
  ReturnURL : GoString
  PaymentURL : GoString

/-- The statement `delete(m, k)`. -/
def StringMap.delete (m : StringMap) (k : GoString) : StringMap :=
  m.filter (fun e => e.1 ≠ k)

/-- The loop `for i, k := range keys` of `buildQueryString`: the contents of
`queryBuilder`, `i` being the index of the next key. -/
def VNPayHelper.queryLoop (params : StringMap) : Nat → List GoString → GoString → GoString
  | _, [], queryBuilder => queryBuilder
  | i, k :: keys, queryBuilder =>
    let queryBuilder := if i > 0 then queryBuilder ++ bytes "&" else queryBuilder
    let queryBuilder := queryBuilder ++ k ++ bytes "=" ++ QueryEscape (params.get k)
    VNPayHelper.queryLoop params (i + 1) keys queryBuilder

/-- `VNPayHelper.buildQueryString`. -/
def VNPayHelper.buildQueryString (_h : VNPayHelper) (params : StringMap) : GoString :=
  -- Sort the keys
  let keys := sortStrings params.keys
  -- Build the query string
  VNPayHelper.queryLoop params 0 keys []

/-- `VNPayHelper.generateSecureHash`. -/
def VNPayHelper.generateSecureHash (h : VNPayHelper) (data : GoString) : GoString :=
  hexEncodeToString (hmacSHA512 h.SecretKey data)

/-- `VNPayHelper.ValidateCallback`: the boolean it returns. -/
def VNPayHelper.ValidateCallback (h : VNPayHelper) (callbackParams : StringMap) : Bool :=
  -- Extract the secure hash
  let secureHash := callbackParams.get (bytes "vnp_SecureHash")
  let callbackParams := callbackParams.delete (bytes "vnp_SecureHash")
  let callbackParams := callbackParams.delete (bytes "vnp_SecureHashType")
  -- Generate query string
  let queryString := h.buildQueryString callbackParams
  -- Generate secure hash
  let calculatedHash := h.generateSecureHash queryString
  -- Compare the hashes
  secureHash = calculatedHash

/-! ## Notions used in the statements -/

/-- The canonical string of a parameter set: the names in ascending byte order, each name
and each value percent-encoded, joined as `name=value` pairs with `&`. -/
def canonicalString (m : StringMap) : GoString :=
  (bytes "&").intercalate
    ((sortStrings m.keys).map (fun k => QueryEscape k ++ bytes "=" ++ QueryEscape (m.get k)))

/-- The parameters of a callback that are signed: the first value of every parameter
whose name starts with "vnp_", the hash field itself left out. -/
def signedParams (q : Values) : StringMap :=
  q.entries.filterMap (fun e =>
    if HasPrefix e.1 (bytes "vnp_") ∧ e.1 ≠ bytes "vnp_SecureHash" then some (e.1, e.2.1)
    else none)

/-- The order `a ≤ b` of Go strings: `b` is not below `a`. -/
def strLe (a b : GoString) : Prop := strLess b a = false

instance strLe.decidableRel : DecidableRel strLe :=
  fun a b => inferInstanceAs (Decidable (strLess b a = false))

/-- The bytes that percent-encoding leaves unchanged: letters, digits and `-`, `_`, `.`,
`~`. -/
def isUnreserved (c : Byte) : Bool :=
  c ∈ bytes "ABCDEFGHIJKLMNOPQRSTUVWXYZabcdefghijklmnopqrstuvwxyz0123456789-_.~"

/-- The upper-case hexadecimal digit of a value below sixteen. -/
def upperHexDigit (d : Nat) : Byte :=
  if d < 10 then Fin.ofNat ((ascii '0').val + d) else Fin.ofNat ((ascii 'A').val + (d - 10))

/-- The percent-encoding `%XX` of a byte. -/
def percentEncode (c : Byte) : GoString :=
  [ascii '%', upperHexDigit (c.val / 16), upperHexDigit (c.val % 16)]

/-- The digest that belongs in the field `vnp_SecureHash` of a callback: the hex
HMAC-SHA512, under the hash secret, of the canonical string of its signed parameters. -/
def expectedSecureHash (cfg : VNPayConfig) (q : Values) : GoString :=
  hexEncodeToString (hmacSHA512 cfg.HashSecret (canonicalString (signedParams q)))

/-- The callback carries the digest of its own parameters. -/
def SignatureValid (cfg : VNPayConfig) (q : Values) : Prop :=
  q.Get (bytes "vnp_SecureHash") = expectedSecureHash cfg q

instance SignatureValid.decidable (cfg : VNPayConfig) (q : Values) :
    Decidable (SignatureValid cfg q) :=
  inferInstanceAs (Decidable (q.Get (bytes "vnp_SecureHash") = expectedSecureHash cfg q))

/-- The row that `UPDATE ... WHERE vnpay_txn_ref` leaves for an invoice it touches. -/
def reconciled (inv : Invoice) (status : PaymentStatus) (q : Values) (now : Nat) : Invoice :=
  { inv with
    PaymentStatus := status
    VNPayBankCode := q.Get (bytes "vnp_BankCode")
    VNPayTxnNo := q.Get (bytes "vnp_TransactionNo")
    VNPayPayDate := q.Get (bytes "vnp_PayDate")
    UpdatedAt := now }

/-- The row that the update of `RefundTransaction` leaves for an invoice it touches: the
status Refunded, and empty gateway fields, `vnpayData` being the empty map. -/
def refunded (inv : Invoice) (now : Nat) : Invoice :=
  { inv with
    PaymentStatus := PaymentStatus.Refunded
    VNPayBankCode := []
    VNPayTxnNo := []
    VNPayPayDate := []
    UpdatedAt := now }

/-- The parameter set of a callback as a `map[string]string`: every name with its first
value. -/
def firstValues (q : Values) : StringMap := q.entries.map (fun e => (e.1, e.2.1))

/-- Two rows agree outside the payment status, the gateway fields and the update
timestamp. -/
def sameFrame (a b : Invoice) : Prop :=
  a.InvoiceID = b.InvoiceID ∧ a.InvoiceNumber = b.InvoiceNumber ∧
  a.InvoiceType = b.InvoiceType ∧ a.CustomerID = b.CustomerID ∧ a.TicketID = b.TicketID ∧
  a.TotalAmount = b.TotalAmount ∧ a.DiscountAmount = b.DiscountAmount ∧
  a.TaxAmount = b.TaxAmount ∧ a.FinalAmount = b.FinalAmount ∧
  a.PaymentMethod = b.PaymentMethod ∧ a.IssueDate = b.IssueDate ∧ a.Notes = b.Notes ∧
  a.CreatedAt = b.CreatedAt ∧ a.VNPayTxnRef = b.VNPayTxnRef

/-! ## Sample data -/

/-- A merchant configuration with terminal code `TEST01` and secret `SECRET`. -/
def sampleConfig : VNPayConfig :=
  { TmnCode := bytes "TEST01"
    HashSecret := bytes "SECRET"
    VNPayURL := bytes "https://sandbox.vnpayment.vn/paymentv2/vpcpay.html"
    ReturnURL := bytes "http://localhost:8080/api/vnpay/return"
    APIUrl := bytes "http://sandbox.vnpayment.vn/merchant_webapi/merchant.html"
    MerchantAPI := []
    TransactionAPI := bytes "https://sandbox.vnpayment.vn/merchant_webapi/api/transaction" }

/-- A database on which every statement succeeds. -/
def sampleDriver : Driver :=
  { selectFails := false, updateFails := false, insertFails := false, now := 1735732800 }

/-- A payment attempt at noon of 1 January 2025 that draws the reference 1234567. -/
def samplePaymentEnv : PaymentEnv :=
  { randIntn := 234567
    createDate := bytes "20250101120000"
    expireTime := bytes "20250101121500"
    issueDate := 1735732800
    serviceUUID := bytes "3f2b8c1e-7d4a-4e8f-9a6b-1c2d3e4f5a6b"
    repoUUID := bytes "9a8b7c6d-5e4f-4a3b-8c2d-1e0f9a8b7c6d"
    today := bytes "20250101"
    unixNano := 1735732800000123456
    driver := sampleDriver }

/-- A request for a payment of 100000 through the bank `NCB`. -/
def samplePaymentRequest : VNPayPaymentRequest :=
  { CustomerID := bytes "C001"
    TicketID := bytes "T001"
    Amount := 100000
    Language := bytes "vn"
    BankCode := bytes "NCB"
    InvoiceType := bytes "ticket"
    DiscountAmount := 0
    TaxAmount := 0 }

/-- Two listings of one parameter mapping, the second with an empty value first. -/
def sampleListing : StringMap :=
  [(bytes "vnp_Command", bytes "pay"), (bytes "vnp_Amount", bytes "10000000"),
   (bytes "vnp_BankCode", [])]

/-- The listing `sampleListing` in another order. -/
def sampleListingPermuted : StringMap :=
  [(bytes "vnp_BankCode", []), (bytes "vnp_Command", bytes "pay"),
   (bytes "vnp_Amount", bytes "10000000")]

/-- A callback of the gateway for the transaction reference 1234567, as a query with the
given amount, response code, transaction status and secure hash. -/
def sampleQuery (amount responseCode transactionStatus secureHash : GoString) : Values :=
  { entries :=
      [ (bytes "vnp_Amount", amount, []),
        (bytes "vnp_BankCode", bytes "NCB", []),
        (bytes "vnp_OrderInfo", bytes "Thanh toan cho don hang INV-20250101-123456", []),
        (bytes "vnp_PayDate", bytes "20250101120500", []),
        (bytes "vnp_ResponseCode", responseCode, []),
        (bytes "vnp_TmnCode", bytes "TEST01", []),
        (bytes "vnp_TransactionNo", bytes "14123456", []),
        (bytes "vnp_TransactionStatus", transactionStatus, []),
        (bytes "vnp_TxnRef", bytes "1234567", []),
        (bytes "vnp_SecureHash", secureHash, []) ]
    nodup := by
      simp only [List.map_cons, List.map_nil]
      decide! }

/-- The callback for the amount 100000.00 (10000000 minor units) with the success codes,
signed with the secret `SECRET`. -/
def paidQuery : Values :=
  sampleQuery (bytes "10000000") (bytes "00") (bytes "00")
    (bytes ("ab983e54c430ff1eab8d8a7f3f884ad6c89a86165997c99d009d13892dcde600" ++
      "95465cd2193e5b437722b547a774ff24370bc5f900111a48eb4d576cde08dbc7"))

/-- The callback for the amount 100.00 (10000 minor units) with the success codes, signed
with the secret `SECRET`. -/
def smallPaidQuery : Values :=
  sampleQuery (bytes "10000") (bytes "00") (bytes "00")
    (bytes ("3c7039008025eff5d5e29220b3c5100b8644ea29793559968e9870198ba1b009" ++
      "831c02e3a732d63bf43b91c0d70152d4f59beba5120a8649b4445183e94ae712"))

/-- The callback for the amount 100000.00 of a payment the customer cancelled (response
code 24), signed with the secret `SECRET`. -/
def cancelledQuery : Values :=
  sampleQuery (bytes "10000000") (bytes "24") (bytes "02")
    (bytes ("9fab56a65e8968632f5181b209ae3227eb7b14a09dde8256af22a4bae7ef33a1" ++
      "226320ca5e6b521fdc4d29bf8b4e1a200113a27e54558fee34fba1face14acd3"))

/-- The callback `paidQuery` with a secure hash that is not the digest. -/
def forgedQuery : Values :=
  sampleQuery (bytes "10000000") (bytes "00") (bytes "00")
    (bytes ("bb983e54c430ff1eab8d8a7f3f884ad6c89a86165997c99d009d13892dcde600" ++
      "95465cd2193e5b437722b547a774ff24370bc5f900111a48eb4d576cde08dbc7"))

/-- An invoice with the transaction reference 1234567 in the given status and with the
given final amount. -/
def sampleInvoice (status : PaymentStatus) (finalAmount : Float64) : Invoice :=
  { InvoiceID := bytes "3f2b8c1e-7d4a-4e8f-9a6b-1c2d3e4f5a6b"
    InvoiceNumber := bytes "INV-20250101-123456"
    InvoiceType := bytes "ticket"
    CustomerID := bytes "C001"
    TicketID := bytes "T001"
    TotalAmount := finalAmount
    DiscountAmount := 0
    TaxAmount := 0
    FinalAmount := finalAmount
    PaymentStatus := status
    PaymentMethod := PaymentMethod.VNPay
    IssueDate := 1735732800
    Notes := bytes "Payment via VNPay, TxnRef: 1234567"
    CreatedAt := 1735732800
    UpdatedAt := 1735732800
    VNPayTxnRef := bytes "1234567"
    VNPayBankCode := []
    VNPayTxnNo := []
    VNPayPayDate := [] }

/-- The sample invoice under another transaction reference. -/
def otherInvoice : Invoice :=
  { sampleInvoice PaymentStatus.Pending 100000 with VNPayTxnRef := bytes "7654321" }

/-- A database on which every `UPDATE` fails. -/
def failingUpdateDriver : Driver :=
  { selectFails := false, updateFails := true, insertFails := false, now := 1735732800 }

/-- A database on which every `SELECT` fails. -/
def failingSelectDriver : Driver :=
  { selectFails := true, updateFails := false, insertFails := false, now := 1735732800 }

/-- The payment attempt `samplePaymentEnv` on a database whose `INSERT` fails. -/
def failingInsertEnv : PaymentEnv :=
  { samplePaymentEnv with
    driver := { selectFails := false, updateFails := false, insertFails := true,
                now := 1735732800 } }

/-- A query or refund request prepared on 2 January 2025 that draws the request id 42. -/
def sampleRequestEnv : RequestEnv :=
  { randIntn := 41, createDate := bytes "20250102090000" }

/-- A request to query the transaction 1234567. -/
def sampleQueryRequest : VNPayQueryRequest :=
  { TxnRef := bytes "1234567", TransactionDate := bytes "20250101120500" }

/-- A request to refund the transaction 1234567 in full. -/
def sampleRefundRequest : VNPayRefundRequest :=
  { TxnRef := bytes "1234567"
    TransactionType := bytes "02"
    Amount := 100000
    TransactionDate := bytes "20250101120500"
    CreateBy := bytes "admin" }

/-- The address of the client of the sample requests. -/
def sampleIpAddr : GoString := bytes "203.0.113.7"

/-- The callback for the amount 100.00 of a payment the customer cancelled (response
code 24), signed with the secret `SECRET`. -/
def smallCancelledQuery : Values :=
  sampleQuery (bytes "10000") (bytes "24") (bytes "02")
    (bytes ("3844f22d11bf055a747f7e2b08d8f7202567f1c6b4116e1110c376f5b1d03bb5" ++
      "9254414f519c0da442225c456b7d1ee9dbf7d125895bf34275e2d71972efe357"))

/-- The callback `paidQuery` with the parameter `vnp_SecureHashType` added; the secure
hash is the digest of the parameters without `vnp_SecureHash` and `vnp_SecureHashType`. -/
def hashTypeQuery : Values :=
  { entries := (bytes "vnp_SecureHashType", bytes "SHA512", []) :: paidQuery.entries
    nodup := by decide! }

/-- A helper with the secret of `sampleConfig`. -/
def sampleHelper : VNPayHelper :=
  { MerchantID := bytes "TEST01"
    SecretKey := bytes "SECRET"
    ReturnURL := bytes "http://localhost:8080/api/vnpay/return"
    PaymentURL := bytes "https://sandbox.vnpayment.vn/paymentv2/vpcpay.html" }

/-- A parameter mapping with a name that holds a space. -/
def spacedNameParams : StringMap := [(bytes "vnp_Order Info", bytes "x y")]

/-- The sample invoice after the return or the notification of `paidQuery` settled it: the
gateway fields hold the bank code, the transaction number and the pay date. -/
def settledInvoice : Invoice :=
  reconciled (sampleInvoice PaymentStatus.Completed 100000) PaymentStatus.Completed paidQuery
    1735733100

/-- A second payment attempt: other identifiers and another instant, the same draw. -/
def secondPaymentEnv : PaymentEnv :=
  { samplePaymentEnv with
    createDate := bytes "20250101130000"
    expireTime := bytes "20250101131500"
    serviceUUID := bytes "0c1d2e3f-4a5b-4c6d-8e7f-0a1b2c3d4e5f"
    repoUUID := bytes "5f4e3d2c-1b0a-4f7e-8d6c-5b4a3f2e1d0c"
    unixNano := 1735736400000654321 }

/-- A request for a payment of 100000 with a discount of 10000 and a tax of 5000. -/
def discountedPaymentRequest : VNPayPaymentRequest :=
  { samplePaymentRequest with DiscountAmount := 10000, TaxAmount := 5000 }

/-- The callback `paidQuery` with a parameter added whose name does not start with
"vnp_"; the secure hash is unchanged. -/
def extraParamQuery : Values :=
  { entries := (bytes "lang", bytes "vn", []) :: paidQuery.entries
    nodup := by decide! }

/-- The sample database one second later. -/
def laterDriver : Driver :=
  { selectFails := false, updateFails := false, insertFails := false, now := 1735732801 }

/-- A request for a payment of 360287970189641, a whole amount. -/
def largePaymentRequest : VNPayPaymentRequest :=
  { samplePaymentRequest with Amount := 360287970189641 }

/-- A request for a payment of 9007199254740992 (`2 ^ 53`) with a tax of 1. -/
def taxedPaymentRequest : VNPayPaymentRequest :=
  { samplePaymentRequest with Amount := 9007199254740992, TaxAmount := 1 }

/-- A request for a payment of 0.35, as it is decoded: the `float64` nearest to 35/100. -/
def fractionPaymentRequest : VNPayPaymentRequest :=
  { samplePaymentRequest with Amount := Float64.round (35 / 100) }

/-- A request for a payment of 0.29, as it is decoded: the `float64` nearest to 29/100. -/
def centsPaymentRequest : VNPayPaymentRequest :=
  { samplePaymentRequest with Amount := Float64.round (29 / 100) }

/-- The sample refund request with another amount. -/
def refundRequestOf (amount : Float64) : VNPayRefundRequest :=
  { sampleRefundRequest with Amount := amount }

/-! # Theorems -/

/-! ## Test vector -/

/-- Test case 2 of RFC 4231 for HMAC-SHA-512. -/
theorem hmacSHA512_rfc4231_case2 :
    hexEncodeToString (hmacSHA512 (bytes "Jefe") (bytes "what do ya want for nothing?")) =
      bytes ("164b7a7bfcf819e2e395fbe73b56e0a387bd64222e831fd610270cd7ea250554" ++
        "9758bf75c05a994a6d034f65f8f0e6fdcaeab1a34d4a6b4b636e070a38bce737") := by
  decide!

/-! ## Order on strings and sorting -/

theorem strLess_irrefl (a : GoString) : strLess a a = false := by
  induction a with
  | nil => rfl
  | cons x s ih => simp [strLess, ih]

theorem strLess_asymm : ∀ (a b : GoString), strLess a b = true → strLess b a = false
  | [], [], h => by simp [strLess] at h
  | [], _ :: _, _ => by simp [strLess]
  | _ :: _, [], h => by simp [strLess] at h
  | x :: s, y :: t, h => by
    simp only [strLess, Bool.or_eq_true, decide_eq_true_eq, Bool.and_eq_true, beq_iff_eq] at h
    simp only [strLess, Bool.or_eq_false_iff, decide_eq_false_iff_not, Bool.and_eq_false_imp,
      beq_iff_eq]
    rcases h with h | ⟨h1, h2⟩
    · refine ⟨by omega, fun e => ?_⟩
      subst e
      omega
    · subst h1
      exact ⟨by omega, fun _ => strLess_asymm s t h2⟩

theorem strLess_trans : ∀ (a b c : GoString),
    strLess a b = true → strLess b c = true → strLess a c = true
  | [], [], _, h, _ => by simp [strLess] at h
  | [], _ :: _, [], _, h => by simp [strLess] at h
  | [], _ :: _, _ :: _, _, _ => by simp [strLess]
  | _ :: _, [], _, h, _ => by simp [strLess] at h
  | _ :: _, _ :: _, [], _, h => by simp [strLess] at h
  | x :: s, y :: t, z :: u, h1, h2 => by
    simp only [strLess, Bool.or_eq_true, decide_eq_true_eq, Bool.and_eq_true, beq_iff_eq]
      at h1 h2 ⊢
    rcases h1 with h1 | ⟨e1, h1⟩
    · rcases h2 with h2 | ⟨e2, _⟩
      · exact Or.inl (by omega)
      · subst e2
        exact Or.inl h1
    · subst e1
      rcases h2 with h2 | ⟨e2, h2⟩
      · exact Or.inl h2
      · exact Or.inr ⟨e2, strLess_trans s t u h1 h2⟩

theorem strLess_connex : ∀ (a b : GoString),
    strLess a b = false → strLess b a = false → a = b
  | [], [], _, _ => rfl
  | [], _ :: _, h, _ => by simp [strLess] at h
  | _ :: _, [], _, h => by simp [strLess] at h
  | x :: s, y :: t, h1, h2 => by
    simp only [strLess, Bool.or_eq_false_iff, decide_eq_false_iff_not, Bool.and_eq_false_imp,
      beq_iff_eq] at h1 h2
    have e : x = y := Fin.ext (by omega)
    subst e
    rw [strLess_connex s t (h1.2 rfl) (h2.2 rfl)]

theorem strLe_total (a b : GoString) : strLe a b ∨ strLe b a := by
  unfold strLe
  cases h : strLess b a
  · exact Or.inl rfl
  · exact Or.inr (strLess_asymm b a h)

theorem strLe_trans (a b c : GoString) (hab : strLe a b) (hbc : strLe b c) : strLe a c := by
  unfold strLe at *
  cases hca : strLess c a
  · rfl
  · cases hab' : strLess a b
    · have e := strLess_connex a b hab' hab
      subst e
      rw [hca] at hbc
      exact hbc
    · rw [strLess_trans c a b hca hab'] at hbc
      exact hbc

theorem insertSorted_eq (k : GoString) (l : List GoString) :
    insertSorted k l = List.orderedInsert strLe k l := by
  induction l with
  | nil => rfl
  | cons x xs ih =>
    simp only [insertSorted, List.orderedInsert, strLe]
    by_cases h : strLess x k = true
    · simp [h, ih]
    · simp [h]

theorem sortStrings_eq (l : List GoString) : sortStrings l = List.insertionSort strLe l := by
  induction l with
  | nil => rfl
  | cons x xs ih =>
    have : sortStrings (x :: xs) = insertSorted x (sortStrings xs) := rfl
    rw [this, ih, insertSorted_eq]
    rfl

theorem sortStrings_perm (l : List GoString) : (sortStrings l).Perm l := by
  rw [sortStrings_eq]
  exact List.perm_insertionSort strLe l

theorem sortStrings_sorted (l : List GoString) : (sortStrings l).Pairwise strLe := by
  haveI : IsTotal GoString strLe := ⟨strLe_total⟩
  haveI : IsTrans GoString strLe := ⟨strLe_trans⟩
  rw [sortStrings_eq]
  exact List.sorted_insertionSort strLe l

theorem sortStrings_congr {l l' : List GoString} (h : l.Perm l') :
    sortStrings l = sortStrings l' := by
  haveI : IsAntisymm GoString strLe := ⟨fun a b hab hba => strLess_connex a b hba hab⟩
  exact List.eq_of_perm_of_sorted (r := strLe)
    (((sortStrings_perm l).trans h).trans (sortStrings_perm l').symm)
    (sortStrings_sorted l) (sortStrings_sorted l')

theorem sortStrings_strict {l : List GoString} (h : l.Nodup) :
    (sortStrings l).Pairwise (fun a b => strLess a b = true) := by
  have hn : (sortStrings l).Nodup := (sortStrings_perm l).nodup_iff.mpr h
  have hs := sortStrings_sorted l
  have hb := List.Pairwise.and hs hn
  refine hb.imp ?_
  intro a b hab
  obtain ⟨h1, h2⟩ := hab
  cases hlt : strLess a b
  · exact absurd (strLess_connex a b hlt h1) h2
  · rfl

/-! ## The encoding loops -/

theorem intercalate_cons (sep x : GoString) (xs : List GoString) :
    sep.intercalate (x :: xs) = x ++ xs.flatMap (fun y => sep ++ y) := by
  induction xs generalizing x with
  | nil => simp [List.intercalate, List.intersperse]
  | cons y ys ih =>
    have h := ih y
    simp only [List.intercalate, List.intersperse, List.flatten_cons, List.flatMap_cons] at h ⊢
    rw [h]
    simp

theorem hashDataLoop_succ (m : StringMap) (i : Nat) (ks : List GoString) (acc : GoString) :
    VNPayService.hashDataLoop m (i + 1) ks acc =
      acc ++ ks.flatMap (fun k =>
        bytes "&" ++ (QueryEscape k ++ bytes "=" ++ QueryEscape (m.get k))) := by
  induction ks generalizing i acc with
  | nil => simp [VNPayService.hashDataLoop]
  | cons k ks ih =>
    simp only [VNPayService.hashDataLoop, ih, List.flatMap_cons]
    simp

theorem hashDataLoop_eq_canonical (m : StringMap) (ks : List GoString) :
    VNPayService.hashDataLoop m 0 ks [] =
      (bytes "&").intercalate
        (ks.map (fun k => QueryEscape k ++ bytes "=" ++ QueryEscape (m.get k))) := by
  cases ks with
  | nil => rfl
  | cons k ks =>
    simp only [VNPayService.hashDataLoop, hashDataLoop_succ, List.map_cons, intercalate_cons]
    simp [List.flatMap_map]

theorem encodeLoop_eq (m : StringMap) (i : Nat) (ks : List GoString) (a b : GoString) :
    VNPayService.encodeLoop m i ks (a, b) =
      (VNPayService.hashDataLoop m i ks a, VNPayService.hashDataLoop m i ks b) := by
  induction ks generalizing i a b with
  | nil => rfl
  | cons k ks ih => simp only [VNPayService.encodeLoop, VNPayService.hashDataLoop, ih]

/-! ## Maps -/

theorem get_of_not_mem (m : StringMap) (k : GoString) (h : k ∉ m.keys) : m.get k = [] := by
  induction m with
  | nil => rfl
  | cons e m ih =>
    obtain ⟨k1, v⟩ := e
    simp only [StringMap.keys, List.map_cons, List.mem_cons, not_or] at h
    simp only [StringMap.get]
    rw [if_neg (fun e => h.1 e.symm)]
    exact ih h.2

theorem get_of_mem (m : StringMap) (k v : GoString) (hn : m.keys.Nodup) (h : (k, v) ∈ m) :
    m.get k = v := by
  induction m with
  | nil => cases h
  | cons e m ih =>
    obtain ⟨k1, v1⟩ := e
    simp only [StringMap.keys, List.map_cons, List.nodup_cons] at hn
    simp only [StringMap.get]
    rcases List.mem_cons.mp h with h | h
    · cases h
      simp
    · have hk : k ∈ m.map Prod.fst := List.mem_map.mpr ⟨(k, v), h, rfl⟩
      rw [if_neg (fun (e : k1 = k) => hn.1 (e ▸ hk))]
      exact ih hn.2 h

theorem get_perm {m m' : StringMap} (hn : m.keys.Nodup) (hp : m.Perm m') (k : GoString) :
    m'.get k = m.get k := by
  have hk : m.keys.Perm m'.keys := hp.map Prod.fst
  by_cases h : k ∈ m.keys
  · obtain ⟨e, he, hek⟩ := List.mem_map.mp h
    obtain ⟨k1, v⟩ := e
    cases hek
    rw [get_of_mem m k1 v hn he, get_of_mem m' k1 v (hk.nodup_iff.mp hn) (hp.subset he)]
  · rw [get_of_not_mem m k h, get_of_not_mem m' k (fun h' => h (hk.symm.subset h'))]

theorem set_of_not_mem (m : StringMap) (k v : GoString) (h : k ∉ m.keys) :
    m.set k v = m ++ [(k, v)] := by
  induction m with
  | nil => rfl
  | cons e m ih =>
    obtain ⟨k1, v1⟩ := e
    simp only [StringMap.keys, List.map_cons, List.mem_cons, not_or] at h
    simp only [StringMap.set]
    rw [if_neg (fun e => h.1 e.symm), ih h.2]
    rfl

theorem signedParams_keys_sublist (l : List (GoString × GoString × List GoString)) :
    ((l.filterMap (fun e =>
      if HasPrefix e.1 (bytes "vnp_") ∧ e.1 ≠ bytes "vnp_SecureHash" then some (e.1, e.2.1)
      else none)).map Prod.fst).Sublist (l.map Prod.fst) := by
  induction l with
  | nil => simp
  | cons e l ih =>
    simp only [List.filterMap_cons, List.map_cons]
    split
    · rename_i h
      exact ih.cons _
    · rename_i b h
      split at h
      · cases h
        exact ih.cons₂ _
      · cases h

theorem signedParams_nodup (q : Values) : (signedParams q).keys.Nodup :=
  (signedParams_keys_sublist q.entries).nodup q.nodup

theorem collect_foldl (l : List (GoString × GoString × List GoString)) (acc : StringMap)
    (hn : (acc.keys ++ l.map Prod.fst).Nodup) :
    l.foldl
      (fun inputData e =>
        if HasPrefix e.1 (bytes "vnp_") ∧ e.1 ≠ bytes "vnp_SecureHash" then
          inputData.set e.1 e.2.1
        else inputData) acc =
    acc ++ l.filterMap (fun e =>
      if HasPrefix e.1 (bytes "vnp_") ∧ e.1 ≠ bytes "vnp_SecureHash" then some (e.1, e.2.1)
      else none) := by
  induction l generalizing acc with
  | nil => simp
  | cons e l ih =>
    simp only [List.foldl_cons, List.filterMap_cons]
    have hnot : e.1 ∉ acc.keys := by
      intro hmem
      have := (List.nodup_append.mp hn).2.2
      exact this hmem (by simp)
    by_cases hc : HasPrefix e.1 (bytes "vnp_") = true ∧ e.1 ≠ bytes "vnp_SecureHash"
    · rw [if_pos hc, if_pos hc, set_of_not_mem _ _ _ hnot, ih]
      · simp
      · simp only [StringMap.keys, List.map_append, List.map_cons, List.map_nil,
          List.append_assoc, List.singleton_append] at hn ⊢
        exact hn
    · rw [if_neg hc, if_neg hc, ih]
      simp only [StringMap.keys, List.map_cons] at hn ⊢
      have hs : (acc.map Prod.fst ++ l.map Prod.fst).Sublist
          (acc.map Prod.fst ++ e.1 :: l.map Prod.fst) :=
        List.Sublist.append (List.Sublist.refl _) (List.sublist_cons_self _ _)
      exact hs.nodup hn

theorem collectInputData_eq (q : Values) :
    VNPayService.collectInputData q = signedParams q := by
  unfold VNPayService.collectInputData signedParams
  rw [collect_foldl q.entries [] (by simpa [StringMap.keys] using q.nodup)]
  simp

theorem callbackSecureHash_eq (cfg : VNPayConfig) (q : Values) :
    VNPayService.callbackSecureHash cfg q =
      hexEncodeToString (hmacSHA512 cfg.HashSecret (canonicalString (signedParams q))) := by
  unfold VNPayService.callbackSecureHash canonicalString
  simp only [collectInputData_eq, hashDataLoop_eq_canonical]

/-! ## Claims -/

theorem paymentInputData_sorted_keys (cfg : VNPayConfig) (env : PaymentEnv)
    (req : VNPayPaymentRequest) (txnRef : GoString) (invoice : Invoice) :
    sortStrings (VNPayService.paymentInputData cfg env req txnRef invoice).keys =
      if req.BankCode = [] then
        [bytes "vnp_Amount", bytes "vnp_Command", bytes "vnp_CreateDate", bytes "vnp_CurrCode",
         bytes "vnp_ExpireDate", bytes "vnp_IpAddr", bytes "vnp_Locale", bytes "vnp_OrderInfo",
         bytes "vnp_OrderType", bytes "vnp_ReturnUrl", bytes "vnp_TmnCode", bytes "vnp_TxnRef",
         bytes "vnp_Version"]
      else
        [bytes "vnp_Amount", bytes "vnp_BankCode", bytes "vnp_Command", bytes "vnp_CreateDate",
         bytes "vnp_CurrCode", bytes "vnp_ExpireDate", bytes "vnp_IpAddr", bytes "vnp_Locale",
         bytes "vnp_OrderInfo", bytes "vnp_OrderType", bytes "vnp_ReturnUrl", bytes "vnp_TmnCode",
         bytes "vnp_TxnRef", bytes "vnp_Version"] := by
  unfold VNPayService.paymentInputData
  by_cases hb : req.BankCode = []
  · simp only [hb, ne_eq, not_true_eq_false, if_false, if_true, StringMap.keys, List.map_cons,
      List.map_nil]
    decide!
  · simp only [hb, ne_eq, not_false_eq_true, if_true, if_false]
    rw [set_of_not_mem _ _ _ (by simp only [StringMap.keys, List.map_cons, List.map_nil]; decide!)]
    simp only [StringMap.keys, List.map_cons, List.map_nil, List.map_append]
    decide!

/-- C1: whenever `CreatePayment` succeeds, the payment URL is the gateway URL, "?", the
canonical string `C` of the request's parameters, "&vnp_SecureHash=" and the hex
HMAC-SHA512 of that same `C` under the hash secret; the names of `C` stand in ascending
byte order, `vnp_Amount` before `vnp_BankCode` before `vnp_Command`. -/
theorem createPayment_url_signs_canonical_string (cfg : VNPayConfig) (env : PaymentEnv)
    (db : Store) (req : VNPayPaymentRequest) (resp : VNPayPaymentResponse) (db1 : Store)
    (h : VNPayService.CreatePayment cfg env db req = (Except.ok resp, db1)) :
    ∃ invoice : Invoice,
      InvoiceService.CreateInvoice env db req (Itoa ((env.randIntn.val + 1000000 : Nat) : Int))
        = (Except.ok invoice, db1) ∧
      resp.Data.PaymentURL =
        cfg.VNPayURL ++ bytes "?"
          ++ canonicalString (VNPayService.paymentInputData cfg env req
              (Itoa ((env.randIntn.val + 1000000 : Nat) : Int)) invoice)
          ++ bytes "&vnp_SecureHash="
          ++ hexEncodeToString (hmacSHA512 cfg.HashSecret
              (canonicalString (VNPayService.paymentInputData cfg env req
                (Itoa ((env.randIntn.val + 1000000 : Nat) : Int)) invoice))) ∧
      sortStrings (VNPayService.paymentInputData cfg env req
          (Itoa ((env.randIntn.val + 1000000 : Nat) : Int)) invoice).keys =
        (if req.BankCode = [] then
          [bytes "vnp_Amount", bytes "vnp_Command", bytes "vnp_CreateDate",
           bytes "vnp_CurrCode", bytes "vnp_ExpireDate", bytes "vnp_IpAddr", bytes "vnp_Locale",
           bytes "vnp_OrderInfo", bytes "vnp_OrderType", bytes "vnp_ReturnUrl",
           bytes "vnp_TmnCode", bytes "vnp_TxnRef", bytes "vnp_Version"]
        else
          [bytes "vnp_Amount", bytes "vnp_BankCode", bytes "vnp_Command",
           bytes "vnp_CreateDate", bytes "vnp_CurrCode", bytes "vnp_ExpireDate",
           bytes "vnp_IpAddr", bytes "vnp_Locale", bytes "vnp_OrderInfo", bytes "vnp_OrderType",
           bytes "vnp_ReturnUrl", bytes "vnp_TmnCode", bytes "vnp_TxnRef",
           bytes "vnp_Version"]) := by
  unfold VNPayService.CreatePayment at h
  rcases hc : InvoiceService.CreateInvoice env db req
    (Itoa ((env.randIntn.val + 1000000 : Nat) : Int)) with ⟨r, db2⟩
  simp only [hc] at h
  cases r with
  | error e => simp at h
  | ok invoice =>
    simp only [Prod.mk.injEq, Except.ok.injEq] at h
    obtain ⟨h1, h2⟩ := h
    subst h2
    refine ⟨invoice, rfl, ?_, paymentInputData_sorted_keys cfg env req _ invoice⟩
    rw [← h1]
    simp only [encodeLoop_eq, hashDataLoop_eq_canonical, canonicalString]

theorem createPayment_url_signs_canonical_string_witness :
    ∃ (resp : VNPayPaymentResponse) (db1 : Store) (invoice : Invoice),
      VNPayService.CreatePayment sampleConfig samplePaymentEnv [] samplePaymentRequest
        = (Except.ok resp, db1) ∧
      resp.Data.PaymentURL =
        sampleConfig.VNPayURL ++ bytes "?"
          ++ canonicalString (VNPayService.paymentInputData sampleConfig samplePaymentEnv
              samplePaymentRequest (bytes "1234567") invoice)
          ++ bytes "&vnp_SecureHash="
          ++ hexEncodeToString (hmacSHA512 sampleConfig.HashSecret
              (canonicalString (VNPayService.paymentInputData sampleConfig samplePaymentEnv
                samplePaymentRequest (bytes "1234567") invoice))) := by
  have h : VNPayService.CreatePayment sampleConfig samplePaymentEnv [] samplePaymentRequest
      = (Except.ok _, _) := rfl
  obtain ⟨invoice, _, hurl, _⟩ :=
    createPayment_url_signs_canonical_string sampleConfig samplePaymentEnv []
      samplePaymentRequest _ _ h
  exact ⟨_, _, invoice, h, hurl⟩

/-- The payment URL of the sample request, byte for byte. -/
theorem createPayment_sample_url :
    (match (VNPayService.CreatePayment sampleConfig samplePaymentEnv []
        samplePaymentRequest).1 with
      | Except.ok resp => resp.Data.PaymentURL
      | Except.error _ => []) =
    bytes ("https://sandbox.vnpayment.vn/paymentv2/vpcpay.html?" ++
      "vnp_Amount=10000000&vnp_BankCode=NCB&vnp_Command=pay&vnp_CreateDate=20250101120000" ++
      "&vnp_CurrCode=VND&vnp_ExpireDate=20250101121500&vnp_IpAddr=127.0.0.1&vnp_Locale=vn" ++
      "&vnp_OrderInfo=Thanh+toan+cho+don+hang+INV-20250101-123456&vnp_OrderType=other" ++
      "&vnp_ReturnUrl=http%3A%2F%2Flocalhost%3A8080%2Fapi%2Fvnpay%2Freturn" ++
      "&vnp_TmnCode=TEST01&vnp_TxnRef=1234567&vnp_Version=2.1.0&vnp_SecureHash=" ++
      "cc500838f0ee71a3b7ad16cf446e651fbe4fab0d51f2ede418a7f76ab5e106a9" ++
      "a19ea9c56ed91020ee74d1ec1e31eba9abce53b6613c60693c0348bf3d5c6197") := by
  decide!

theorem escapeByte_spec : ∀ c : Byte, escapeByte c =
    if isUnreserved c then [c] else if c = ascii ' ' then [ascii '+'] else percentEncode c := by
  decide!

theorem canonicalString_perm {m m' : StringMap} (hn : m.keys.Nodup) (hp : m.Perm m') :
    canonicalString m' = canonicalString m := by
  unfold canonicalString
  have hk : sortStrings m'.keys = sortStrings m.keys :=
    sortStrings_congr (hp.map Prod.fst).symm
  rw [hk]
  congr 1
  apply List.map_congr_left
  intro k _
  rw [get_perm hn hp k]

/-- C2: the canonical encoding depends on the parameter mapping only, not on the order in
which the map is listed. For two listings of one mapping the loops of `CreatePayment`,
`ProcessReturn` and `ProcessIPN` give the same string: the "&"-join of
`escape(key) + "=" + escape(value)` over the keys in strictly ascending byte order, each
key once, an empty value giving `key=`; `escape` keeps letters, digits, `-`, `_`, `.`, `~`,
turns a space into `+` and every other byte into `%XX`. -/
theorem canonical_encoding_order_independent (m m' : StringMap) (hn : m.keys.Nodup)
    (hp : m.Perm m') :
    VNPayService.hashDataLoop m' 0 (sortStrings m'.keys) []
      = VNPayService.hashDataLoop m 0 (sortStrings m.keys) [] ∧
    VNPayService.encodeLoop m' 0 (sortStrings m'.keys) ([], [])
      = VNPayService.encodeLoop m 0 (sortStrings m.keys) ([], []) ∧
    VNPayService.encodeLoop m 0 (sortStrings m.keys) ([], [])
      = (VNPayService.hashDataLoop m 0 (sortStrings m.keys) [],
         VNPayService.hashDataLoop m 0 (sortStrings m.keys) []) ∧
    VNPayService.hashDataLoop m 0 (sortStrings m.keys) []
      = (bytes "&").intercalate ((sortStrings m.keys).map
          (fun k => QueryEscape k ++ bytes "=" ++ QueryEscape (m.get k))) ∧
    (sortStrings m.keys).Pairwise (fun a b => strLess a b = true) ∧
    (sortStrings m.keys).Nodup ∧
    (∀ k, k ∈ sortStrings m.keys ↔ k ∈ m.keys) ∧
    (∀ k v, (k, v) ∈ m → m.get k = v) ∧
    (∀ k, (k, []) ∈ m →
      QueryEscape k ++ bytes "=" ++ QueryEscape (m.get k) = QueryEscape k ++ bytes "=") ∧
    (∀ s : GoString, QueryEscape s = s.flatMap (fun c =>
      if isUnreserved c then [c] else if c = ascii ' ' then [ascii '+']
      else percentEncode c)) ∧
    (∀ (cfg : VNPayConfig) (q q' : Values), q.entries.Perm q'.entries →
      VNPayService.callbackSecureHash cfg q' = VNPayService.callbackSecureHash cfg q) := by
  have hcan := canonicalString_perm hn hp
  simp only [canonicalString] at hcan
  refine ⟨?_, ?_, ?_, ?_, ?_, ?_, ?_, ?_, ?_, ?_, ?_⟩
  · rw [hashDataLoop_eq_canonical, hashDataLoop_eq_canonical, hcan]
  · rw [encodeLoop_eq, encodeLoop_eq, hashDataLoop_eq_canonical, hashDataLoop_eq_canonical,
      hcan]
  · rw [encodeLoop_eq]
  · rw [hashDataLoop_eq_canonical]
  · exact sortStrings_strict hn
  · exact (sortStrings_perm m.keys).nodup_iff.mpr hn
  · intro k
    exact (sortStrings_perm m.keys).mem_iff
  · intro k v hkv
    exact get_of_mem m k v hn hkv
  · intro k hk
    rw [get_of_mem m k [] hn hk]
    simp [QueryEscape]
  · intro s
    unfold QueryEscape
    congr 1
    funext c
    exact escapeByte_spec c
  · intro cfg q q' hq
    rw [callbackSecureHash_eq, callbackSecureHash_eq]
    have hs : (signedParams q).Perm (signedParams q') := hq.filterMap _
    rw [canonicalString_perm (signedParams_nodup q) hs]

theorem canonical_encoding_order_independent_witness :
    VNPayService.hashDataLoop sampleListingPermuted 0 (sortStrings sampleListingPermuted.keys) []
      = bytes "vnp_Amount=10000000&vnp_BankCode=&vnp_Command=pay" ∧
    VNPayService.hashDataLoop sampleListing 0 (sortStrings sampleListing.keys) []
      = bytes "vnp_Amount=10000000&vnp_BankCode=&vnp_Command=pay" := by
  have hn : sampleListing.keys.Nodup := by decide
  have hp : sampleListing.Perm sampleListingPermuted := by decide
  have h := (canonical_encoding_order_independent sampleListing sampleListingPermuted hn hp).1
  refine ⟨?_, by decide!⟩
  rw [h]
  decide!

theorem hexEncodeToString_lower (src : GoString) :
    ∀ c ∈ hexEncodeToString src, c ∈ bytes "0123456789abcdef" := by
  have hb : ∀ n : Fin 16, hextable.getD n.val 0 ∈ bytes "0123456789abcdef" := by decide
  intro c hc
  unfold hexEncodeToString at hc
  obtain ⟨v, _, hv⟩ := List.mem_flatMap.mp hc
  simp only [List.mem_cons, List.mem_singleton, List.not_mem_nil, or_false] at hv
  rcases hv with hv | hv
  · rw [hv]
    exact hb ⟨v.val / 16, by omega⟩
  · rw [hv]
    exact hb ⟨v.val % 16, by omega⟩

/-- C3: `ProcessReturn` reports `IsValid = true`, and `ProcessIPN` leaves its
invalid-signature answer "97", exactly when the supplied `vnp_SecureHash` is the lower-case
hex HMAC-SHA512, under the configured secret, of the canonical string of the first values
of all parameters named "vnp_..." other than `vnp_SecureHash`. A query that carries this
digest verifies, and a query with any other value in the hash field is rejected.
`ProcessReturn` gives no result only when the signature is valid and the store update
fails. -/
theorem callback_signature_verified_iff_digest (cfg : VNPayConfig) (d : Driver) (db : Store)
    (q : Values) :
    (∀ res db1, VNPayService.ProcessReturn cfg d db q = (Except.ok res, db1) →
      (res.IsValid = true ↔
        q.Get (bytes "vnp_SecureHash") =
          hexEncodeToString (hmacSHA512 cfg.HashSecret (canonicalString (signedParams q))))) ∧
    (q.Get (bytes "vnp_SecureHash") ≠
        hexEncodeToString (hmacSHA512 cfg.HashSecret (canonicalString (signedParams q))) →
      ∃ res, VNPayService.ProcessReturn cfg d db q = (Except.ok res, db) ∧
        res.IsValid = false) ∧
    (q.Get (bytes "vnp_SecureHash") =
        hexEncodeToString (hmacSHA512 cfg.HashSecret (canonicalString (signedParams q))) →
      d.updateFails = false →
      ∃ res db1, VNPayService.ProcessReturn cfg d db q = (Except.ok res, db1) ∧
        res.IsValid = true) ∧
    (q.Get (bytes "vnp_SecureHash") =
        hexEncodeToString (hmacSHA512 cfg.HashSecret (canonicalString (signedParams q))) →
      d.updateFails = true →
      VNPayService.ProcessReturn cfg d db q = (Except.error DbError.failure, db)) ∧
    ((VNPayService.ProcessIPN cfg d db q).1.1.RspCode ≠ bytes "97" ↔
      q.Get (bytes "vnp_SecureHash") =
        hexEncodeToString (hmacSHA512 cfg.HashSecret (canonicalString (signedParams q)))) ∧
    (∀ c ∈ hexEncodeToString (hmacSHA512 cfg.HashSecret (canonicalString (signedParams q))),
      c ∈ bytes "0123456789abcdef") := by
  refine ⟨?_, ?_, ?_, ?_, ?_, hexEncodeToString_lower _⟩
  · intro res db1 h
    unfold VNPayService.ProcessReturn at h
    simp only [callbackSecureHash_eq] at h
    by_cases hv : hexEncodeToString (hmacSHA512 cfg.HashSecret
        (canonicalString (signedParams q))) = q.Get (bytes "vnp_SecureHash")
    · simp only [hv, decide_True, if_true] at h
      split at h
      · simp at h
      · simp only [Prod.mk.injEq, Except.ok.injEq] at h
        rw [← h.1]
        exact ⟨fun _ => hv.symm, fun _ => rfl⟩
    · simp only [hv, decide_False, Bool.false_eq_true, if_false, Prod.mk.injEq,
        Except.ok.injEq] at h
      rw [← h.1]
      simp only [Bool.false_eq_true, false_iff]
      exact fun e => hv e.symm
  · intro hv
    have hv' : ¬ hexEncodeToString (hmacSHA512 cfg.HashSecret
        (canonicalString (signedParams q))) = q.Get (bytes "vnp_SecureHash") :=
      fun e => hv e.symm
    unfold VNPayService.ProcessReturn
    simp only [callbackSecureHash_eq, hv', decide_False, Bool.false_eq_true, if_false]
    exact ⟨_, rfl, rfl⟩
  · intro hv hu
    unfold VNPayService.ProcessReturn
    simp only [callbackSecureHash_eq, ← hv, decide_True, if_true,
      InvoiceService.UpdateInvoicePaymentStatus, InvoiceRepository.UpdateInvoicePaymentStatus, hu,
      Bool.false_eq_true, if_false]
    exact ⟨_, _, rfl, rfl⟩
  · intro hv hu
    unfold VNPayService.ProcessReturn
    simp only [callbackSecureHash_eq, ← hv, decide_True, if_true,
      InvoiceService.UpdateInvoicePaymentStatus, InvoiceRepository.UpdateInvoicePaymentStatus, hu]
  · unfold VNPayService.ProcessIPN
    simp only [callbackSecureHash_eq]
    by_cases hv : hexEncodeToString (hmacSHA512 cfg.HashSecret
        (canonicalString (signedParams q))) = q.Get (bytes "vnp_SecureHash")
    · simp only [hv, if_true, iff_true]
      have h01 : bytes "01" ≠ bytes "97" := by decide
      have h04 : bytes "04" ≠ bytes "97" := by decide
      have h02 : bytes "02" ≠ bytes "97" := by decide
      have h99 : bytes "99" ≠ bytes "97" := by decide
      have h00 : bytes "00" ≠ bytes "97" := by decide
      split
      · exact h01
      · split
        · exact h04
        · split
          · exact h02
          · split
            · exact h99
            · exact h00
    · simp only [hv, if_false, ne_eq, not_true_eq_false, false_iff]
      exact fun e => hv e.symm

theorem callback_signature_verified_iff_digest_witness :
    (∃ res db1, VNPayService.ProcessReturn sampleConfig sampleDriver
        [sampleInvoice PaymentStatus.Pending 100000] paidQuery = (Except.ok res, db1) ∧
      res.IsValid = true) ∧
    (∃ res, VNPayService.ProcessReturn sampleConfig sampleDriver
        [sampleInvoice PaymentStatus.Pending 100000] forgedQuery
        = (Except.ok res, [sampleInvoice PaymentStatus.Pending 100000]) ∧
      res.IsValid = false) := by
  have h := callback_signature_verified_iff_digest sampleConfig sampleDriver
    [sampleInvoice PaymentStatus.Pending 100000] paidQuery
  have h' := callback_signature_verified_iff_digest sampleConfig sampleDriver
    [sampleInvoice PaymentStatus.Pending 100000] forgedQuery
  exact ⟨h.2.2.1 (by decide!) rfl, h'.2.1 (by decide!)⟩

/-! ## The instant payment notification -/

theorem signatureValid_iff (cfg : VNPayConfig) (q : Values) :
    VNPayService.callbackSecureHash cfg q = q.Get (bytes "vnp_SecureHash") ↔
      SignatureValid cfg q := by
  rw [callbackSecureHash_eq]
  exact eq_comm

theorem processIPN_invalid (cfg : VNPayConfig) (d : Driver) (db : Store) (q : Values)
    (h : ¬ SignatureValid cfg q) :
    VNPayService.ProcessIPN cfg d db q =
      (({ RspCode := bytes "97", Message := bytes "Invalid signature" }, none), db) := by
  unfold VNPayService.ProcessIPN
  rw [if_neg (fun e => h ((signatureValid_iff cfg q).mp e))]

theorem processIPN_not_found (cfg : VNPayConfig) (d : Driver) (db : Store) (q : Values)
    (h : SignatureValid cfg q) (e : DbError)
    (hg : InvoiceRepository.GetInvoiceByVNPayTxnRef d db (q.Get (bytes "vnp_TxnRef"))
      = Except.error e) :
    VNPayService.ProcessIPN cfg d db q =
      (({ RspCode := bytes "01", Message := bytes "Order not found" }, none), db) := by
  unfold VNPayService.ProcessIPN
  rw [if_pos ((signatureValid_iff cfg q).mpr h)]
  simp only [InvoiceService.GetInvoiceByVNPayTxnRef, hg]

theorem processIPN_found (cfg : VNPayConfig) (d : Driver) (db : Store) (q : Values)
    (h : SignatureValid cfg q) (invoice : Invoice)
    (hg : InvoiceRepository.GetInvoiceByVNPayTxnRef d db (q.Get (bytes "vnp_TxnRef"))
      = Except.ok invoice) :
    VNPayService.ProcessIPN cfg d db q =
      if (Atoi (q.Get (bytes "vnp_Amount"))).1.tdiv 100 ≠ toCents invoice.FinalAmount then
        (({ RspCode := bytes "04", Message := bytes "Invalid amount" }, none), db)
      else if invoice.PaymentStatus ≠ PaymentStatus.Pending then
        (({ RspCode := bytes "02", Message := bytes "Order already confirmed" }, none), db)
      else if d.updateFails then
        (({ RspCode := bytes "99", Message := bytes "Error updating payment status" },
          some DbError.failure), db)
      else
        (({ RspCode := bytes "00", Message := bytes "Confirm Success" }, none),
          db.map (fun inv =>
            if inv.VNPayTxnRef = q.Get (bytes "vnp_TxnRef") then
              reconciled inv
                (if q.Get (bytes "vnp_ResponseCode") = bytes "00" ∧
                    q.Get (bytes "vnp_TransactionStatus") = bytes "00" then
                  PaymentStatus.Completed
                else PaymentStatus.Failed) q d.now
            else inv)) := by
  unfold VNPayService.ProcessIPN
  rw [if_pos ((signatureValid_iff cfg q).mpr h)]
  simp only [InvoiceService.GetInvoiceByVNPayTxnRef, hg,
    InvoiceService.UpdateInvoicePaymentStatus, InvoiceRepository.UpdateInvoicePaymentStatus]
  by_cases ha : (Atoi (q.Get (bytes "vnp_Amount"))).1.tdiv 100 = toCents invoice.FinalAmount
  · by_cases hs : invoice.PaymentStatus = PaymentStatus.Pending
    · by_cases hu : d.updateFails = true
      · simp [ha, hs, hu]
      · simp only [ha, hs, hu, ne_eq, not_true_eq_false, if_false, Bool.false_eq_true]
        rfl
    · simp [ha, hs]
  · simp [ha]

/-- C4: a valid-signature notification for the Pending invoice of 100000 that declares
exactly 100 * 100000 minor units is answered "04" / "Invalid amount" and the invoice stays
Pending: `ProcessIPN` divides the declared amount by 100 and compares it with the final
amount multiplied by 100. -/
theorem processIPN_rejects_genuine_amount :
    SignatureValid sampleConfig paidQuery ∧
    Float64.ofInt (Atoi (paidQuery.Get (bytes "vnp_Amount"))).1
      = 100 * (sampleInvoice PaymentStatus.Pending 100000).FinalAmount ∧
    VNPayService.ProcessIPN sampleConfig sampleDriver
        [sampleInvoice PaymentStatus.Pending 100000] paidQuery
      = (({ RspCode := bytes "04", Message := bytes "Invalid amount" }, none),
         [sampleInvoice PaymentStatus.Pending 100000]) := by
  decide!

/-- C5: a valid-signature notification that declares 10000 minor units for the Pending
invoice of 1 (hundred minor units) is answered "00" / "Confirm Success" and the invoice
becomes Completed, although the declared amount differs from the final amount times 100. -/
theorem processIPN_accepts_wrong_amount :
    SignatureValid sampleConfig smallPaidQuery ∧
    Float64.ofInt (Atoi (smallPaidQuery.Get (bytes "vnp_Amount"))).1
      ≠ (sampleInvoice PaymentStatus.Pending 1).FinalAmount * 100 ∧
    VNPayService.ProcessIPN sampleConfig sampleDriver
        [sampleInvoice PaymentStatus.Pending 1] smallPaidQuery
      = (({ RspCode := bytes "00", Message := bytes "Confirm Success" }, none),
         [reconciled (sampleInvoice PaymentStatus.Pending 1) PaymentStatus.Completed
            smallPaidQuery sampleDriver.now]) := by
  decide!

theorem getInvoice_ok (d : Driver) (db : Store) (t : GoString) (inv : Invoice)
    (h : InvoiceRepository.GetInvoiceByVNPayTxnRef d db t = Except.ok inv) :
    d.selectFails = false ∧ db.find? (fun i => i.VNPayTxnRef = t) = some inv := by
  unfold InvoiceRepository.GetInvoiceByVNPayTxnRef at h
  by_cases hs : d.selectFails = true
  · simp [hs] at h
  · simp only [hs, Bool.false_eq_true, if_false] at h
    refine ⟨by simpa using hs, ?_⟩
    split at h
    · rename_i i hi
      cases h
      exact hi
    · cases h

theorem getInvoice_of_find (d : Driver) (db : Store) (t : GoString) (inv : Invoice)
    (hs : d.selectFails = false) (hf : db.find? (fun i => i.VNPayTxnRef = t) = some inv) :
    InvoiceRepository.GetInvoiceByVNPayTxnRef d db t = Except.ok inv := by
  unfold InvoiceRepository.GetInvoiceByVNPayTxnRef
  simp [hs, hf]

theorem getInvoice_absent (d : Driver) (db : Store) (t : GoString)
    (hn : ∀ inv ∈ db, inv.VNPayTxnRef ≠ t) :
    ∃ e, InvoiceRepository.GetInvoiceByVNPayTxnRef d db t = Except.error e := by
  unfold InvoiceRepository.GetInvoiceByVNPayTxnRef
  by_cases hs : d.selectFails = true
  · exact ⟨DbError.failure, by simp [hs]⟩
  · have hf : db.find? (fun i => decide (i.VNPayTxnRef = t)) = none := by
      rw [List.find?_eq_none]
      intro x hx
      simpa using hn x hx
    exact ⟨DbError.noRows, by simp [hs, hf]⟩

theorem find_after_update (db : Store) (t : GoString) (g : Invoice → Invoice)
    (hg : ∀ inv, (g inv).VNPayTxnRef = inv.VNPayTxnRef) :
    (db.map (fun inv => if inv.VNPayTxnRef = t then g inv else inv)).find?
        (fun i => i.VNPayTxnRef = t)
      = (db.find? (fun i => i.VNPayTxnRef = t)).map g := by
  induction db with
  | nil => rfl
  | cons x xs ih =>
    by_cases hx : x.VNPayTxnRef = t
    · simp [List.find?_cons, hx, hg]
    · simp only [List.map_cons, List.find?_cons, hx, if_false, decide_False]
      exact ih

/-- C7: a notification whose `vnp_SecureHash` is not the recomputed digest is answered
"97" / "Invalid signature" without an error, whatever the store holds and whatever the
database would do, and the store is left as it was; whenever `ProcessIPN` changes the store,
the signature was valid. -/
theorem processIPN_invalid_signature_no_effect (cfg : VNPayConfig) (d : Driver) (db : Store)
    (q : Values) :
    (¬ SignatureValid cfg q →
      VNPayService.ProcessIPN cfg d db q =
        (({ RspCode := bytes "97", Message := bytes "Invalid signature" }, none), db) ∧
      ∀ (d' : Driver) (db' : Store),
        (VNPayService.ProcessIPN cfg d' db' q).1 = (VNPayService.ProcessIPN cfg d db q).1) ∧
    ((VNPayService.ProcessIPN cfg d db q).2 ≠ db → SignatureValid cfg q) := by
  constructor
  · intro h
    refine ⟨processIPN_invalid cfg d db q h, fun d' db' => ?_⟩
    rw [processIPN_invalid cfg d db q h, processIPN_invalid cfg d' db' q h]
  · intro hne
    by_contra h
    rw [processIPN_invalid cfg d db q h] at hne
    exact hne rfl

theorem processIPN_invalid_signature_no_effect_witness :
    ¬ SignatureValid sampleConfig forgedQuery ∧
    VNPayService.ProcessIPN sampleConfig sampleDriver
        [sampleInvoice PaymentStatus.Pending 100000] forgedQuery =
      (({ RspCode := bytes "97", Message := bytes "Invalid signature" }, none),
        [sampleInvoice PaymentStatus.Pending 100000]) :=
  ⟨by decide!,
    ((processIPN_invalid_signature_no_effect sampleConfig sampleDriver
      [sampleInvoice PaymentStatus.Pending 100000] forgedQuery).1 (by decide!)).1⟩

/-- C8: a valid-signature notification whose `vnp_TxnRef` is the reference of no invoice in
the store is answered "01" / "Order not found" and the store is left as it was, whatever
amount and response codes it declares. -/
theorem processIPN_unknown_txnRef (cfg : VNPayConfig) (d : Driver) (db : Store) (q : Values)
    (h : SignatureValid cfg q)
    (hn : ∀ inv ∈ db, inv.VNPayTxnRef ≠ q.Get (bytes "vnp_TxnRef")) :
    VNPayService.ProcessIPN cfg d db q =
      (({ RspCode := bytes "01", Message := bytes "Order not found" }, none), db) := by
  obtain ⟨e, he⟩ := getInvoice_absent d db (q.Get (bytes "vnp_TxnRef")) hn
  exact processIPN_not_found cfg d db q h e he

theorem processIPN_unknown_txnRef_witness :
    SignatureValid sampleConfig paidQuery ∧
    (∀ inv ∈ [otherInvoice], inv.VNPayTxnRef ≠ paidQuery.Get (bytes "vnp_TxnRef")) ∧
    VNPayService.ProcessIPN sampleConfig sampleDriver [otherInvoice] paidQuery =
      (({ RspCode := bytes "01", Message := bytes "Order not found" }, none),
        [otherInvoice]) :=
  ⟨by decide!, by decide!,
    processIPN_unknown_txnRef sampleConfig sampleDriver [otherInvoice] paidQuery
      (by decide!) (by decide!)⟩

/-- C6: when `ProcessIPN` answers "00", the same notification processed again on the
resulting store (the lookup working) is answered "02" / "Order already confirmed" and the
store is left as the first run made it, the invoice keeping the Completed or Failed status
of the first run. -/
theorem processIPN_replay_already_confirmed (cfg : VNPayConfig) (d d2 : Driver) (db : Store)
    (q : Values)
    (h : (VNPayService.ProcessIPN cfg d db q).1.1.RspCode = bytes "00")
    (h2 : d2.selectFails = false) :
    VNPayService.ProcessIPN cfg d2 (VNPayService.ProcessIPN cfg d db q).2 q =
      (({ RspCode := bytes "02", Message := bytes "Order already confirmed" }, none),
        (VNPayService.ProcessIPN cfg d db q).2) ∧
    ∃ inv, (VNPayService.ProcessIPN cfg d db q).2.find?
        (fun i => i.VNPayTxnRef = q.Get (bytes "vnp_TxnRef")) = some inv ∧
      (inv.PaymentStatus = PaymentStatus.Completed ∨
        inv.PaymentStatus = PaymentStatus.Failed) := by
  have h97 : bytes "97" ≠ bytes "00" := by decide
  have h01 : bytes "01" ≠ bytes "00" := by decide
  have h04 : bytes "04" ≠ bytes "00" := by decide
  have h02 : bytes "02" ≠ bytes "00" := by decide
  have h99 : bytes "99" ≠ bytes "00" := by decide
  by_cases hv : SignatureValid cfg q
  swap
  · rw [processIPN_invalid cfg d db q hv] at h
    exact absurd h h97
  rcases hg : InvoiceRepository.GetInvoiceByVNPayTxnRef d db (q.Get (bytes "vnp_TxnRef"))
    with e | invoice
  · rw [processIPN_not_found cfg d db q hv e hg] at h
    exact absurd h h01
  rw [processIPN_found cfg d db q hv invoice hg] at h ⊢
  by_cases ha : (Atoi (q.Get (bytes "vnp_Amount"))).1.tdiv 100 = toCents invoice.FinalAmount
  swap
  · rw [if_pos ha] at h
    exact absurd h h04
  by_cases hs : invoice.PaymentStatus = PaymentStatus.Pending
  swap
  · rw [if_neg (not_not.mpr ha), if_pos hs] at h
    exact absurd h h02
  by_cases hu : d.updateFails = true
  · rw [if_neg (not_not.mpr ha), if_neg (not_not.mpr hs), if_pos hu] at h
    exact absurd h h99
  rw [if_neg (not_not.mpr ha), if_neg (not_not.mpr hs), if_neg hu]
  simp only
  have hfind := (getInvoice_ok d db _ invoice hg).2
  have hfind2 := find_after_update db (q.Get (bytes "vnp_TxnRef"))
    (fun inv => reconciled inv
      (if q.Get (bytes "vnp_ResponseCode") = bytes "00" ∧
          q.Get (bytes "vnp_TransactionStatus") = bytes "00" then
        PaymentStatus.Completed
      else PaymentStatus.Failed) q d.now) (fun _ => rfl)
  rw [hfind] at hfind2
  simp only [Option.map_some'] at hfind2
  constructor
  · rw [processIPN_found cfg d2 _ q hv _ (getInvoice_of_find d2 _ _ _ h2 hfind2)]
    have ha' : (Atoi (q.Get (bytes "vnp_Amount"))).1.tdiv 100 = toCents (reconciled invoice
      (if q.Get (bytes "vnp_ResponseCode") = bytes "00" ∧
          q.Get (bytes "vnp_TransactionStatus") = bytes "00" then
        PaymentStatus.Completed
      else PaymentStatus.Failed) q d.now).FinalAmount := ha
    rw [if_neg (not_not.mpr ha')]
    rw [if_pos]
    simp only [reconciled]
    split <;> simp
  · refine ⟨_, hfind2, ?_⟩
    simp only [reconciled]
    split
    · exact Or.inl rfl
    · exact Or.inr rfl

theorem processIPN_replay_already_confirmed_witness :
    (VNPayService.ProcessIPN sampleConfig sampleDriver
      [sampleInvoice PaymentStatus.Pending 1] smallPaidQuery).1.1.RspCode = bytes "00" ∧
    VNPayService.ProcessIPN sampleConfig sampleDriver
      (VNPayService.ProcessIPN sampleConfig sampleDriver
        [sampleInvoice PaymentStatus.Pending 1] smallPaidQuery).2 smallPaidQuery =
      (({ RspCode := bytes "02", Message := bytes "Order already confirmed" }, none),
        (VNPayService.ProcessIPN sampleConfig sampleDriver
          [sampleInvoice PaymentStatus.Pending 1] smallPaidQuery).2) :=
  ⟨by decide!,
    (processIPN_replay_already_confirmed sampleConfig sampleDriver sampleDriver
      [sampleInvoice PaymentStatus.Pending 1] smallPaidQuery (by decide!) rfl).1⟩

/-! ## The return of the customer -/

theorem processReturn_valid (cfg : VNPayConfig) (d : Driver) (db : Store) (q : Values)
    (h : SignatureValid cfg q) (hu : d.updateFails = false) :
    ∃ res, VNPayService.ProcessReturn cfg d db q =
        (Except.ok res,
          db.map (fun inv =>
            if inv.VNPayTxnRef = q.Get (bytes "vnp_TxnRef") then
              reconciled inv
                (if q.Get (bytes "vnp_ResponseCode") = bytes "00" then PaymentStatus.Completed
                else PaymentStatus.Failed) q d.now
            else inv)) ∧
      res.IsValid = true ∧
      res.Result = (if q.Get (bytes "vnp_ResponseCode") = bytes "00" then
        bytes "Payment successful" else bytes "Payment failed") := by
  unfold VNPayService.ProcessReturn
  simp only [(signatureValid_iff cfg q).mpr h, decide_True, if_true,
    InvoiceService.UpdateInvoicePaymentStatus, InvoiceRepository.UpdateInvoicePaymentStatus, hu,
    Bool.false_eq_true, if_false]
  exact ⟨_, rfl, rfl, rfl⟩

/-- C9: a valid-signature Return with the response code 24 moves the Completed invoice of
the store to Failed, and one with the response code 00 moves a Refunded invoice to
Completed: `ProcessReturn` updates the status without looking at the current one. -/
theorem processReturn_overwrites_terminal_status :
    SignatureValid sampleConfig cancelledQuery ∧
    (VNPayService.ProcessReturn sampleConfig sampleDriver
        [sampleInvoice PaymentStatus.Completed 100000] cancelledQuery).2
      = [reconciled (sampleInvoice PaymentStatus.Completed 100000) PaymentStatus.Failed
          cancelledQuery sampleDriver.now] ∧
    SignatureValid sampleConfig paidQuery ∧
    (VNPayService.ProcessReturn sampleConfig sampleDriver
        [sampleInvoice PaymentStatus.Refunded 100000] paidQuery).2
      = [reconciled (sampleInvoice PaymentStatus.Refunded 100000) PaymentStatus.Completed
          paidQuery sampleDriver.now] := by
  decide!

/-- C10: for a Return with a valid signature whose `vnp_TxnRef` resolves to an invoice (a
Pending one in particular), the store update succeeding: with the response code "00" the
invoice becomes Completed and the result is valid with "Payment successful"; with any other
response code the invoice becomes Failed and the result is valid with "Payment failed". -/
theorem processReturn_settles_invoice (cfg : VNPayConfig) (d : Driver) (db : Store)
    (q : Values) (inv : Invoice)
    (h : SignatureValid cfg q) (hu : d.updateFails = false)
    (hf : db.find? (fun i => i.VNPayTxnRef = q.Get (bytes "vnp_TxnRef")) = some inv) :
    ∃ res db1 inv1, VNPayService.ProcessReturn cfg d db q = (Except.ok res, db1) ∧
      res.IsValid = true ∧
      db1.find? (fun i => i.VNPayTxnRef = q.Get (bytes "vnp_TxnRef")) = some inv1 ∧
      inv1.InvoiceID = inv.InvoiceID ∧
      (q.Get (bytes "vnp_ResponseCode") = bytes "00" →
        res.Result = bytes "Payment successful" ∧
        inv1.PaymentStatus = PaymentStatus.Completed) ∧
      (q.Get (bytes "vnp_ResponseCode") ≠ bytes "00" →
        res.Result = bytes "Payment failed" ∧
        inv1.PaymentStatus = PaymentStatus.Failed) := by
  obtain ⟨res, hres, hvalid, hresult⟩ := processReturn_valid cfg d db q h hu
  have hfind := find_after_update db (q.Get (bytes "vnp_TxnRef"))
    (fun inv => reconciled inv
      (if q.Get (bytes "vnp_ResponseCode") = bytes "00" then PaymentStatus.Completed
      else PaymentStatus.Failed) q d.now) (fun _ => rfl)
  rw [hf] at hfind
  simp only [Option.map_some'] at hfind
  refine ⟨res, _, _, hres, hvalid, hfind, rfl, ?_, ?_⟩
  · intro hc
    rw [hresult, if_pos hc]
    simp [reconciled, hc]
  · intro hc
    rw [hresult, if_neg hc]
    simp [reconciled, hc]

theorem processReturn_settles_invoice_witness :
    (∃ res db1 inv1, VNPayService.ProcessReturn sampleConfig sampleDriver
        [sampleInvoice PaymentStatus.Pending 100000] paidQuery = (Except.ok res, db1) ∧
      res.Result = bytes "Payment successful" ∧
      db1.find? (fun i => i.VNPayTxnRef = bytes "1234567") = some inv1 ∧
      inv1.PaymentStatus = PaymentStatus.Completed) ∧
    (∃ res db1 inv1, VNPayService.ProcessReturn sampleConfig sampleDriver
        [sampleInvoice PaymentStatus.Pending 100000] cancelledQuery = (Except.ok res, db1) ∧
      res.Result = bytes "Payment failed" ∧
      db1.find? (fun i => i.VNPayTxnRef = bytes "1234567") = some inv1 ∧
      inv1.PaymentStatus = PaymentStatus.Failed) := by
  obtain ⟨res, db1, inv1, h1, _, h3, _, h5, _⟩ :=
    processReturn_settles_invoice sampleConfig sampleDriver
      [sampleInvoice PaymentStatus.Pending 100000] paidQuery
      (sampleInvoice PaymentStatus.Pending 100000) (by decide!) rfl (by decide!)
  obtain ⟨res', db1', inv1', h1', _, h3', _, _, h6'⟩ :=
    processReturn_settles_invoice sampleConfig sampleDriver
      [sampleInvoice PaymentStatus.Pending 100000] cancelledQuery
      (sampleInvoice PaymentStatus.Pending 100000) (by decide!) rfl (by decide!)
  exact ⟨⟨res, db1, inv1, h1, (h5 (by decide!)).1, h3, (h5 (by decide!)).2⟩,
    ⟨res', db1', inv1', h1', (h6' (by decide!)).1, h3', (h6' (by decide!)).2⟩⟩

/-! ## Outcomes of the callbacks -/

theorem processIPN_cases (cfg : VNPayConfig) (d : Driver) (db : Store) (q : Values) :
    (¬ SignatureValid cfg q ∧
      VNPayService.ProcessIPN cfg d db q =
        (({ RspCode := bytes "97", Message := bytes "Invalid signature" }, none), db)) ∨
    (SignatureValid cfg q ∧
      (∃ e, InvoiceRepository.GetInvoiceByVNPayTxnRef d db (q.Get (bytes "vnp_TxnRef"))
        = Except.error e) ∧
      VNPayService.ProcessIPN cfg d db q =
        (({ RspCode := bytes "01", Message := bytes "Order not found" }, none), db)) ∨
    (SignatureValid cfg q ∧
      ∃ invoice, InvoiceRepository.GetInvoiceByVNPayTxnRef d db (q.Get (bytes "vnp_TxnRef"))
          = Except.ok invoice ∧
        ((Atoi (q.Get (bytes "vnp_Amount"))).1.tdiv 100 ≠ toCents invoice.FinalAmount ∧
          VNPayService.ProcessIPN cfg d db q =
            (({ RspCode := bytes "04", Message := bytes "Invalid amount" }, none), db) ∨
        (Atoi (q.Get (bytes "vnp_Amount"))).1.tdiv 100 = toCents invoice.FinalAmount ∧
          (invoice.PaymentStatus ≠ PaymentStatus.Pending ∧
            VNPayService.ProcessIPN cfg d db q =
              (({ RspCode := bytes "02", Message := bytes "Order already confirmed" }, none),
                db) ∨
          invoice.PaymentStatus = PaymentStatus.Pending ∧
            (d.updateFails = true ∧
              VNPayService.ProcessIPN cfg d db q =
                (({ RspCode := bytes "99", Message := bytes "Error updating payment status" },
                  some DbError.failure), db) ∨
            d.updateFails = false ∧
              VNPayService.ProcessIPN cfg d db q =
                (({ RspCode := bytes "00", Message := bytes "Confirm Success" }, none),
                  db.map (fun inv =>
                    if inv.VNPayTxnRef = q.Get (bytes "vnp_TxnRef") then
                      reconciled inv
                        (if q.Get (bytes "vnp_ResponseCode") = bytes "00" ∧
                            q.Get (bytes "vnp_TransactionStatus") = bytes "00" then
                          PaymentStatus.Completed
                        else PaymentStatus.Failed) q d.now
                    else inv)))))) := by
  by_cases hv : SignatureValid cfg q
  swap
  · exact Or.inl ⟨hv, processIPN_invalid cfg d db q hv⟩
  rcases hg : InvoiceRepository.GetInvoiceByVNPayTxnRef d db (q.Get (bytes "vnp_TxnRef"))
    with e | invoice
  · exact Or.inr (Or.inl ⟨hv, ⟨e, rfl⟩, processIPN_not_found cfg d db q hv e hg⟩)
  refine Or.inr (Or.inr ⟨hv, invoice, rfl, ?_⟩)
  rw [processIPN_found cfg d db q hv invoice hg]
  by_cases ha : (Atoi (q.Get (bytes "vnp_Amount"))).1.tdiv 100 = toCents invoice.FinalAmount
  swap
  · exact Or.inl ⟨ha, by rw [if_pos ha]⟩
  refine Or.inr ⟨ha, ?_⟩
  rw [if_neg (not_not.mpr ha)]
  by_cases hs : invoice.PaymentStatus = PaymentStatus.Pending
  swap
  · exact Or.inl ⟨hs, by rw [if_pos hs]⟩
  refine Or.inr ⟨hs, ?_⟩
  rw [if_neg (not_not.mpr hs)]
  by_cases hu : d.updateFails = true
  · exact Or.inl ⟨hu, by rw [if_pos hu]⟩
  · exact Or.inr ⟨by simpa using hu, by rw [if_neg hu]⟩

theorem processReturn_invalid (cfg : VNPayConfig) (d : Driver) (db : Store) (q : Values)
    (h : ¬ SignatureValid cfg q) :
    ∃ res, VNPayService.ProcessReturn cfg d db q = (Except.ok res, db) ∧
      res.IsValid = false ∧ res.Result = bytes "Invalid signature" ∧
      res.InvoiceID =
        (match InvoiceRepository.GetInvoiceByVNPayTxnRef d db (q.Get (bytes "vnp_TxnRef")) with
          | Except.ok invoice => invoice.InvoiceID
          | Except.error _ => []) := by
  have hv : ¬ VNPayService.callbackSecureHash cfg q = q.Get (bytes "vnp_SecureHash") :=
    fun e => h ((signatureValid_iff cfg q).mp e)
  unfold VNPayService.ProcessReturn
  simp only [hv, decide_False, Bool.false_eq_true, if_false]
  exact ⟨_, rfl, rfl, rfl, rfl⟩

theorem processReturn_valid_invoiceID (cfg : VNPayConfig) (d : Driver) (db : Store)
    (q : Values) (h : SignatureValid cfg q) (hu : d.updateFails = false) :
    ∃ res, VNPayService.ProcessReturn cfg d db q =
        (Except.ok res,
          db.map (fun inv =>
            if inv.VNPayTxnRef = q.Get (bytes "vnp_TxnRef") then
              reconciled inv
                (if q.Get (bytes "vnp_ResponseCode") = bytes "00" then PaymentStatus.Completed
                else PaymentStatus.Failed) q d.now
            else inv)) ∧
      res.InvoiceID =
        (match InvoiceRepository.GetInvoiceByVNPayTxnRef d
            (db.map (fun inv =>
              if inv.VNPayTxnRef = q.Get (bytes "vnp_TxnRef") then
                reconciled inv
                  (if q.Get (bytes "vnp_ResponseCode") = bytes "00" then
                    PaymentStatus.Completed
                  else PaymentStatus.Failed) q d.now
              else inv)) (q.Get (bytes "vnp_TxnRef")) with
          | Except.ok invoice => invoice.InvoiceID
          | Except.error _ => []) := by
  unfold VNPayService.ProcessReturn
  simp only [(signatureValid_iff cfg q).mpr h, decide_True, if_true,
    InvoiceService.UpdateInvoicePaymentStatus, InvoiceRepository.UpdateInvoicePaymentStatus, hu,
    Bool.false_eq_true, if_false]
  exact ⟨_, rfl, rfl⟩

theorem processReturn_update_fails (cfg : VNPayConfig) (d : Driver) (db : Store)
    (q : Values) (h : SignatureValid cfg q) (hu : d.updateFails = true) :
    VNPayService.ProcessReturn cfg d db q = (Except.error DbError.failure, db) := by
  unfold VNPayService.ProcessReturn
  simp only [(signatureValid_iff cfg q).mpr h, decide_True, if_true,
    InvoiceService.UpdateInvoicePaymentStatus, InvoiceRepository.UpdateInvoicePaymentStatus, hu]

/-- C11: a Return whose `vnp_SecureHash` is not the recomputed digest leaves the invoice
store as it was and returns, without an error, a result with `IsValid = false` and the
text "Invalid signature". -/
theorem processReturn_invalid_signature_no_mutation (cfg : VNPayConfig) (d : Driver)
    (db : Store) (q : Values) (h : ¬ SignatureValid cfg q) :
    ∃ res, VNPayService.ProcessReturn cfg d db q = (Except.ok res, db) ∧
      res.IsValid = false ∧ res.Result = bytes "Invalid signature" := by
  obtain ⟨res, h1, h2, h3, _⟩ := processReturn_invalid cfg d db q h
  exact ⟨res, h1, h2, h3⟩

theorem processReturn_invalid_signature_no_mutation_witness :
    ¬ SignatureValid sampleConfig forgedQuery ∧
    ∃ res, VNPayService.ProcessReturn sampleConfig sampleDriver
        [sampleInvoice PaymentStatus.Pending 100000] forgedQuery
        = (Except.ok res, [sampleInvoice PaymentStatus.Pending 100000]) ∧
      res.IsValid = false ∧ res.Result = bytes "Invalid signature" :=
  ⟨by decide!,
    processReturn_invalid_signature_no_mutation sampleConfig sampleDriver
      [sampleInvoice PaymentStatus.Pending 100000] forgedQuery (by decide!)⟩

theorem processIPN_ok (cfg : VNPayConfig) (d : Driver) (db : Store) (q : Values)
    (h : (VNPayService.ProcessIPN cfg d db q).1.1.RspCode = bytes "00") :
    ∃ invoice, db.find? (fun i => i.VNPayTxnRef = q.Get (bytes "vnp_TxnRef")) = some invoice ∧
      invoice.PaymentStatus = PaymentStatus.Pending ∧
      (VNPayService.ProcessIPN cfg d db q).2 =
        db.map (fun inv =>
          if inv.VNPayTxnRef = q.Get (bytes "vnp_TxnRef") then
            reconciled inv
              (if q.Get (bytes "vnp_ResponseCode") = bytes "00" ∧
                  q.Get (bytes "vnp_TransactionStatus") = bytes "00" then
                PaymentStatus.Completed
              else PaymentStatus.Failed) q d.now
          else inv) := by
  have h97 : bytes "97" ≠ bytes "00" := by decide
  have h01 : bytes "01" ≠ bytes "00" := by decide
  have h04 : bytes "04" ≠ bytes "00" := by decide
  have h02 : bytes "02" ≠ bytes "00" := by decide
  have h99 : bytes "99" ≠ bytes "00" := by decide
  rcases processIPN_cases cfg d db q with ⟨_, e⟩ | ⟨_, _, e⟩ | ⟨_, invoice, hg, hc⟩
  · rw [e] at h
    exact absurd h h97
  · rw [e] at h
    exact absurd h h01
  · rcases hc with ⟨_, e⟩ | ⟨_, ⟨_, e⟩ | ⟨hp, ⟨_, e⟩ | ⟨_, e⟩⟩⟩
    · rw [e] at h
      exact absurd h h04
    · rw [e] at h
      exact absurd h h02
    · rw [e] at h
      exact absurd h h99
    · exact ⟨invoice, (getInvoice_ok d db _ invoice hg).2, hp, by rw [e]⟩

/-- C12: after a notification that `ProcessIPN` answers "00", the invoice of its
`vnp_TxnRef` (every row with that reference) is Completed exactly when both
`vnp_ResponseCode` and `vnp_TransactionStatus` are "00" and Failed otherwise, and its bank
code, gateway transaction number and pay date are the callback's `vnp_BankCode`,
`vnp_TransactionNo` and `vnp_PayDate`. -/
theorem processIPN_persists_gateway_outcome (cfg : VNPayConfig) (d : Driver) (db : Store)
    (q : Values) (h : (VNPayService.ProcessIPN cfg d db q).1.1.RspCode = bytes "00") :
    (∃ inv inv1,
      db.find? (fun i => i.VNPayTxnRef = q.Get (bytes "vnp_TxnRef")) = some inv ∧
      inv.PaymentStatus = PaymentStatus.Pending ∧
      (VNPayService.ProcessIPN cfg d db q).2.find?
        (fun i => i.VNPayTxnRef = q.Get (bytes "vnp_TxnRef")) = some inv1 ∧
      inv1.InvoiceID = inv.InvoiceID) ∧
    ∀ row ∈ (VNPayService.ProcessIPN cfg d db q).2,
      row.VNPayTxnRef = q.Get (bytes "vnp_TxnRef") →
      (row.PaymentStatus = PaymentStatus.Completed ↔
        (q.Get (bytes "vnp_ResponseCode") = bytes "00" ∧
          q.Get (bytes "vnp_TransactionStatus") = bytes "00")) ∧
      (row.PaymentStatus = PaymentStatus.Failed ↔
        ¬ (q.Get (bytes "vnp_ResponseCode") = bytes "00" ∧
          q.Get (bytes "vnp_TransactionStatus") = bytes "00")) ∧
      row.VNPayBankCode = q.Get (bytes "vnp_BankCode") ∧
      row.VNPayTxnNo = q.Get (bytes "vnp_TransactionNo") ∧
      row.VNPayPayDate = q.Get (bytes "vnp_PayDate") := by
  obtain ⟨invoice, hfind, hp, hdb⟩ := processIPN_ok cfg d db q h
  rw [hdb]
  constructor
  · have hf := find_after_update db (q.Get (bytes "vnp_TxnRef"))
      (fun inv => reconciled inv
        (if q.Get (bytes "vnp_ResponseCode") = bytes "00" ∧
            q.Get (bytes "vnp_TransactionStatus") = bytes "00" then
          PaymentStatus.Completed
        else PaymentStatus.Failed) q d.now) (fun _ => rfl)
    rw [hfind] at hf
    exact ⟨invoice, _, hfind, hp, hf, rfl⟩
  · intro row hrow href
    obtain ⟨x, _, hx⟩ := List.mem_map.mp hrow
    by_cases hxt : x.VNPayTxnRef = q.Get (bytes "vnp_TxnRef")
    · rw [if_pos hxt] at hx
      subst hx
      by_cases hc : q.Get (bytes "vnp_ResponseCode") = bytes "00" ∧
          q.Get (bytes "vnp_TransactionStatus") = bytes "00"
      · simp [reconciled, hc]
      · simp only [reconciled, if_neg hc]
        simp [hc]
    · rw [if_neg hxt] at hx
      subst hx
      exact absurd href hxt

theorem processIPN_persists_gateway_outcome_witness :
    (VNPayService.ProcessIPN sampleConfig sampleDriver
      [sampleInvoice PaymentStatus.Pending 1] smallPaidQuery).1.1.RspCode = bytes "00" ∧
    ∀ row ∈ (VNPayService.ProcessIPN sampleConfig sampleDriver
        [sampleInvoice PaymentStatus.Pending 1] smallPaidQuery).2,
      row.VNPayTxnRef = bytes "1234567" →
      row.PaymentStatus = PaymentStatus.Completed ∧
      row.VNPayBankCode = bytes "NCB" ∧
      row.VNPayTxnNo = bytes "14123456" ∧
      row.VNPayPayDate = bytes "20250101120500" := by
  have h := processIPN_persists_gateway_outcome sampleConfig sampleDriver
    [sampleInvoice PaymentStatus.Pending 1] smallPaidQuery (by decide!)
  refine ⟨by decide!, fun row hrow href => ?_⟩
  obtain ⟨h1, _, h3, h4, h5⟩ := h.2 row hrow href
  exact ⟨h1.mpr (by decide!), h3, h4, h5⟩

/-- C13: `ProcessIPN` always returns an acknowledgment, and its pair of code and message
is one of six: ("00", "Confirm Success"), ("01", "Order not found"),
("02", "Order already confirmed"), ("04", "Invalid amount"), ("97", "Invalid signature"),
("99", "Error updating payment status"). "99" is returned exactly when the signature is
valid, the invoice is found, passes the amount check and is Pending, and the store update
fails; an error is returned exactly with "99". -/
theorem processIPN_acknowledgment_codes (cfg : VNPayConfig) (d : Driver) (db : Store)
    (q : Values) :
    (VNPayService.ProcessIPN cfg d db q).1.1 ∈
      [ ({ RspCode := bytes "00", Message := bytes "Confirm Success" } : VNPayIPNResponse),
        { RspCode := bytes "01", Message := bytes "Order not found" },
        { RspCode := bytes "02", Message := bytes "Order already confirmed" },
        { RspCode := bytes "04", Message := bytes "Invalid amount" },
        { RspCode := bytes "97", Message := bytes "Invalid signature" },
        { RspCode := bytes "99", Message := bytes "Error updating payment status" } ] ∧
    ((VNPayService.ProcessIPN cfg d db q).1.1.RspCode = bytes "99" ↔
      SignatureValid cfg q ∧
      ∃ invoice,
        InvoiceService.GetInvoiceByVNPayTxnRef d db (q.Get (bytes "vnp_TxnRef"))
          = Except.ok invoice ∧
        (Atoi (q.Get (bytes "vnp_Amount"))).1.tdiv 100 = toCents invoice.FinalAmount ∧
        invoice.PaymentStatus = PaymentStatus.Pending ∧
        ∃ err, InvoiceService.UpdateInvoicePaymentStatus d db (q.Get (bytes "vnp_TxnRef"))
            (if q.Get (bytes "vnp_ResponseCode") = bytes "00" ∧
                q.Get (bytes "vnp_TransactionStatus") = bytes "00" then
              PaymentStatus.Completed
            else PaymentStatus.Failed)
            [ (bytes "transactionNo", q.Get (bytes "vnp_TransactionNo")),
              (bytes "bankCode", q.Get (bytes "vnp_BankCode")),
              (bytes "payDate", q.Get (bytes "vnp_PayDate")) ] = Except.error err) ∧
    ((VNPayService.ProcessIPN cfg d db q).1.2 ≠ none ↔
      (VNPayService.ProcessIPN cfg d db q).1.1.RspCode = bytes "99") := by
  have h97 : bytes "97" ≠ bytes "99" := by decide
  have h01 : bytes "01" ≠ bytes "99" := by decide
  have h04 : bytes "04" ≠ bytes "99" := by decide
  have h02 : bytes "02" ≠ bytes "99" := by decide
  have h00 : bytes "00" ≠ bytes "99" := by decide
  have hupd : ∀ (st : PaymentStatus) (data : StringMap),
      (∃ err, InvoiceService.UpdateInvoicePaymentStatus d db (q.Get (bytes "vnp_TxnRef")) st
        data = Except.error err) ↔ d.updateFails = true := by
    intro st data
    unfold InvoiceService.UpdateInvoicePaymentStatus
      InvoiceRepository.UpdateInvoicePaymentStatus
    by_cases hu : d.updateFails = true
    · simp [hu]
    · simp [hu]
  simp only [InvoiceService.GetInvoiceByVNPayTxnRef, hupd]
  rcases processIPN_cases cfg d db q with ⟨hv, e⟩ | ⟨_, ⟨er, hg⟩, e⟩ | ⟨hv, invoice, hg, hc⟩
  · rw [e]
    refine ⟨by simp, ?_, by simpa using h97⟩
    exact ⟨fun h => absurd h h97, fun h => absurd h.1 hv⟩
  · rw [e]
    refine ⟨by simp, ?_, by simpa using h01⟩
    refine ⟨fun h => absurd h h01, fun h => ?_⟩
    obtain ⟨_, invoice, hg', _⟩ := h
    rw [hg] at hg'
    cases hg'
  · rcases hc with ⟨ha, e⟩ | ⟨ha, ⟨hs, e⟩ | ⟨hp, ⟨hu, e⟩ | ⟨hu, e⟩⟩⟩
    · rw [e]
      refine ⟨by simp, ?_, by simpa using h04⟩
      refine ⟨fun h => absurd h h04, fun h => ?_⟩
      obtain ⟨_, invoice', hg', ha', _⟩ := h
      rw [hg] at hg'
      cases hg'
      exact absurd ha' ha
    · rw [e]
      refine ⟨by simp, ?_, by simpa using h02⟩
      refine ⟨fun h => absurd h h02, fun h => ?_⟩
      obtain ⟨_, invoice', hg', _, hp', _⟩ := h
      rw [hg] at hg'
      cases hg'
      exact absurd hp' hs
    · rw [e]
      refine ⟨by simp, ?_, by simp⟩
      exact ⟨fun _ => ⟨hv, invoice, hg, ha, hp, hu⟩, fun _ => rfl⟩
    · rw [e]
      refine ⟨by simp, ?_, by simpa using h00⟩
      refine ⟨fun h => absurd h h00, fun h => ?_⟩
      obtain ⟨_, _, _, _, _, hu'⟩ := h
      rw [hu] at hu'
      cases hu'

theorem processIPN_acknowledgment_codes_witness :
    (VNPayService.ProcessIPN sampleConfig sampleDriver
        [sampleInvoice PaymentStatus.Pending 1] smallPaidQuery).1
      = ({ RspCode := bytes "00", Message := bytes "Confirm Success" }, none) ∧
    (VNPayService.ProcessIPN sampleConfig sampleDriver [] smallPaidQuery).1
      = ({ RspCode := bytes "01", Message := bytes "Order not found" }, none) ∧
    (VNPayService.ProcessIPN sampleConfig sampleDriver
        [sampleInvoice PaymentStatus.Completed 1] smallPaidQuery).1
      = ({ RspCode := bytes "02", Message := bytes "Order already confirmed" }, none) ∧
    (VNPayService.ProcessIPN sampleConfig sampleDriver
        [sampleInvoice PaymentStatus.Pending 2] smallPaidQuery).1
      = ({ RspCode := bytes "04", Message := bytes "Invalid amount" }, none) ∧
    (VNPayService.ProcessIPN sampleConfig sampleDriver
        [sampleInvoice PaymentStatus.Pending 1] forgedQuery).1
      = ({ RspCode := bytes "97", Message := bytes "Invalid signature" }, none) ∧
    (VNPayService.ProcessIPN sampleConfig failingUpdateDriver
        [sampleInvoice PaymentStatus.Pending 1] smallPaidQuery).1
      = ({ RspCode := bytes "99", Message := bytes "Error updating payment status" },
          some DbError.failure) ∧
    (VNPayService.ProcessIPN sampleConfig failingUpdateDriver
        [sampleInvoice PaymentStatus.Pending 1] smallPaidQuery).1.2 ≠ none :=
  ⟨by decide!, by decide!, by decide!, by decide!, by decide!, by decide!,
    (processIPN_acknowledgment_codes sampleConfig failingUpdateDriver
      [sampleInvoice PaymentStatus.Pending 1] smallPaidQuery).2.2.mpr (by decide!)⟩

/-- C14: the result of `ProcessReturn` carries in `InvoiceID` the identifier of the
invoice that the store returns for `vnp_TxnRef`, with a valid and with an invalid
signature alike, and the empty string when no invoice has that reference. A result is
returned for every invalid signature and for every valid one whose update succeeds. -/
theorem processReturn_reports_invoiceID (cfg : VNPayConfig) (d : Driver) (db : Store)
    (q : Values) :
    (∀ res db1 inv, VNPayService.ProcessReturn cfg d db q = (Except.ok res, db1) →
      d.selectFails = false →
      db.find? (fun i => i.VNPayTxnRef = q.Get (bytes "vnp_TxnRef")) = some inv →
      res.InvoiceID = inv.InvoiceID) ∧
    (∀ res db1, VNPayService.ProcessReturn cfg d db q = (Except.ok res, db1) →
      (∀ inv ∈ db, inv.VNPayTxnRef ≠ q.Get (bytes "vnp_TxnRef")) →
      res.InvoiceID = []) ∧
    (¬ SignatureValid cfg q →
      ∃ res, VNPayService.ProcessReturn cfg d db q = (Except.ok res, db) ∧
        res.IsValid = false) ∧
    (SignatureValid cfg q → d.updateFails = false →
      ∃ res db1, VNPayService.ProcessReturn cfg d db q = (Except.ok res, db1) ∧
        res.IsValid = true) := by
  have key : ∀ res db1, VNPayService.ProcessReturn cfg d db q = (Except.ok res, db1) →
      ∃ g : Invoice → Invoice, (∀ i, (g i).VNPayTxnRef = i.VNPayTxnRef) ∧
        (∀ i, (g i).InvoiceID = i.InvoiceID) ∧
        res.InvoiceID =
          (match InvoiceRepository.GetInvoiceByVNPayTxnRef d
              (db.map (fun inv =>
                if inv.VNPayTxnRef = q.Get (bytes "vnp_TxnRef") then g inv else inv))
              (q.Get (bytes "vnp_TxnRef")) with
            | Except.ok invoice => invoice.InvoiceID
            | Except.error _ => []) := by
    intro res db1 h
    by_cases hv : SignatureValid cfg q
    · by_cases hu : d.updateFails = true
      · rw [processReturn_update_fails cfg d db q hv hu] at h
        cases h
      · obtain ⟨res', h1, h2⟩ :=
          processReturn_valid_invoiceID cfg d db q hv (by simpa using hu)
        rw [h1] at h
        cases h
        exact ⟨fun inv => reconciled inv
          (if q.Get (bytes "vnp_ResponseCode") = bytes "00" then PaymentStatus.Completed
          else PaymentStatus.Failed) q d.now, fun _ => rfl, fun _ => rfl, h2⟩
    · obtain ⟨res', h1, _, _, h4⟩ := processReturn_invalid cfg d db q hv
      rw [h1] at h
      cases h
      refine ⟨id, fun _ => rfl, fun _ => rfl, ?_⟩
      rw [h4]
      simp
  refine ⟨?_, ?_, ?_, ?_⟩
  · intro res db1 inv h hs hf
    obtain ⟨g, hg1, hg2, hid⟩ := key res db1 h
    have hfind := find_after_update db (q.Get (bytes "vnp_TxnRef")) g hg1
    rw [hf] at hfind
    rw [hid, getInvoice_of_find d _ _ (g inv) hs hfind]
    exact hg2 inv
  · intro res db1 h hn
    obtain ⟨g, hg1, _, hid⟩ := key res db1 h
    have hn' : ∀ inv ∈ db.map (fun inv =>
        if inv.VNPayTxnRef = q.Get (bytes "vnp_TxnRef") then g inv else inv),
        inv.VNPayTxnRef ≠ q.Get (bytes "vnp_TxnRef") := by
      intro inv hinv
      obtain ⟨x, hx, hxe⟩ := List.mem_map.mp hinv
      rw [if_neg (hn x hx)] at hxe
      subst hxe
      exact hn x hx
    obtain ⟨e, he⟩ := getInvoice_absent d _ (q.Get (bytes "vnp_TxnRef")) hn'
    rw [hid, he]
  · intro hv
    obtain ⟨res, h1, h2, _⟩ := processReturn_invalid cfg d db q hv
    exact ⟨res, h1, h2⟩
  · intro hv hu
    obtain ⟨res, h1, h2, _⟩ := processReturn_valid cfg d db q hv hu
    exact ⟨res, _, h1, h2⟩

theorem processReturn_reports_invoiceID_witness :
    (∃ res db1, VNPayService.ProcessReturn sampleConfig sampleDriver
        [sampleInvoice PaymentStatus.Pending 100000] paidQuery = (Except.ok res, db1) ∧
      res.IsValid = true ∧
      res.InvoiceID = bytes "3f2b8c1e-7d4a-4e8f-9a6b-1c2d3e4f5a6b") ∧
    (∃ res db1, VNPayService.ProcessReturn sampleConfig sampleDriver
        [sampleInvoice PaymentStatus.Pending 100000] forgedQuery = (Except.ok res, db1) ∧
      res.IsValid = false ∧
      res.InvoiceID = bytes "3f2b8c1e-7d4a-4e8f-9a6b-1c2d3e4f5a6b") ∧
    (∃ res db1, VNPayService.ProcessReturn sampleConfig sampleDriver
        [otherInvoice] paidQuery = (Except.ok res, db1) ∧
      res.InvoiceID = []) := by
  have h1 := processReturn_reports_invoiceID sampleConfig sampleDriver
    [sampleInvoice PaymentStatus.Pending 100000] paidQuery
  have h2 := processReturn_reports_invoiceID sampleConfig sampleDriver
    [sampleInvoice PaymentStatus.Pending 100000] forgedQuery
  have h3 := processReturn_reports_invoiceID sampleConfig sampleDriver [otherInvoice] paidQuery
  obtain ⟨r1, d1, e1, v1⟩ := h1.2.2.2 (by decide!) rfl
  obtain ⟨r2, e2, v2⟩ := h2.2.2.1 (by decide!)
  obtain ⟨r3, d3, e3, _⟩ := h3.2.2.2 (by decide!) rfl
  exact ⟨⟨r1, d1, e1, v1, h1.1 r1 d1 (sampleInvoice PaymentStatus.Pending 100000) e1 rfl (by decide!)⟩,
    ⟨r2, _, e2, v2, h2.1 r2 _ (sampleInvoice PaymentStatus.Pending 100000) e2 rfl (by decide!)⟩,
    ⟨r3, d3, e3, h3.2.1 r3 d3 e3 (by decide!)⟩⟩

/-! ## Decimal strings -/

theorem digit_byte (n : Nat) :
    ((Fin.ofNat (48 + n % 10) : Byte).val + 256 - (ascii '0').val) % 256 = n % 10 ∧
    (ascii '0').val ≤ (Fin.ofNat (48 + n % 10) : Byte).val ∧
    (Fin.ofNat (48 + n % 10) : Byte).val ≤ (ascii '9').val := by
  have h0 : (ascii '0').val = 48 := rfl
  have h9 : (ascii '9').val = 57 := rfl
  have hv : (Fin.ofNat (48 + n % 10) : Byte).val = 48 + n % 10 := by
    show (48 + n % 10) % 256 = 48 + n % 10
    omega
  rw [h0, h9, hv]
  omega

theorem atoiLoop_digitsAux (fuel : Nat) : ∀ (n : Nat) (acc : GoString), n < 10 ^ fuel →
    atoiLoop 0 (digitsAux fuel n acc) = atoiLoop n acc := by
  induction fuel with
  | zero =>
    intro n acc hn
    have : n = 0 := by simpa using hn
    subst this
    rfl
  | succ fuel ih =>
    intro n acc hn
    have hd := (digit_byte n).1
    have hstep : atoiLoop (n / 10) ((Fin.ofNat (48 + n % 10) : Byte) :: acc)
        = atoiLoop n acc := by
      simp only [atoiLoop, hd]
      rw [if_neg (by omega)]
      congr 1
      omega
    simp only [digitsAux]
    by_cases h0 : n / 10 = 0
    · rw [if_pos h0]
      rw [h0] at hstep
      exact hstep
    · rw [if_neg h0, ih (n / 10) _ (by rw [pow_succ] at hn; omega)]
      exact hstep

theorem digitsAux_shape (fuel : Nat) : ∀ (n : Nat) (acc : GoString),
    ∃ pre : GoString, digitsAux fuel n acc = pre ++ acc ∧
      (∀ c ∈ pre, (ascii '0').val ≤ c.val ∧ c.val ≤ (ascii '9').val) ∧
      (0 < fuel → pre ≠ []) ∧
      (∀ k, n < 10 ^ (k + 1) → pre.length ≤ k + 1) := by
  induction fuel with
  | zero =>
    intro n acc
    exact ⟨[], rfl, by simp, by simp, by simp⟩
  | succ fuel ih =>
    intro n acc
    simp only [digitsAux]
    by_cases h0 : n / 10 = 0
    · rw [if_pos h0]
      refine ⟨[Fin.ofNat (48 + n % 10)], rfl, ?_, by simp, by simp⟩
      intro c hc
      rw [List.mem_singleton.mp hc]
      exact (digit_byte n).2
    · rw [if_neg h0]
      obtain ⟨pre, hp, hdig, _, hlen⟩ := ih (n / 10) ((Fin.ofNat (48 + n % 10) : Byte) :: acc)
      refine ⟨pre ++ [Fin.ofNat (48 + n % 10)], by rw [hp]; simp, ?_, by simp, ?_⟩
      · intro c hc
        rcases List.mem_append.mp hc with hc | hc
        · exact hdig c hc
        · rw [List.mem_singleton.mp hc]
          exact (digit_byte n).2
      · intro k hk
        cases k with
        | zero => omega
        | succ k =>
          have := hlen k (by rw [pow_succ] at hk; omega)
          simp only [List.length_append, List.length_singleton]
          omega

theorem Atoi_Itoa (n : Nat) (hn : n < 10 ^ 18) : Atoi (Itoa (n : Int)) = ((n : Int), none) := by
  have hI : Itoa (n : Int) = digitsAux (n + 1) n [] := by
    unfold Itoa
    rw [if_neg (by omega)]
    simp
  obtain ⟨pre, hp, hdig, hne, hlen⟩ := digitsAux_shape (n + 1) n []
  have hpow : n + 1 < 10 ^ (n + 1) := Nat.lt_pow_self (by norm_num : 1 < 10) (n + 1)
  have hloop := atoiLoop_digitsAux (n + 1) n [] (by omega)
  rw [hI]
  rw [hp, List.append_nil] at hloop ⊢
  have hl := hlen 17 hn
  cases pre with
  | nil => exact absurd rfl (hne (Nat.succ_pos n))
  | cons c rest =>
    have hc := hdig c (List.mem_cons_self c rest)
    have h0 : (ascii '0').val = 48 := rfl
    have h9 : (ascii '9').val = 57 := rfl
    have hminus : c ≠ ascii '-' := by
      intro e
      rw [e] at hc
      exact absurd hc.1 (by decide)
    have hplus : c ≠ ascii '+' := by
      intro e
      rw [e] at hc
      exact absurd hc.1 (by decide)
    unfold Atoi
    simp only [List.length_cons] at hl ⊢
    rw [if_pos ⟨by omega, by omega⟩]
    simp only [hminus, hplus, or_self, if_false, List.length_cons]
    rw [if_neg (by omega), hloop]
    rfl

/-! ## Creation of the payment -/

theorem createInvoice_result (env : PaymentEnv) (db : Store) (req : VNPayPaymentRequest)
    (txnRef : GoString) :
    (env.driver.insertFails = true ∧
      InvoiceService.CreateInvoice env db req txnRef = (Except.error DbError.failure, db)) ∨
    (env.driver.insertFails = false ∧
      ∃ invoice row : Invoice,
        InvoiceService.CreateInvoice env db req txnRef = (Except.ok invoice, db ++ [row]) ∧
        row.InvoiceID = invoice.InvoiceID ∧
        row.PaymentStatus = PaymentStatus.Pending ∧
        row.VNPayTxnRef = txnRef ∧
        row.FinalAmount = req.Amount - req.DiscountAmount + req.TaxAmount) := by
  unfold InvoiceService.CreateInvoice InvoiceRepository.CreateInvoice
  by_cases hi : env.driver.insertFails = true
  · exact Or.inl ⟨hi, by simp [hi]⟩
  · refine Or.inr ⟨by simpa using hi, ?_⟩
    simp only [hi, Bool.false_eq_true, if_false, if_true]
    by_cases hu : env.serviceUUID = uuidNil
    · simp only [hu, if_true]
      exact ⟨_, _, rfl, rfl, rfl, rfl, rfl⟩
    · simp only [hu, if_false]
      exact ⟨_, _, rfl, rfl, rfl, rfl, rfl⟩

theorem paymentInputData_txnRef (cfg : VNPayConfig) (env : PaymentEnv)
    (req : VNPayPaymentRequest) (txnRef : GoString) (invoice : Invoice) :
    (VNPayService.paymentInputData cfg env req txnRef invoice).get (bytes "vnp_TxnRef")
      = txnRef := by
  unfold VNPayService.paymentInputData
  by_cases hb : req.BankCode = []
  · simp only [hb, ne_eq, not_true_eq_false, if_false]
    rfl
  · simp only [hb, ne_eq, not_false_eq_true, if_true]
    rw [set_of_not_mem _ _ _ (by simp only [StringMap.keys, List.map_cons, List.map_nil]; decide!)]
    rfl

theorem response_txnRef (txnRef c m u i : GoString) (n : Int)
    (hatoi : Atoi txnRef = (n, none)) (hn : Itoa n = txnRef) (resp : VNPayPaymentResponse)
    (h1 : ({ Code := c, Message := m, Data := { PaymentURL := u, TxnRef := (Atoi txnRef).1 },
             InvoiceID := i } : VNPayPaymentResponse) = resp) :
    txnRef = Itoa resp.Data.TxnRef := by
  rw [← h1]
  simp only [hatoi, hn]

/-- C15: whenever `CreatePayment` returns a payment URL, the store has gained one invoice,
in Pending status, whose transaction reference is the `vnp_TxnRef` of the parameters the
URL is built from and the decimal rendering of the response's `TxnRef`, whose final amount
is `Amount - DiscountAmount + TaxAmount` and whose identifier is the response's
`InvoiceID`; and whenever the creation of the invoice fails, `CreatePayment` returns the
error and no URL. -/
theorem createPayment_binds_txnRef_to_new_invoice (cfg : VNPayConfig) (env : PaymentEnv)
    (db : Store) (req : VNPayPaymentRequest) :
    (∀ resp db1, VNPayService.CreatePayment cfg env db req = (Except.ok resp, db1) →
      ∃ invoice row : Invoice,
        InvoiceService.CreateInvoice env db req
          (Itoa ((env.randIntn.val + 1000000 : Nat) : Int)) = (Except.ok invoice, db1) ∧
        db1 = db ++ [row] ∧
        row.PaymentStatus = PaymentStatus.Pending ∧
        row.VNPayTxnRef = Itoa resp.Data.TxnRef ∧
        row.FinalAmount = req.Amount - req.DiscountAmount + req.TaxAmount ∧
        row.InvoiceID = resp.InvoiceID ∧
        resp.Data.PaymentURL =
          cfg.VNPayURL ++ bytes "?"
            ++ canonicalString
                (VNPayService.paymentInputData cfg env req row.VNPayTxnRef invoice)
            ++ bytes "&vnp_SecureHash="
            ++ hexEncodeToString (hmacSHA512 cfg.HashSecret (canonicalString
                (VNPayService.paymentInputData cfg env req row.VNPayTxnRef invoice))) ∧
        (VNPayService.paymentInputData cfg env req row.VNPayTxnRef invoice).get
          (bytes "vnp_TxnRef") = row.VNPayTxnRef) ∧
    (∀ err db1,
      InvoiceService.CreateInvoice env db req
        (Itoa ((env.randIntn.val + 1000000 : Nat) : Int)) = (Except.error err, db1) →
      VNPayService.CreatePayment cfg env db req = (Except.error err, db1)) ∧
    (env.driver.insertFails = true →
      VNPayService.CreatePayment cfg env db req = (Except.error DbError.failure, db)) ∧
    (env.driver.insertFails = false →
      ∃ resp db1, VNPayService.CreatePayment cfg env db req = (Except.ok resp, db1)) := by
  have hatoi : Atoi (Itoa ((env.randIntn.val + 1000000 : Nat) : Int))
      = (((env.randIntn.val + 1000000 : Nat) : Int), none) :=
    Atoi_Itoa _ (by have := env.randIntn.isLt; omega)
  have hres := createInvoice_result env db req (Itoa ((env.randIntn.val + 1000000 : Nat) : Int))
  have hparam := fun invoice => paymentInputData_txnRef cfg env req
    (Itoa ((env.randIntn.val + 1000000 : Nat) : Int)) invoice
  unfold VNPayService.CreatePayment
  generalize hn : Itoa ((env.randIntn.val + 1000000 : Nat) : Int) = txnRef at hatoi hres hparam ⊢
  generalize ((env.randIntn.val + 1000000 : Nat) : Int) = n at hatoi hn
  refine ⟨?_, ?_, ?_, ?_⟩
  · intro resp db1 h
    rcases hres with ⟨_, hc⟩ | ⟨_, invoice, row, hc, hid, hst, href, hfin⟩
    · simp only [hc] at h
      cases h
    · simp only [hc, Prod.mk.injEq, Except.ok.injEq] at h
      obtain ⟨h1, h2⟩ := h
      subst h2
      refine ⟨invoice, row, hc, rfl, hst, ?_, hfin, ?_, ?_, ?_⟩
      · rw [href]
        exact response_txnRef txnRef _ _ _ _ n hatoi hn resp h1
      · rw [← h1, hid]
      · rw [← h1, href]
        simp only [encodeLoop_eq, hashDataLoop_eq_canonical, canonicalString]
      · rw [href]
        exact hparam invoice
  · intro err db1 hc
    simp only [hc]
  · intro hi
    rcases hres with ⟨_, hc⟩ | ⟨hf, _⟩
    · simp only [hc]
    · rw [hi] at hf
      cases hf
  · intro hi
    rcases hres with ⟨ht, _⟩ | ⟨_, invoice, row, hc, _⟩
    · rw [hi] at ht
      cases ht
    · simp only [hc]
      exact ⟨_, _, rfl⟩

theorem createPayment_binds_txnRef_to_new_invoice_witness :
    (∃ resp db1 row, VNPayService.CreatePayment sampleConfig samplePaymentEnv []
        samplePaymentRequest = (Except.ok resp, db1) ∧
      db1 = [] ++ [row] ∧
      row.PaymentStatus = PaymentStatus.Pending ∧
      row.VNPayTxnRef = Itoa resp.Data.TxnRef ∧
      row.InvoiceID = resp.InvoiceID) ∧
    VNPayService.CreatePayment sampleConfig failingInsertEnv [] samplePaymentRequest
      = (Except.error DbError.failure, []) := by
  have h := createPayment_binds_txnRef_to_new_invoice sampleConfig samplePaymentEnv []
    samplePaymentRequest
  have h' := createPayment_binds_txnRef_to_new_invoice sampleConfig failingInsertEnv []
    samplePaymentRequest
  obtain ⟨resp, db1, e⟩ := h.2.2.2 rfl
  obtain ⟨_, row, _, h2, h3, h4, _, h6, _⟩ := h.1 resp db1 e
  exact ⟨⟨resp, db1, row, e, h2, h3, h4, h6⟩, h'.2.2.1 rfl⟩

/-! ## Query and refund -/

theorem signedRefundData_eq (cfg : VNPayConfig) (env : RequestEnv) (req : VNPayRefundRequest)
    (ipAddr : GoString) :
    VNPayService.signedRefundData cfg env req ipAddr =
      VNPayService.refundDataRequest cfg env req ipAddr ++
        [(bytes "vnp_SecureHash",
          hexEncodeToString (hmacSHA512 cfg.HashSecret
            (VNPayService.refundHashData (VNPayService.refundDataRequest cfg env req ipAddr))))]
    := by
  unfold VNPayService.signedRefundData
  exact set_of_not_mem _ _ _ (by
    simp only [VNPayService.refundDataRequest, StringMap.keys, List.map_cons, List.map_nil]
    decide!)

theorem queryTransaction_eq (cfg : VNPayConfig) (env : RequestEnv) (req : VNPayQueryRequest)
    (ipAddr : GoString) :
    VNPayService.QueryTransaction cfg env req ipAddr =
      VNPayService.queryDataRequest cfg env req ipAddr ++
        [(bytes "vnp_SecureHash",
          hexEncodeToString (hmacSHA512 cfg.HashSecret
            (VNPayService.queryHashData (VNPayService.queryDataRequest cfg env req ipAddr))))]
    := by
  unfold VNPayService.QueryTransaction
  exact set_of_not_mem _ _ _ (by
    simp only [VNPayService.queryDataRequest, StringMap.keys, List.map_cons, List.map_nil]
    decide!)

theorem refundTransaction_absent (cfg : VNPayConfig) (env : RequestEnv) (d : Driver)
    (db : Store) (req : VNPayRefundRequest) (ipAddr : GoString) (e : DbError)
    (hg : InvoiceRepository.GetInvoiceByVNPayTxnRef d db req.TxnRef = Except.error e) :
    VNPayService.RefundTransaction cfg env d db req ipAddr =
      ((VNPayService.signedRefundData cfg env req ipAddr, none), db) := by
  unfold VNPayService.RefundTransaction
  simp only [InvoiceService.GetInvoiceByVNPayTxnRef, hg]

theorem refundTransaction_found (cfg : VNPayConfig) (env : RequestEnv) (d : Driver)
    (db : Store) (req : VNPayRefundRequest) (ipAddr : GoString) (inv : Invoice)
    (hg : InvoiceRepository.GetInvoiceByVNPayTxnRef d db req.TxnRef = Except.ok inv) :
    VNPayService.RefundTransaction cfg env d db req ipAddr =
      if d.updateFails then
        ((VNPayService.signedRefundData cfg env req ipAddr, some DbError.failure), db)
      else
        ((VNPayService.signedRefundData cfg env req ipAddr, none),
          db.map (fun i => if i.VNPayTxnRef = req.TxnRef then refunded i d.now else i)) := by
  unfold VNPayService.RefundTransaction
  simp only [InvoiceService.GetInvoiceByVNPayTxnRef, hg,
    InvoiceService.UpdateInvoicePaymentStatus, InvoiceRepository.UpdateInvoicePaymentStatus]
  by_cases hu : d.updateFails = true
  · simp [hu]
  · simp only [hu, Bool.false_eq_true, if_false]
    rfl

/-- C16: for a refund request whose `TxnRef` is the reference of an invoice in the store,
in whatever status, the lookup working: when `RefundTransaction` returns no error, that
invoice (every row with the reference) is Refunded afterwards, and the returned parameter
set holds `vnp_Command` = "refund" and a `vnp_SecureHash`. -/
theorem refundTransaction_marks_refunded (cfg : VNPayConfig) (env : RequestEnv) (d : Driver)
    (db : Store) (req : VNPayRefundRequest) (ipAddr : GoString) (inv : Invoice)
    (hs : d.selectFails = false)
    (hf : db.find? (fun i => i.VNPayTxnRef = req.TxnRef) = some inv)
    (hok : (VNPayService.RefundTransaction cfg env d db req ipAddr).1.2 = none) :
    (∃ inv1, (VNPayService.RefundTransaction cfg env d db req ipAddr).2.find?
        (fun i => i.VNPayTxnRef = req.TxnRef) = some inv1 ∧
      inv1.InvoiceID = inv.InvoiceID ∧ inv1.PaymentStatus = PaymentStatus.Refunded) ∧
    (∀ row ∈ (VNPayService.RefundTransaction cfg env d db req ipAddr).2,
      row.VNPayTxnRef = req.TxnRef → row.PaymentStatus = PaymentStatus.Refunded) ∧
    (VNPayService.RefundTransaction cfg env d db req ipAddr).1.1.get (bytes "vnp_Command")
      = bytes "refund" ∧
    bytes "vnp_SecureHash" ∈ (VNPayService.RefundTransaction cfg env d db req ipAddr).1.1.keys ∧
    (VNPayService.RefundTransaction cfg env d db req ipAddr).1.1.get (bytes "vnp_SecureHash")
      = hexEncodeToString (hmacSHA512 cfg.HashSecret
          (VNPayService.refundHashData (VNPayService.refundDataRequest cfg env req ipAddr))) := by
  have hg := getInvoice_of_find d db req.TxnRef inv hs hf
  rw [refundTransaction_found cfg env d db req ipAddr inv hg] at hok ⊢
  by_cases hu : d.updateFails = true
  · rw [if_pos hu] at hok
    cases hok
  rw [if_neg hu]
  refine ⟨?_, ?_, ?_, ?_, ?_⟩
  · have h := find_after_update db req.TxnRef (fun i => refunded i d.now) (fun _ => rfl)
    rw [hf] at h
    exact ⟨_, h, rfl, rfl⟩
  · intro row hrow href
    obtain ⟨x, _, hx⟩ := List.mem_map.mp hrow
    by_cases hxt : x.VNPayTxnRef = req.TxnRef
    · rw [if_pos hxt] at hx
      subst hx
      rfl
    · rw [if_neg hxt] at hx
      subst hx
      exact absurd href hxt
  · show (VNPayService.signedRefundData cfg env req ipAddr).get (bytes "vnp_Command") = _
    rw [signedRefundData_eq]
    rfl
  · show bytes "vnp_SecureHash" ∈ (VNPayService.signedRefundData cfg env req ipAddr).keys
    rw [signedRefundData_eq]
    simp [StringMap.keys]
  · show (VNPayService.signedRefundData cfg env req ipAddr).get (bytes "vnp_SecureHash") = _
    rw [signedRefundData_eq]
    rfl

theorem refundTransaction_marks_refunded_witness :
    (VNPayService.RefundTransaction sampleConfig sampleRequestEnv sampleDriver
      [sampleInvoice PaymentStatus.Completed 100000] sampleRefundRequest sampleIpAddr).1.2
      = none ∧
    ∀ row ∈ (VNPayService.RefundTransaction sampleConfig sampleRequestEnv sampleDriver
        [sampleInvoice PaymentStatus.Completed 100000] sampleRefundRequest sampleIpAddr).2,
      row.VNPayTxnRef = sampleRefundRequest.TxnRef →
      row.PaymentStatus = PaymentStatus.Refunded :=
  ⟨by decide!,
    (refundTransaction_marks_refunded sampleConfig sampleRequestEnv sampleDriver
      [sampleInvoice PaymentStatus.Completed 100000] sampleRefundRequest sampleIpAddr
      (sampleInvoice PaymentStatus.Completed 100000) rfl (by decide!) (by decide!)).2.1⟩

/-- The refund request for the reference 1234567 on a store without such an invoice: the
signed refund parameter set is returned with no error, and the store is left alone. -/
theorem refundTransaction_missing_invoice_example :
    (∀ inv ∈ [otherInvoice], inv.VNPayTxnRef ≠ sampleRefundRequest.TxnRef) ∧
    (VNPayService.RefundTransaction sampleConfig sampleRequestEnv sampleDriver [otherInvoice]
      sampleRefundRequest sampleIpAddr).1.2 = none ∧
    (VNPayService.RefundTransaction sampleConfig sampleRequestEnv sampleDriver [otherInvoice]
      sampleRefundRequest sampleIpAddr).2 = [otherInvoice] ∧
    (VNPayService.RefundTransaction sampleConfig sampleRequestEnv sampleDriver [otherInvoice]
      sampleRefundRequest sampleIpAddr).1.1.get (bytes "vnp_Command") = bytes "refund" ∧
    (VNPayService.RefundTransaction sampleConfig sampleRequestEnv sampleDriver [otherInvoice]
      sampleRefundRequest sampleIpAddr).1.1.get (bytes "vnp_SecureHash") =
      bytes ("e10a8e98f95c6be6771e0aa800150586e7ab7f85df5e4314137e58a4022f6822" ++
        "0377130be4f95621898cf54de2632518574d07f7804b7f51f9697d19ebc162bb") := by
  decide!

/-- C17, as the code has it: for a refund request whose `TxnRef` is the reference of no
invoice in the store, `RefundTransaction` returns the prepared, signed refund parameter set
with no error and leaves the store as it was; no not-found result is surfaced. -/
theorem refundTransaction_missing_invoice_prepared (cfg : VNPayConfig) (env : RequestEnv)
    (d : Driver) (db : Store) (req : VNPayRefundRequest) (ipAddr : GoString)
    (hn : ∀ inv ∈ db, inv.VNPayTxnRef ≠ req.TxnRef) :
    VNPayService.RefundTransaction cfg env d db req ipAddr =
      ((VNPayService.refundDataRequest cfg env req ipAddr ++
          [(bytes "vnp_SecureHash",
            hexEncodeToString (hmacSHA512 cfg.HashSecret
              (VNPayService.refundHashData
                (VNPayService.refundDataRequest cfg env req ipAddr))))], none), db) := by
  obtain ⟨e, he⟩ := getInvoice_absent d db req.TxnRef hn
  rw [refundTransaction_absent cfg env d db req ipAddr e he, signedRefundData_eq]

theorem refundTransaction_missing_invoice_prepared_witness :
    (∀ inv ∈ ([] : Store), inv.VNPayTxnRef ≠ sampleRefundRequest.TxnRef) ∧
    (VNPayService.RefundTransaction sampleConfig sampleRequestEnv sampleDriver []
      sampleRefundRequest sampleIpAddr).1.2 = none ∧
    (VNPayService.RefundTransaction sampleConfig sampleRequestEnv sampleDriver []
      sampleRefundRequest sampleIpAddr).2 = [] := by
  have hn : ∀ inv ∈ ([] : Store), inv.VNPayTxnRef ≠ sampleRefundRequest.TxnRef := by
    intro inv hinv
    cases hinv
  have h := refundTransaction_missing_invoice_prepared sampleConfig sampleRequestEnv
    sampleDriver [] sampleRefundRequest sampleIpAddr hn
  exact ⟨hn, by rw [h], by rw [h]⟩

/-- The valid notification for the invoice 1234567, which the store holds, on a database
whose `SELECT` fails: the answer is "01" / "Order not found" and no error is returned. -/
theorem processIPN_lookup_failure_example :
    SignatureValid sampleConfig smallPaidQuery ∧
    failingSelectDriver.selectFails = true ∧
    (sampleInvoice PaymentStatus.Pending 1).VNPayTxnRef
      = smallPaidQuery.Get (bytes "vnp_TxnRef") ∧
    VNPayService.ProcessIPN sampleConfig failingSelectDriver
        [sampleInvoice PaymentStatus.Pending 1] smallPaidQuery
      = (({ RspCode := bytes "01", Message := bytes "Order not found" }, none),
         [sampleInvoice PaymentStatus.Pending 1]) := by
  decide!

/-- C18, as the code has it: when the signature is valid and the lookup of the invoice
fails for whatever reason, a failure of the database included, `ProcessIPN` answers
"01" / "Order not found", returns no error and leaves the store as it was. -/
theorem processIPN_lookup_failure_is_not_found (cfg : VNPayConfig) (d : Driver) (db : Store)
    (q : Values) (h : SignatureValid cfg q) (hs : d.selectFails = true) :
    InvoiceRepository.GetInvoiceByVNPayTxnRef d db (q.Get (bytes "vnp_TxnRef"))
      = Except.error DbError.failure ∧
    VNPayService.ProcessIPN cfg d db q =
      (({ RspCode := bytes "01", Message := bytes "Order not found" }, none), db) := by
  have hg : InvoiceRepository.GetInvoiceByVNPayTxnRef d db (q.Get (bytes "vnp_TxnRef"))
      = Except.error DbError.failure := by
    unfold InvoiceRepository.GetInvoiceByVNPayTxnRef
    rw [if_pos hs]
  exact ⟨hg, processIPN_not_found cfg d db q h _ hg⟩

theorem processIPN_lookup_failure_is_not_found_witness :
    SignatureValid sampleConfig paidQuery ∧
    VNPayService.ProcessIPN sampleConfig failingSelectDriver
        [sampleInvoice PaymentStatus.Pending 100000] paidQuery
      = (({ RspCode := bytes "01", Message := bytes "Order not found" }, none),
         [sampleInvoice PaymentStatus.Pending 100000]) :=
  ⟨by decide!,
    (processIPN_lookup_failure_is_not_found sampleConfig failingSelectDriver
      [sampleInvoice PaymentStatus.Pending 100000] paidQuery (by decide!) rfl).2⟩

theorem refundTransaction_data (cfg : VNPayConfig) (env : RequestEnv) (d : Driver)
    (db : Store) (req : VNPayRefundRequest) (ipAddr : GoString) :
    (VNPayService.RefundTransaction cfg env d db req ipAddr).1.1
      = VNPayService.signedRefundData cfg env req ipAddr := by
  rcases hg : InvoiceRepository.GetInvoiceByVNPayTxnRef d db req.TxnRef with e | inv
  · rw [refundTransaction_absent cfg env d db req ipAddr e hg]
  · rw [refundTransaction_found cfg env d db req ipAddr inv hg]
    split <;> rfl

/-- The sample query and refund requests: the `vnp_SecureHash` of the returned set is not
the digest of the canonical string of the other parameters of the set. -/
theorem query_refund_hash_example :
    (VNPayService.QueryTransaction sampleConfig sampleRequestEnv sampleQueryRequest
        sampleIpAddr).get (bytes "vnp_SecureHash")
      ≠ hexEncodeToString (hmacSHA512 sampleConfig.HashSecret (canonicalString
          ((VNPayService.QueryTransaction sampleConfig sampleRequestEnv sampleQueryRequest
            sampleIpAddr).filter (fun e => e.1 ≠ bytes "vnp_SecureHash")))) ∧
    (VNPayService.RefundTransaction sampleConfig sampleRequestEnv sampleDriver
        [sampleInvoice PaymentStatus.Completed 100000] sampleRefundRequest
        sampleIpAddr).1.1.get (bytes "vnp_SecureHash")
      ≠ hexEncodeToString (hmacSHA512 sampleConfig.HashSecret (canonicalString
          ((VNPayService.RefundTransaction sampleConfig sampleRequestEnv sampleDriver
            [sampleInvoice PaymentStatus.Completed 100000] sampleRefundRequest
            sampleIpAddr).1.1.filter (fun e => e.1 ≠ bytes "vnp_SecureHash")))) := by
  decide!

/-- C19, as the code has it: the `vnp_SecureHash` that `QueryTransaction` and
`RefundTransaction` add to the parameter set is the hex HMAC-SHA512, under the configured
secret, of the parameter values joined with "|" in a fixed order and not escaped: request
id, version, command, terminal code, reference, transaction date, creation date, address,
order info for the query; request id, version, command, terminal code, transaction type,
reference, amount, transaction number, transaction date, creator, creation date, address,
order info for the refund. The other parameters of the set are left as they are. -/
theorem query_refund_hash_is_pipe_joined (cfg : VNPayConfig) (env : RequestEnv)
    (qreq : VNPayQueryRequest) (rreq : VNPayRefundRequest) (ipAddr : GoString) (d : Driver)
    (db : Store) :
    VNPayService.QueryTransaction cfg env qreq ipAddr =
      VNPayService.queryDataRequest cfg env qreq ipAddr ++
        [(bytes "vnp_SecureHash",
          hexEncodeToString (hmacSHA512 cfg.HashSecret
            (Itoa ((env.randIntn.val + 1 : Nat) : Int) ++ bytes "|" ++
              bytes "2.1.0" ++ bytes "|" ++
              bytes "querydr" ++ bytes "|" ++
              cfg.TmnCode ++ bytes "|" ++
              qreq.TxnRef ++ bytes "|" ++
              qreq.TransactionDate ++ bytes "|" ++
              env.createDate ++ bytes "|" ++
              ipAddr ++ bytes "|" ++
              bytes "Query transaction")))] ∧
    (VNPayService.RefundTransaction cfg env d db rreq ipAddr).1.1 =
      VNPayService.refundDataRequest cfg env rreq ipAddr ++
        [(bytes "vnp_SecureHash",
          hexEncodeToString (hmacSHA512 cfg.HashSecret
            (Itoa ((env.randIntn.val + 1 : Nat) : Int) ++ bytes "|" ++
              bytes "2.1.0" ++ bytes "|" ++
              bytes "refund" ++ bytes "|" ++
              cfg.TmnCode ++ bytes "|" ++
              rreq.TransactionType ++ bytes "|" ++
              rreq.TxnRef ++ bytes "|" ++
              Itoa (toCents rreq.Amount) ++ bytes "|" ++
              bytes "0" ++ bytes "|" ++
              rreq.TransactionDate ++ bytes "|" ++
              rreq.CreateBy ++ bytes "|" ++
              env.createDate ++ bytes "|" ++
              ipAddr ++ bytes "|" ++
              bytes "Hoan Tien Giao Dich")))] := by
  constructor
  · rw [queryTransaction_eq]
    rfl
  · rw [refundTransaction_data, signedRefundData_eq]
    rfl

/-- The checksum of the sample query request, byte for byte. -/
theorem queryTransaction_sample_hash :
    (VNPayService.QueryTransaction sampleConfig sampleRequestEnv sampleQueryRequest
        sampleIpAddr).get (bytes "vnp_SecureHash") =
      bytes ("b7a8c77fc2b1ad2a6e52ba56ead02484533c99cdfa3193a68228f9d8127aaf5c" ++
        "f99772c5c8135ca2c418a82a13d56403f5ca2acea5513231819489597c8bc5f9") := by
  decide!

/-! ## What the updates leave alone -/

theorem sameFrame_refl (a : Invoice) : sameFrame a a :=
  ⟨rfl, rfl, rfl, rfl, rfl, rfl, rfl, rfl, rfl, rfl, rfl, rfl, rfl, rfl⟩

theorem sameFrame_reconciled (inv : Invoice) (status : PaymentStatus) (q : Values)
    (now : Nat) : sameFrame inv (reconciled inv status q now) :=
  ⟨rfl, rfl, rfl, rfl, rfl, rfl, rfl, rfl, rfl, rfl, rfl, rfl, rfl, rfl⟩

theorem sameFrame_refunded (inv : Invoice) (now : Nat) : sameFrame inv (refunded inv now) :=
  ⟨rfl, rfl, rfl, rfl, rfl, rfl, rfl, rfl, rfl, rfl, rfl, rfl, rfl, rfl⟩

theorem forall₂_sameFrame_refl (db : Store) : List.Forall₂ sameFrame db db := by
  induction db with
  | nil => exact List.Forall₂.nil
  | cons a l ih => exact List.Forall₂.cons (sameFrame_refl a) ih

theorem forall₂_sameFrame_map (db : Store) (f : Invoice → Invoice)
    (hf : ∀ inv, sameFrame inv (f inv)) : List.Forall₂ sameFrame db (db.map f) := by
  induction db with
  | nil => exact List.Forall₂.nil
  | cons a l ih => exact List.Forall₂.cons (hf a) ih

theorem sameFrame_ite (p : Invoice → Prop) [DecidablePred p] (g : Invoice → Invoice)
    (hg : ∀ inv, sameFrame inv (g inv)) (inv : Invoice) :
    sameFrame inv (if p inv then g inv else inv) := by
  by_cases h : p inv
  · rw [if_pos h]
    exact hg inv
  · rw [if_neg h]
    exact sameFrame_refl inv

/-- The table after `ProcessReturn` is the table before, or its image under a map that
keeps the frame of every row. -/
theorem processReturn_store (cfg : VNPayConfig) (d : Driver) (db : Store) (q : Values) :
    List.Forall₂ sameFrame db (VNPayService.ProcessReturn cfg d db q).2 := by
  by_cases h : SignatureValid cfg q
  · cases hu : d.updateFails
    · obtain ⟨res, hres, _⟩ := processReturn_valid cfg d db q h hu
      rw [hres]
      exact forall₂_sameFrame_map db _
        (sameFrame_ite _ _ (fun inv => sameFrame_reconciled inv _ q d.now))
    · rw [processReturn_update_fails cfg d db q h hu]
      exact forall₂_sameFrame_refl db
  · obtain ⟨res, hres, _⟩ := processReturn_invalid cfg d db q h
    rw [hres]
    exact forall₂_sameFrame_refl db

theorem processIPN_store (cfg : VNPayConfig) (d : Driver) (db : Store) (q : Values) :
    List.Forall₂ sameFrame db (VNPayService.ProcessIPN cfg d db q).2 := by
  rcases processIPN_cases cfg d db q with ⟨_, h⟩ | ⟨_, _, h⟩ | ⟨_, invoice, _, h⟩
  · rw [h]
    exact forall₂_sameFrame_refl db
  · rw [h]
    exact forall₂_sameFrame_refl db
  · rcases h with ⟨_, h⟩ | ⟨_, ⟨_, h⟩ | ⟨_, ⟨_, h⟩ | ⟨_, h⟩⟩⟩
    · rw [h]
      exact forall₂_sameFrame_refl db
    · rw [h]
      exact forall₂_sameFrame_refl db
    · rw [h]
      exact forall₂_sameFrame_refl db
    · rw [h]
      exact forall₂_sameFrame_map db _
        (sameFrame_ite _ _ (fun inv => sameFrame_reconciled inv _ q d.now))

theorem refundTransaction_store (cfg : VNPayConfig) (env : RequestEnv) (d : Driver)
    (db : Store) (req : VNPayRefundRequest) (ipAddr : GoString) :
    List.Forall₂ sameFrame db (VNPayService.RefundTransaction cfg env d db req ipAddr).2 := by
  cases hg : InvoiceRepository.GetInvoiceByVNPayTxnRef d db req.TxnRef with
  | error e =>
    rw [refundTransaction_absent cfg env d db req ipAddr e hg]
    exact forall₂_sameFrame_refl db
  | ok inv =>
    rw [refundTransaction_found cfg env d db req ipAddr inv hg]
    cases d.updateFails
    · exact forall₂_sameFrame_map db _
        (sameFrame_ite _ _ (fun inv => sameFrame_refunded inv d.now))
    · exact forall₂_sameFrame_refl db

theorem forall₂_sameFrame_ids (db db1 : Store) (h : List.Forall₂ sameFrame db db1) :
    db1.map (fun inv => inv.InvoiceID) = db.map (fun inv => inv.InvoiceID) := by
  induction h with
  | nil => rfl
  | cons hab _ ih =>
    simp only [List.map_cons, ih, hab.1]

/-- Claim C22. `ProcessReturn`, `ProcessIPN` and `RefundTransaction` delete no invoice and
insert none, and change an invoice only in its payment status, bank code, gateway
transaction number, pay date and update timestamp: the table afterwards lists the same
invoice identifiers in the same order, and every row agrees with the row it was before in
its identifier, number, type, customer and ticket references, total, discount, tax and
final amounts, payment method, issue date, notes, creation timestamp and transaction
reference. -/
theorem callbacks_and_refund_preserve_invoice_frame (cfg : VNPayConfig) (d : Driver)
    (env : RequestEnv) (db : Store) (q : Values) (req : VNPayRefundRequest)
    (ipAddr : GoString) :
    (List.Forall₂ sameFrame db (VNPayService.ProcessReturn cfg d db q).2 ∧
      (VNPayService.ProcessReturn cfg d db q).2.map (fun inv => inv.InvoiceID)
        = db.map (fun inv => inv.InvoiceID)) ∧
    (List.Forall₂ sameFrame db (VNPayService.ProcessIPN cfg d db q).2 ∧
      (VNPayService.ProcessIPN cfg d db q).2.map (fun inv => inv.InvoiceID)
        = db.map (fun inv => inv.InvoiceID)) ∧
    (List.Forall₂ sameFrame db (VNPayService.RefundTransaction cfg env d db req ipAddr).2 ∧
      (VNPayService.RefundTransaction cfg env d db req ipAddr).2.map
          (fun inv => inv.InvoiceID)
        = db.map (fun inv => inv.InvoiceID)) :=
  ⟨⟨processReturn_store cfg d db q,
      forall₂_sameFrame_ids _ _ (processReturn_store cfg d db q)⟩,
    ⟨processIPN_store cfg d db q, forall₂_sameFrame_ids _ _ (processIPN_store cfg d db q)⟩,
    ⟨refundTransaction_store cfg env d db req ipAddr,
      forall₂_sameFrame_ids _ _ (refundTransaction_store cfg env d db req ipAddr)⟩⟩

/-! ## The refund and the gateway fields -/

/-- Claim C27. A refund that finds the invoice of its `TxnRef` and returns no error
empties the gateway fields: afterwards the invoice found under that reference, and every
row carrying it, has the empty string as bank code, gateway transaction number and pay
date, whatever they held before, while the total, discount, tax and final amounts, the
identifier and the transaction reference are those of before. -/
theorem refundTransaction_erases_gateway_fields (cfg : VNPayConfig) (env : RequestEnv)
    (d : Driver) (db : Store) (req : VNPayRefundRequest) (ipAddr : GoString) (inv : Invoice)
    (hs : d.selectFails = false)
    (hf : db.find? (fun i => i.VNPayTxnRef = req.TxnRef) = some inv)
    (hok : (VNPayService.RefundTransaction cfg env d db req ipAddr).1.2 = none) :
    (∃ inv1, (VNPayService.RefundTransaction cfg env d db req ipAddr).2.find?
        (fun i => i.VNPayTxnRef = req.TxnRef) = some inv1 ∧
      inv1.VNPayBankCode = [] ∧ inv1.VNPayTxnNo = [] ∧ inv1.VNPayPayDate = [] ∧
      inv1.TotalAmount = inv.TotalAmount ∧ inv1.DiscountAmount = inv.DiscountAmount ∧
      inv1.TaxAmount = inv.TaxAmount ∧ inv1.FinalAmount = inv.FinalAmount ∧
      inv1.VNPayTxnRef = inv.VNPayTxnRef ∧ inv1.InvoiceID = inv.InvoiceID) ∧
    (∀ row ∈ (VNPayService.RefundTransaction cfg env d db req ipAddr).2,
      row.VNPayTxnRef = req.TxnRef →
      row.VNPayBankCode = [] ∧ row.VNPayTxnNo = [] ∧ row.VNPayPayDate = []) := by
  have hg := getInvoice_of_find d db req.TxnRef inv hs hf
  rw [refundTransaction_found cfg env d db req ipAddr inv hg] at hok ⊢
  by_cases hu : d.updateFails = true
  · rw [if_pos hu] at hok
    cases hok
  rw [if_neg hu]
  refine ⟨?_, ?_⟩
  · have h := find_after_update db req.TxnRef (fun i => refunded i d.now) (fun _ => rfl)
    rw [hf] at h
    exact ⟨_, h, rfl, rfl, rfl, rfl, rfl, rfl, rfl, rfl, rfl⟩
  · intro row hrow href
    obtain ⟨x, _, hx⟩ := List.mem_map.mp hrow
    by_cases hxt : x.VNPayTxnRef = req.TxnRef
    · rw [if_pos hxt] at hx
      subst hx
      exact ⟨rfl, rfl, rfl⟩
    · rw [if_neg hxt] at hx
      subst hx
      exact absurd href hxt

theorem refundTransaction_erases_gateway_fields_witness :
    settledInvoice.VNPayBankCode = bytes "NCB" ∧
    settledInvoice.VNPayTxnNo = bytes "14123456" ∧
    settledInvoice.VNPayPayDate = bytes "20250101120500" ∧
    ∀ row ∈ (VNPayService.RefundTransaction sampleConfig sampleRequestEnv sampleDriver
        [settledInvoice] sampleRefundRequest sampleIpAddr).2,
      row.VNPayTxnRef = sampleRefundRequest.TxnRef →
      row.VNPayBankCode = [] ∧ row.VNPayTxnNo = [] ∧ row.VNPayPayDate = [] :=
  ⟨by decide!, by decide!, by decide!,
    (refundTransaction_erases_gateway_fields sampleConfig sampleRequestEnv sampleDriver
      [settledInvoice] sampleRefundRequest sampleIpAddr settledInvoice rfl (by decide!)
      (by decide!)).2⟩

/-! ## Injectivity of the decimal strings -/

theorem atoiLoop_Itoa_natAbs (n : Nat) : atoiLoop 0 (digitsAux (n + 1) n []) = some n := by
  have hpow : n < 10 ^ (n + 1) := by
    have := Nat.lt_pow_self (by norm_num : 1 < 10) (n + 1)
    omega
  rw [atoiLoop_digitsAux (n + 1) n [] hpow]
  rfl

theorem digitsAux_head (n : Nat) :
    ∃ c rest, digitsAux (n + 1) n [] = c :: rest ∧ c ≠ ascii '-' := by
  obtain ⟨pre, hp, hdig, hne, _⟩ := digitsAux_shape (n + 1) n []
  rw [List.append_nil] at hp
  cases pre with
  | nil => exact absurd rfl (hne (Nat.succ_pos n))
  | cons c rest =>
    refine ⟨c, rest, hp, ?_⟩
    intro hc
    have h := (hdig c (List.mem_cons_self c rest)).1
    rw [hc] at h
    exact absurd h (by decide)

theorem digitsAux_injective (a b : Nat)
    (h : digitsAux (a + 1) a [] = digitsAux (b + 1) b []) : a = b := by
  have ha := atoiLoop_Itoa_natAbs a
  rw [h, atoiLoop_Itoa_natAbs b] at ha
  exact (Option.some.inj ha).symm

/-- `strconv.Itoa` gives distinct integers distinct strings. -/
theorem Itoa_injective (a b : Int) (h : Itoa a = Itoa b) : a = b := by
  unfold Itoa at h
  by_cases ha : a < 0
  · by_cases hb : b < 0
    · rw [if_pos ha, if_pos hb] at h
      have := digitsAux_injective _ _ (List.cons.inj h).2
      omega
    · rw [if_pos ha, if_neg hb] at h
      obtain ⟨c, rest, hc, hne⟩ := digitsAux_head b.natAbs
      rw [hc] at h
      exact absurd (List.cons.inj h).1.symm hne
  · by_cases hb : b < 0
    · rw [if_neg ha, if_pos hb] at h
      obtain ⟨c, rest, hc, hne⟩ := digitsAux_head a.natAbs
      rw [hc] at h
      exact absurd (List.cons.inj h).1 hne
    · rw [if_neg ha, if_neg hb] at h
      have := digitsAux_injective _ _ h
      omega

/-! ## Arithmetic of float64 on whole numbers -/

/-- Roundings to `float64`: the values nearest to 1/10, 29/100 and 35/100, ties beyond
`2 ^ 53`, the least positive value, half of it, and the overflow to the infinity. -/
theorem Float64.round_vectors :
    Float64.round (1 / 10) = Float64.finite (3602879701896397 / 36028797018963968) ∧
    Float64.round (29 / 100) = Float64.finite (5224175567749775 / 18014398509481984) ∧
    Float64.round (35 / 100) = Float64.finite (3152519739159347 / 9007199254740992) ∧
    Float64.round (9007199254740993 : Rat) = Float64.finite 9007199254740992 ∧
    Float64.round (9007199254740995 : Rat) = Float64.finite 9007199254740996 ∧
    Float64.round (-9007199254740993 : Rat) = Float64.finite (-9007199254740992) ∧
    Float64.round (mkRat 1 (2 ^ 1074)) = Float64.finite (mkRat 1 (2 ^ 1074)) ∧
    Float64.round (mkRat 1 (2 ^ 1075)) = Float64.finite 0 ∧
    Float64.round (mkRat 3 (2 ^ 1075)) = Float64.finite (mkRat 2 (2 ^ 1074)) ∧
    Float64.round (((2 ^ 1024 - 2 ^ 970 - 1 : Int) : Rat))
      = Float64.finite ((2 ^ 1024 - 2 ^ 971 : Int) : Rat) ∧
    Float64.round (((2 ^ 1024 - 2 ^ 970 : Int) : Rat)) = Float64.inf false ∧
    Float64.round (1 / 10) + Float64.round (1 / 5)
      = Float64.finite (1351079888211149 / 4503599627370496) ∧
    Float64.toInt (Float64.round (-7 / 2)) = -3 ∧
    Float64.ofInt 10000000 / 100 = Float64.finite 100000 := by
  decide!

theorem log2Aux_le (fuel : Nat) : ∀ n k : Nat, n < 2 ^ (k + 1) → log2Aux fuel n ≤ k := by
  induction fuel with
  | zero =>
    intro n k _
    exact Nat.zero_le k
  | succ fuel ih =>
    intro n k h
    unfold log2Aux
    by_cases h2 : n < 2
    · rw [if_pos h2]
      exact Nat.zero_le k
    · rw [if_neg h2]
      cases k with
      | zero => omega
      | succ k =>
        have := ih (n / 2) k (by rw [pow_succ] at h; omega)
        omega

theorem roundHalfEven_one (x : Int) : roundHalfEven x 1 = x := by
  unfold roundHalfEven
  simp

theorem floorLog2_one_le (a k : Nat) (h : a < 2 ^ (k + 1)) : floorLog2 a 1 ≤ k := by
  have h1 := log2Aux_le a a k h
  have h0 : log2Aux 1 1 = 0 := rfl
  unfold floorLog2
  rw [h0]
  simp only []
  split <;> omega

/-- A whole number below `2 ^ 53` in magnitude is a `float64`: rounding leaves it. -/
theorem Float64.round_intCast (n : Int) (h : n.natAbs < 2 ^ 53) :
    Float64.round (n : Rat) = Float64.finite n := by
  unfold Float64.round
  by_cases h0 : n = 0
  · subst h0
    simp
  · have he := floorLog2_one_le n.natAbs 52 h
    simp only [Rat.intCast_num, Rat.intCast_den, h0, if_false]
    generalize floorLog2 n.natAbs 1 = e at he
    have hp : max (e - 52) (-1074) ≤ 0 := by omega
    generalize max (e - 52) (-1074) = p at hp
    have hdn : p.toNat = 0 := by omega
    rw [hdn]
    simp only [pow_zero, Nat.cast_one, mul_one, roundHalfEven_one]
    have hu : 0 < 2 ^ (-p).toNat := Nat.pow_pos (by norm_num)
    generalize 2 ^ (-p).toNat = u at hu
    have hno : ¬ 2 ^ 1024 * u ≤ (n * (u : Int)).natAbs := by
      rw [Int.natAbs_mul, Int.natAbs_ofNat]
      have : n.natAbs * u < 2 ^ 1024 * u :=
        Nat.mul_lt_mul_of_pos_right (lt_trans h (by norm_num)) hu
      omega
    rw [if_neg hno]
    congr 1
    rw [Rat.mkRat_eq_div]
    push_cast
    field_simp

theorem Float64.hundred : (100 : Float64) = Float64.finite 100 := by
  decide!

theorem Float64.mul_finite (a b : Rat) :
    Float64.finite a * Float64.finite b = Float64.round (a * b) :=
  rfl

theorem Float64.add_finite (a b : Rat) :
    Float64.finite a + Float64.finite b = Float64.round (a + b) :=
  rfl

theorem Float64.sub_finite (a b : Rat) :
    Float64.finite a - Float64.finite b = Float64.round (a - b) := by
  show Float64.round (a + -b) = _
  rw [sub_eq_add_neg]

/-- The conversion `int(x)` of a whole number that `int` holds gives that number. -/
theorem Float64.toInt_intCast (n : Int) (h : n.natAbs < 2 ^ 63) :
    Float64.toInt (Float64.finite n) = n := by
  unfold Float64.toInt
  simp only [Rat.intCast_num, Rat.intCast_den, Nat.cast_one, Int.tdiv_one]
  rw [if_pos (by omega)]

/-- The truncation toward zero of a finite value that `int` holds. -/
theorem Float64.toInt_finite (r : Rat) (h1 : -2 ^ 63 ≤ r.num.tdiv r.den)
    (h2 : r.num.tdiv r.den < 2 ^ 63) :
    Float64.toInt (Float64.finite r) = r.num.tdiv r.den := by
  unfold Float64.toInt
  simp only []
  rw [if_pos ⟨h1, h2⟩]

/-- The minor units of a whole amount whose hundredfold is below `2 ^ 53`. -/
theorem toCents_whole (n : Int) (h : (100 * n).natAbs < 2 ^ 53) :
    toCents (Float64.finite n) = 100 * n := by
  unfold toCents
  rw [Float64.hundred, Float64.mul_finite]
  have e : (n : Rat) * 100 = ((100 * n : Int) : Rat) := by
    push_cast
    ring
  rw [e, Float64.round_intCast _ h, Float64.toInt_intCast _ (lt_trans h (by norm_num))]

/-- The final amount of whole amounts, where the difference and the sum are below
`2 ^ 53`. -/
theorem finalAmount_whole (A D T : Int) (h1 : (A - D).natAbs < 2 ^ 53)
    (h2 : (A - D + T).natAbs < 2 ^ 53) :
    Float64.finite A - Float64.finite D + Float64.finite T
      = Float64.finite ((A - D + T : Int) : Rat) := by
  have e1 : (A : Rat) - (D : Rat) = ((A - D : Int) : Rat) := by push_cast; ring
  rw [Float64.sub_finite, e1, Float64.round_intCast _ h1, Float64.add_finite]
  have e2 : ((A - D : Int) : Rat) + (T : Rat) = ((A - D + T : Int) : Rat) := by push_cast; ring
  rw [e2, Float64.round_intCast _ h2]

/-! ## The reference and the amount of a new payment -/

theorem response_fields (txnRef c m u i : GoString) (n : Int)
    (hatoi : Atoi txnRef = (n, none)) (resp : VNPayPaymentResponse)
    (h1 : ({ Code := c, Message := m, Data := { PaymentURL := u, TxnRef := (Atoi txnRef).1 },
             InvoiceID := i } : VNPayPaymentResponse) = resp) :
    resp.Data.TxnRef = n ∧ resp.Data.PaymentURL = u ∧ resp.InvoiceID = i := by
  subst h1
  refine ⟨?_, rfl, rfl⟩
  show (Atoi txnRef).1 = n
  rw [hatoi]

/-- What a successful `CreatePayment` has done. -/
theorem createPayment_ok (cfg : VNPayConfig) (env : PaymentEnv) (db : Store)
    (req : VNPayPaymentRequest) (resp : VNPayPaymentResponse) (db1 : Store)
    (h : VNPayService.CreatePayment cfg env db req = (Except.ok resp, db1)) :
    ∃ invoice row : Invoice,
      db1 = db ++ [row] ∧
      row.VNPayTxnRef = Itoa ((env.randIntn.val + 1000000 : Nat) : Int) ∧
      row.PaymentStatus = PaymentStatus.Pending ∧
      row.FinalAmount = req.Amount - req.DiscountAmount + req.TaxAmount ∧
      row.InvoiceID = resp.InvoiceID ∧
      resp.Data.TxnRef = ((env.randIntn.val + 1000000 : Nat) : Int) ∧
      resp.Data.PaymentURL =
        cfg.VNPayURL ++ bytes "?"
          ++ canonicalString (VNPayService.paymentInputData cfg env req
              (Itoa ((env.randIntn.val + 1000000 : Nat) : Int)) invoice)
          ++ bytes "&vnp_SecureHash="
          ++ hexEncodeToString (hmacSHA512 cfg.HashSecret
              (canonicalString (VNPayService.paymentInputData cfg env req
                (Itoa ((env.randIntn.val + 1000000 : Nat) : Int)) invoice))) := by
  have hatoi : Atoi (Itoa ((env.randIntn.val + 1000000 : Nat) : Int))
      = (((env.randIntn.val + 1000000 : Nat) : Int), none) :=
    Atoi_Itoa _ (by have := env.randIntn.isLt; omega)
  have hres := createInvoice_result env db req (Itoa ((env.randIntn.val + 1000000 : Nat) : Int))
  unfold VNPayService.CreatePayment at h
  generalize hn : Itoa ((env.randIntn.val + 1000000 : Nat) : Int) = txnRef at hatoi hres h ⊢
  generalize ((env.randIntn.val + 1000000 : Nat) : Int) = n at hatoi hn ⊢
  rcases hres with ⟨_, hc⟩ | ⟨_, invoice, row, hc, hid, hst, href, hfin⟩
  · simp only [hc] at h
    cases h
  · simp only [hc, Prod.mk.injEq, Except.ok.injEq] at h
    obtain ⟨h1, h2⟩ := h
    subst h2
    obtain ⟨r1, r2, r3⟩ := response_fields txnRef _ _ _ _ n hatoi resp h1
    refine ⟨invoice, row, rfl, href, hst, hfin, ?_, r1, ?_⟩
    · rw [r3, hid]
    · rw [r2]
      simp only [encodeLoop_eq, hashDataLoop_eq_canonical, canonicalString]

/-- With an insert that succeeds, `CreatePayment` succeeds, whatever the store holds. -/
theorem createPayment_succeeds (cfg : VNPayConfig) (env : PaymentEnv) (db : Store)
    (req : VNPayPaymentRequest) (hi : env.driver.insertFails = false) :
    ∃ resp db1, VNPayService.CreatePayment cfg env db req = (Except.ok resp, db1) := by
  have hres := createInvoice_result env db req (Itoa ((env.randIntn.val + 1000000 : Nat) : Int))
  unfold VNPayService.CreatePayment
  generalize Itoa ((env.randIntn.val + 1000000 : Nat) : Int) = txnRef at hres ⊢
  rcases hres with ⟨ht, _⟩ | ⟨_, invoice, row, hc, _⟩
  · rw [hi] at ht
    cases ht
  · simp only [hc]
    exact ⟨_, _, rfl⟩

theorem txnRef_eq_iff (r1 r2 : Fin 9999999) :
    Itoa ((r1.val + 1000000 : Nat) : Int) = Itoa ((r2.val + 1000000 : Nat) : Int)
      ↔ r1 = r2 := by
  constructor
  · intro h
    have := Itoa_injective _ _ h
    exact Fin.ext (by omega)
  · intro h
    rw [h]

/-- Two payment attempts with the same draw, one after the other on an empty store: both
succeed with the reference 1234567, and the store then holds two invoices, of different
identifiers, under that one reference. -/
theorem createPayment_same_draw_example :
    (VNPayService.CreatePayment sampleConfig samplePaymentEnv [] samplePaymentRequest).1.toOption.map
        (fun resp => resp.Data.TxnRef) = some 1234567 ∧
    (VNPayService.CreatePayment sampleConfig secondPaymentEnv
      (VNPayService.CreatePayment sampleConfig samplePaymentEnv [] samplePaymentRequest).2
      samplePaymentRequest).1.toOption.map (fun resp => resp.Data.TxnRef) = some 1234567 ∧
    (VNPayService.CreatePayment sampleConfig secondPaymentEnv
      (VNPayService.CreatePayment sampleConfig samplePaymentEnv [] samplePaymentRequest).2
      samplePaymentRequest).2.map (fun inv => (inv.InvoiceID, inv.VNPayTxnRef)) =
      [(bytes "3f2b8c1e-7d4a-4e8f-9a6b-1c2d3e4f5a6b", bytes "1234567"),
       (bytes "0c1d2e3f-4a5b-4c6d-8e7f-0a1b2c3d4e5f", bytes "1234567")] := by
  decide!

/-- C21, as the code has it: `CreatePayment` does not consult the store when it chooses
the reference. Whenever it succeeds, the store has gained one invoice, bound to the
decimal string of the draw plus 1000000, which is also the `TxnRef` of the response,
whether or not an invoice of the store already carries that reference; it succeeds
whenever the insert does; and two attempts are bound to the same reference exactly when
their draws are equal. -/
theorem createPayment_txnRef_is_the_draw (cfg : VNPayConfig) (env : PaymentEnv) (db : Store)
    (req : VNPayPaymentRequest) :
    (∀ resp db1, VNPayService.CreatePayment cfg env db req = (Except.ok resp, db1) →
      ∃ row : Invoice, db1 = db ++ [row] ∧
        row.VNPayTxnRef = Itoa ((env.randIntn.val + 1000000 : Nat) : Int) ∧
        row.InvoiceID = resp.InvoiceID ∧
        resp.Data.TxnRef = ((env.randIntn.val + 1000000 : Nat) : Int)) ∧
    (env.driver.insertFails = false →
      ∃ resp db1, VNPayService.CreatePayment cfg env db req = (Except.ok resp, db1)) ∧
    (∀ env2 : PaymentEnv,
      Itoa ((env.randIntn.val + 1000000 : Nat) : Int)
        = Itoa ((env2.randIntn.val + 1000000 : Nat) : Int) ↔ env.randIntn = env2.randIntn) := by
  refine ⟨?_, createPayment_succeeds cfg env db req, fun env2 => txnRef_eq_iff _ _⟩
  intro resp db1 h
  obtain ⟨_, row, h1, h2, _, _, h5, h6, _⟩ := createPayment_ok cfg env db req resp db1 h
  exact ⟨row, h1, h2, h5, h6⟩

theorem createPayment_txnRef_is_the_draw_witness :
    ∃ resp db1 row, VNPayService.CreatePayment sampleConfig secondPaymentEnv
        [sampleInvoice PaymentStatus.Pending 100000] samplePaymentRequest
        = (Except.ok resp, db1) ∧
      db1 = [sampleInvoice PaymentStatus.Pending 100000] ++ [row] ∧
      row.VNPayTxnRef = Itoa ((secondPaymentEnv.randIntn.val + 1000000 : Nat) : Int) := by
  have h := createPayment_txnRef_is_the_draw sampleConfig secondPaymentEnv
    [sampleInvoice PaymentStatus.Pending 100000] samplePaymentRequest
  obtain ⟨resp, db1, e⟩ := h.2.1 rfl
  obtain ⟨row, h1, h2, _⟩ := h.1 resp db1 e
  exact ⟨resp, db1, row, e, h1, h2⟩

theorem paymentInputData_amount (cfg : VNPayConfig) (env : PaymentEnv)
    (req : VNPayPaymentRequest) (txnRef : GoString) (invoice : Invoice) :
    (VNPayService.paymentInputData cfg env req txnRef invoice).get (bytes "vnp_Amount")
      = Itoa (toCents req.Amount) := by
  unfold VNPayService.paymentInputData
  by_cases hb : req.BankCode = []
  · simp only [hb, ne_eq, not_true_eq_false, if_false]
    rfl
  · simp only [hb, ne_eq, not_false_eq_true, if_true]
    rw [set_of_not_mem _ _ _ (by simp only [StringMap.keys, List.map_cons, List.map_nil]; decide!)]
    rfl

theorem escapeByte_plain : ∀ c : Byte,
    c = ascii '-' ∨ (ascii '0').val ≤ c.val ∧ c.val ≤ (ascii '9').val → escapeByte c = [c] := by
  decide!

theorem QueryEscape_plain (s : GoString) (h : ∀ c ∈ s, escapeByte c = [c]) :
    QueryEscape s = s := by
  induction s with
  | nil => rfl
  | cons c s ih =>
    show escapeByte c ++ QueryEscape s = c :: s
    rw [h c (List.mem_cons_self c s), ih (fun d hd => h d (List.mem_cons_of_mem c hd))]
    rfl

/-- A decimal string is its own percent-encoding. -/
theorem QueryEscape_Itoa (n : Int) : QueryEscape (Itoa n) = Itoa n := by
  apply QueryEscape_plain
  obtain ⟨pre, hp, hdig, _, _⟩ := digitsAux_shape (n.natAbs + 1) n.natAbs []
  rw [List.append_nil] at hp
  intro c hc
  apply escapeByte_plain
  unfold Itoa at hc
  by_cases hn : n < 0
  · rw [if_pos hn, hp] at hc
    rcases List.mem_cons.mp hc with h | h
    · exact Or.inl h
    · exact Or.inr (hdig c h)
  · rw [if_neg hn, hp] at hc
    exact Or.inr (hdig c hc)

/-- The canonical string of the parameters of a payment starts with the amount. -/
theorem paymentInputData_canonical_amount (cfg : VNPayConfig) (env : PaymentEnv)
    (req : VNPayPaymentRequest) (txnRef : GoString) (invoice : Invoice) :
    ∃ rest, canonicalString (VNPayService.paymentInputData cfg env req txnRef invoice)
      = bytes "vnp_Amount=" ++ Itoa (toCents req.Amount) ++ bytes "&" ++ rest := by
  have hk : QueryEscape (bytes "vnp_Amount") ++ bytes "=" = bytes "vnp_Amount=" := by decide
  unfold canonicalString
  rw [paymentInputData_sorted_keys]
  by_cases hb : req.BankCode = []
  · rw [if_pos hb]
    simp only [List.map_cons, intercalate_cons, List.flatMap_cons]
    rw [paymentInputData_amount, QueryEscape_Itoa, hk]
    simp only [List.append_assoc]
    exact ⟨_, rfl⟩
  · rw [if_neg hb]
    simp only [List.map_cons, intercalate_cons, List.flatMap_cons]
    rw [paymentInputData_amount, QueryEscape_Itoa, hk]
    simp only [List.append_assoc]
    exact ⟨_, rfl⟩

/-- The payment URL of a successful `CreatePayment` starts with the amount in minor
units, which is a parameter of the string that is signed, and the call inserts one invoice
with the final amount of the request. -/
theorem createPayment_url_amount (cfg : VNPayConfig) (env : PaymentEnv) (db : Store)
    (req : VNPayPaymentRequest) (resp : VNPayPaymentResponse) (db1 : Store)
    (h : VNPayService.CreatePayment cfg env db req = (Except.ok resp, db1)) :
    ∃ (invoice row : Invoice) (rest : GoString),
      db1 = db ++ [row] ∧ row.InvoiceID = resp.InvoiceID ∧
      row.FinalAmount = req.Amount - req.DiscountAmount + req.TaxAmount ∧
      (VNPayService.paymentInputData cfg env req row.VNPayTxnRef invoice).get
        (bytes "vnp_Amount") = Itoa (toCents req.Amount) ∧
      resp.Data.PaymentURL =
        cfg.VNPayURL ++ bytes "?"
          ++ canonicalString
              (VNPayService.paymentInputData cfg env req row.VNPayTxnRef invoice)
          ++ bytes "&vnp_SecureHash="
          ++ hexEncodeToString (hmacSHA512 cfg.HashSecret (canonicalString
              (VNPayService.paymentInputData cfg env req row.VNPayTxnRef invoice))) ∧
      resp.Data.PaymentURL =
        cfg.VNPayURL ++ bytes "?vnp_Amount=" ++ Itoa (toCents req.Amount) ++ bytes "&" ++ rest := by
  obtain ⟨invoice, row, h1, h2, _, h4, h5, _, h7⟩ := createPayment_ok cfg env db req resp db1 h
  obtain ⟨rest, hrest⟩ := paymentInputData_canonical_amount cfg env req
    (Itoa ((env.randIntn.val + 1000000 : Nat) : Int)) invoice
  have hq : bytes "?vnp_Amount=" = bytes "?" ++ bytes "vnp_Amount=" := by decide
  refine ⟨invoice, row, rest ++ (bytes "&vnp_SecureHash=" ++ hexEncodeToString
    (hmacSHA512 cfg.HashSecret (canonicalString (VNPayService.paymentInputData cfg env req
      (Itoa ((env.randIntn.val + 1000000 : Nat) : Int)) invoice)))), h1, h5, h4,
    paymentInputData_amount _ _ _ _ _, ?_, ?_⟩
  · rw [h2]
    exact h7
  · rw [h7]
    nth_rewrite 1 [hrest]
    rw [hq]
    simp only [List.append_assoc]

/-- The `vnp_Amount` of the refund data that `RefundTransaction` returns. -/
theorem refundTransaction_amount (cfg : VNPayConfig) (env : RequestEnv) (d : Driver)
    (db : Store) (req : VNPayRefundRequest) (ipAddr : GoString) :
    (VNPayService.RefundTransaction cfg env d db req ipAddr).1.1.get (bytes "vnp_Amount")
      = Itoa (toCents req.Amount) := by
  rw [refundTransaction_data, signedRefundData_eq]
  rfl

/-- Two requests with whole amounts. For the amount 360287970189641 with no discount and
no tax, the payment URL carries `vnp_Amount=36028797018964096`, which is not the decimal
string of 100 times the amount. For the amount 9007199254740992 with no discount and a
tax of 1, the invoice gets the final amount 9007199254740992, so that the `vnp_Amount` of
the URL is the decimal string of 100 times the final amount although the discount is not
the tax. -/
theorem createPayment_large_amount_example :
    largePaymentRequest.Amount = Float64.finite 360287970189641 ∧
    largePaymentRequest.DiscountAmount = Float64.finite 0 ∧
    largePaymentRequest.TaxAmount = Float64.finite 0 ∧
    (∃ resp db1 rest, VNPayService.CreatePayment sampleConfig samplePaymentEnv []
        largePaymentRequest = (Except.ok resp, db1) ∧
      resp.Data.PaymentURL =
        sampleConfig.VNPayURL ++ bytes "?vnp_Amount=36028797018964096&" ++ rest) ∧
    Itoa (100 * 360287970189641) = bytes "36028797018964100" ∧
    taxedPaymentRequest.Amount = Float64.finite 9007199254740992 ∧
    taxedPaymentRequest.DiscountAmount = Float64.finite 0 ∧
    taxedPaymentRequest.TaxAmount = Float64.finite 1 ∧
    (∃ resp db1 rest row, VNPayService.CreatePayment sampleConfig samplePaymentEnv []
        taxedPaymentRequest = (Except.ok resp, db1) ∧
      db1 = [row] ∧ row.FinalAmount = Float64.finite 9007199254740992 ∧
      resp.Data.PaymentURL =
        sampleConfig.VNPayURL ++ bytes "?vnp_Amount=900719925474099200&" ++ rest) ∧
    Itoa (100 * 9007199254740992) = bytes "900719925474099200" := by
  refine ⟨by decide!, by decide!, by decide!, ?_, by decide!, by decide!, by decide!,
    by decide!, ?_, by decide!⟩
  · obtain ⟨resp, db1, e⟩ := createPayment_succeeds sampleConfig samplePaymentEnv []
      largePaymentRequest rfl
    obtain ⟨_, row, rest, _, _, _, _, _, hurl⟩ := createPayment_url_amount _ _ _ _ resp db1 e
    have ha : bytes "?vnp_Amount=" ++ Itoa (toCents largePaymentRequest.Amount) ++ bytes "&"
        = bytes "?vnp_Amount=36028797018964096&" := by decide!
    refine ⟨resp, db1, rest, e, ?_⟩
    rw [hurl, ← ha]
    simp only [List.append_assoc]
  · obtain ⟨resp, db1, e⟩ := createPayment_succeeds sampleConfig samplePaymentEnv []
      taxedPaymentRequest rfl
    obtain ⟨_, row, rest, h1, _, h3, _, _, hurl⟩ := createPayment_url_amount _ _ _ _ resp db1 e
    have ha : bytes "?vnp_Amount=" ++ Itoa (toCents taxedPaymentRequest.Amount) ++ bytes "&"
        = bytes "?vnp_Amount=900719925474099200&" := by decide!
    have hf : taxedPaymentRequest.Amount - taxedPaymentRequest.DiscountAmount
        + taxedPaymentRequest.TaxAmount = Float64.finite 9007199254740992 := by decide!
    refine ⟨resp, db1, rest, row, e, h1, h3.trans hf, ?_⟩
    rw [hurl, ← ha]
    simp only [List.append_assoc]

/-- C28, as the code has it: for a request whose `Amount`, `DiscountAmount` and
`TaxAmount` are the whole numbers `A`, `D` and `T`, with `100 * A`, `A - D` and
`100 * (A - D + T)` below `2 ^ 53` in magnitude, whenever `CreatePayment` succeeds the
parameter `vnp_Amount` of the string that is signed is the decimal string of `100 * A` and
the payment URL is the gateway URL followed by "?vnp_Amount=", that decimal string and
"&", whatever `D` and `T` are, while the invoice created by the same call has the
final amount `A - D + T`, whose minor units are `100 * (A - D + T)`; so the `vnp_Amount`
of the URL is the decimal string of 100 times that final amount if and only if `D = T`.
With an insert that succeeds, `CreatePayment` does succeed. -/
theorem createPayment_signs_gross_amount (cfg : VNPayConfig) (env : PaymentEnv) (db : Store)
    (req : VNPayPaymentRequest) (A D T : Int)
    (hA : req.Amount = Float64.finite A) (hD : req.DiscountAmount = Float64.finite D)
    (hT : req.TaxAmount = Float64.finite T)
    (hbA : (100 * A).natAbs < 2 ^ 53) (hbD : (A - D).natAbs < 2 ^ 53)
    (hbF : (100 * (A - D + T)).natAbs < 2 ^ 53) :
    (∀ resp db1, VNPayService.CreatePayment cfg env db req = (Except.ok resp, db1) →
      ∃ (invoice row : Invoice) (rest : GoString),
        db1 = db ++ [row] ∧ row.InvoiceID = resp.InvoiceID ∧
        row.FinalAmount = Float64.finite ((A - D + T : Int) : Rat) ∧
        toCents row.FinalAmount = 100 * (A - D + T) ∧
        (VNPayService.paymentInputData cfg env req row.VNPayTxnRef invoice).get
          (bytes "vnp_Amount") = Itoa (100 * A) ∧
        resp.Data.PaymentURL =
          cfg.VNPayURL ++ bytes "?"
            ++ canonicalString
                (VNPayService.paymentInputData cfg env req row.VNPayTxnRef invoice)
            ++ bytes "&vnp_SecureHash="
            ++ hexEncodeToString (hmacSHA512 cfg.HashSecret (canonicalString
                (VNPayService.paymentInputData cfg env req row.VNPayTxnRef invoice))) ∧
        resp.Data.PaymentURL =
          cfg.VNPayURL ++ bytes "?vnp_Amount=" ++ Itoa (100 * A) ++ bytes "&" ++ rest ∧
        (Itoa (100 * A) = Itoa (toCents row.FinalAmount) ↔ D = T)) ∧
    (env.driver.insertFails = false →
      ∃ resp db1, VNPayService.CreatePayment cfg env db req = (Except.ok resp, db1)) := by
  refine ⟨?_, createPayment_succeeds cfg env db req⟩
  intro resp db1 h
  obtain ⟨invoice, row, rest, h1, h2, h3, hpar, hcan, hurl⟩ :=
    createPayment_url_amount cfg env db req resp db1 h
  have hfin : row.FinalAmount = Float64.finite ((A - D + T : Int) : Rat) := by
    rw [h3, hA, hD, hT]
    exact finalAmount_whole A D T hbD (by omega)
  have hcents : toCents row.FinalAmount = 100 * (A - D + T) := by
    rw [hfin]
    exact toCents_whole _ hbF
  have hgross : toCents req.Amount = 100 * A := by
    rw [hA]
    exact toCents_whole _ hbA
  refine ⟨invoice, row, rest, h1, h2, hfin, hcents, ?_, hcan, ?_, ?_⟩
  · rw [hpar, hgross]
  · rw [hurl, hgross]
  · rw [hcents]
    constructor
    · intro he
      have := Itoa_injective _ _ he
      omega
    · intro he
      rw [he]
      congr 1
      omega

theorem createPayment_signs_gross_amount_witness :
    ∃ resp db1 row rest, VNPayService.CreatePayment sampleConfig samplePaymentEnv []
        discountedPaymentRequest = (Except.ok resp, db1) ∧
      db1 = [] ++ [row] ∧
      row.FinalAmount = Float64.finite 95000 ∧
      resp.Data.PaymentURL =
        sampleConfig.VNPayURL ++ bytes "?vnp_Amount=" ++ bytes "10000000" ++ bytes "&" ++ rest := by
  have h := createPayment_signs_gross_amount sampleConfig samplePaymentEnv []
    discountedPaymentRequest 100000 10000 5000 (by decide!) (by decide!) (by decide!)
    (by decide) (by decide) (by decide)
  obtain ⟨resp, db1, e⟩ := h.2 rfl
  obtain ⟨_, row, rest, h1, _, h3, _, _, _, h5, _⟩ := h.1 resp db1 e
  have ha : Itoa (100 * 100000) = bytes "10000000" := by decide
  rw [ha] at h5
  exact ⟨resp, db1, row, rest, e, h1, h3.trans (by norm_num), h5⟩

/-! ## Amounts in minor units -/

/-- Amounts at which the `vnp_Amount` of `CreatePayment` and of `RefundTransaction` is
not the decimal string of the truncated hundredfold. The `float64` nearest to 0.35 lies
below 0.35, so that its hundredfold truncates to 34, yet the parameter is "35". The
amount 0.29 is decoded to the `float64` nearest to it, and the parameter is "28", not
"29". The whole amount 360287970189641 gives "36028797018964096", not
"36028797018964100". -/
theorem vnp_amount_not_truncated_hundredfold_example :
    fractionPaymentRequest.Amount = Float64.finite (3152519739159347 / 9007199254740992) ∧
    (0 : Rat) ≤ 3152519739159347 / 9007199254740992 ∧
    ((3152519739159347 / 9007199254740992 : Rat) * 100).num.tdiv
      ((3152519739159347 / 9007199254740992 : Rat) * 100).den = 34 ∧
    (∃ resp db1 rest, VNPayService.CreatePayment sampleConfig samplePaymentEnv []
        fractionPaymentRequest = (Except.ok resp, db1) ∧
      resp.Data.PaymentURL = sampleConfig.VNPayURL ++ bytes "?vnp_Amount=35&" ++ rest) ∧
    (VNPayService.RefundTransaction sampleConfig sampleRequestEnv sampleDriver []
      (refundRequestOf (Float64.round (35 / 100))) sampleIpAddr).1.1.get (bytes "vnp_Amount")
      = bytes "35" ∧
    centsPaymentRequest.Amount = Float64.round (29 / 100) ∧
    (∃ resp db1 rest, VNPayService.CreatePayment sampleConfig samplePaymentEnv []
        centsPaymentRequest = (Except.ok resp, db1) ∧
      resp.Data.PaymentURL = sampleConfig.VNPayURL ++ bytes "?vnp_Amount=28&" ++ rest) ∧
    (VNPayService.RefundTransaction sampleConfig sampleRequestEnv sampleDriver []
      (refundRequestOf (Float64.round (29 / 100))) sampleIpAddr).1.1.get (bytes "vnp_Amount")
      = bytes "28" ∧
    ((29 / 100 : Rat) * 100).num.tdiv ((29 / 100 : Rat) * 100).den = 29 ∧
    (VNPayService.RefundTransaction sampleConfig sampleRequestEnv sampleDriver []
      (refundRequestOf 360287970189641) sampleIpAddr).1.1.get (bytes "vnp_Amount")
      = bytes "36028797018964096" ∧
    Itoa (360287970189641 * 100) = bytes "36028797018964100" := by
  refine ⟨by decide!, by decide!, by decide!, ?_, ?_, rfl, ?_, ?_, by decide!, ?_, by decide!⟩
  · obtain ⟨resp, db1, e⟩ := createPayment_succeeds sampleConfig samplePaymentEnv []
      fractionPaymentRequest rfl
    obtain ⟨_, row, rest, _, _, _, _, _, hurl⟩ := createPayment_url_amount _ _ _ _ resp db1 e
    have ha : bytes "?vnp_Amount=" ++ Itoa (toCents fractionPaymentRequest.Amount) ++ bytes "&"
        = bytes "?vnp_Amount=35&" := by decide!
    refine ⟨resp, db1, rest, e, ?_⟩
    rw [hurl, ← ha]
    simp only [List.append_assoc]
  · rw [refundTransaction_amount]
    decide!
  · obtain ⟨resp, db1, e⟩ := createPayment_succeeds sampleConfig samplePaymentEnv []
      centsPaymentRequest rfl
    obtain ⟨_, row, rest, _, _, _, _, _, hurl⟩ := createPayment_url_amount _ _ _ _ resp db1 e
    have ha : bytes "?vnp_Amount=" ++ Itoa (toCents centsPaymentRequest.Amount) ++ bytes "&"
        = bytes "?vnp_Amount=28&" := by decide!
    refine ⟨resp, db1, rest, e, ?_⟩
    rw [hurl, ← ha]
    simp only [List.append_assoc]
  · rw [refundTransaction_amount]
    decide!
  · rw [refundTransaction_amount]
    decide!

/-- C20, as the code has it: the `vnp_Amount` of `CreatePayment` (first in the payment
URL) and of `RefundTransaction` is the decimal string of `int(a * 100)`, where the product
is the `float64` product, the hundredfold rounded to the nearest `float64`, and `int`
discards the fraction of that rounded product, when it is a value that `int` holds. For
a whole amount whose hundredfold is below `2 ^ 53` in magnitude it is the decimal string of
the hundredfold; 100000 gives "10000000". -/
theorem vnp_amount_truncates_float_product (cfg : VNPayConfig) (env : PaymentEnv)
    (db : Store) (req : VNPayPaymentRequest) (renv : RequestEnv) (d : Driver) (rdb : Store)
    (rreq : VNPayRefundRequest) (ipAddr : GoString) :
    (∀ resp db1, VNPayService.CreatePayment cfg env db req = (Except.ok resp, db1) →
      ∃ rest, resp.Data.PaymentURL =
        cfg.VNPayURL ++ bytes "?vnp_Amount=" ++ Itoa (Float64.toInt (req.Amount * 100))
          ++ bytes "&" ++ rest) ∧
    (env.driver.insertFails = false →
      ∃ resp db1, VNPayService.CreatePayment cfg env db req = (Except.ok resp, db1)) ∧
    (VNPayService.RefundTransaction cfg renv d rdb rreq ipAddr).1.1.get (bytes "vnp_Amount")
      = Itoa (Float64.toInt (rreq.Amount * 100)) ∧
    (∀ a : Rat, Float64.finite a * 100 = Float64.round (a * 100)) ∧
    (∀ r : Rat, -2 ^ 63 ≤ r.num.tdiv r.den → r.num.tdiv r.den < 2 ^ 63 →
      Float64.toInt (Float64.finite r) = r.num.tdiv r.den) ∧
    (∀ n : Int, (100 * n).natAbs < 2 ^ 53 →
      Float64.toInt (Float64.finite n * 100) = 100 * n) ∧
    Itoa (Float64.toInt ((100000 : Float64) * 100)) = bytes "10000000" := by
  refine ⟨?_, createPayment_succeeds cfg env db req,
    refundTransaction_amount cfg renv d rdb rreq ipAddr, ?_, Float64.toInt_finite,
    toCents_whole, by decide!⟩
  · intro resp db1 h
    obtain ⟨_, _, rest, _, _, _, _, _, hurl⟩ := createPayment_url_amount cfg env db req resp db1 h
    exact ⟨rest, hurl⟩
  · intro a
    rw [Float64.hundred]
    rfl

theorem vnp_amount_truncates_float_product_witness :
    (∃ resp db1 rest, VNPayService.CreatePayment sampleConfig samplePaymentEnv []
        samplePaymentRequest = (Except.ok resp, db1) ∧
      resp.Data.PaymentURL =
        sampleConfig.VNPayURL ++ bytes "?vnp_Amount=" ++ bytes "10000000" ++ bytes "&" ++ rest) ∧
    (VNPayService.RefundTransaction sampleConfig sampleRequestEnv sampleDriver []
      sampleRefundRequest sampleIpAddr).1.1.get (bytes "vnp_Amount") = bytes "10000000" := by
  have h := vnp_amount_truncates_float_product sampleConfig samplePaymentEnv []
    samplePaymentRequest sampleRequestEnv sampleDriver [] sampleRefundRequest sampleIpAddr
  obtain ⟨resp, db1, e⟩ := h.2.1 rfl
  obtain ⟨rest, hurl⟩ := h.1 resp db1 e
  have ha : Itoa (Float64.toInt (samplePaymentRequest.Amount * 100)) = bytes "10000000" := by
    decide!
  have hb : Itoa (Float64.toInt (sampleRefundRequest.Amount * 100)) = bytes "10000000" := by
    decide!
  rw [ha] at hurl
  exact ⟨⟨resp, db1, rest, e, hurl⟩, h.2.2.1.trans hb⟩

/-! ## The helper of pkg/utils -/

theorem queryLoop_succ (m : StringMap) (i : Nat) (ks : List GoString) (acc : GoString) :
    VNPayHelper.queryLoop m (i + 1) ks acc =
      acc ++ ks.flatMap (fun k => bytes "&" ++ (k ++ bytes "=" ++ QueryEscape (m.get k))) := by
  induction ks generalizing i acc with
  | nil => simp [VNPayHelper.queryLoop]
  | cons k ks ih =>
    simp only [VNPayHelper.queryLoop, ih, List.flatMap_cons]
    simp

/-- The string of `buildQueryString`: the names as they are, the values percent-encoded. -/
theorem queryLoop_eq (m : StringMap) (ks : List GoString) :
    VNPayHelper.queryLoop m 0 ks [] =
      (bytes "&").intercalate (ks.map (fun k => k ++ bytes "=" ++ QueryEscape (m.get k))) := by
  cases ks with
  | nil => rfl
  | cons k ks =>
    simp only [VNPayHelper.queryLoop, queryLoop_succ, List.map_cons, intercalate_cons]
    simp [List.flatMap_map]

/-- On names that percent-encoding leaves as they are, the helper builds the canonical
string of the service. -/
theorem buildQueryString_eq_canonical (hlp : VNPayHelper) (m : StringMap)
    (hplain : ∀ k ∈ m.keys, QueryEscape k = k) :
    hlp.buildQueryString m = canonicalString m := by
  unfold VNPayHelper.buildQueryString canonicalString
  rw [queryLoop_eq]
  congr 1
  apply List.map_congr_left
  intro k hk
  rw [hplain k ((sortStrings_perm m.keys).mem_iff.mp hk)]

/-- Claim C24, at the mapping with the one name "vnp_Order Info": the helper writes the
name as it is, the loops of the service percent-encode it, and the digests of the two
strings under one secret differ. -/
theorem buildQueryString_leaves_names_unescaped :
    sampleHelper.buildQueryString spacedNameParams = bytes "vnp_Order Info=x+y" ∧
    VNPayService.hashDataLoop spacedNameParams 0 (sortStrings spacedNameParams.keys) []
      = bytes "vnp_Order+Info=x+y" ∧
    VNPayService.encodeLoop spacedNameParams 0 (sortStrings spacedNameParams.keys) ([], [])
      = (bytes "vnp_Order+Info=x+y", bytes "vnp_Order+Info=x+y") ∧
    sampleHelper.SecretKey = sampleConfig.HashSecret ∧
    sampleHelper.generateSecureHash (sampleHelper.buildQueryString spacedNameParams)
      ≠ hexEncodeToString (hmacSHA512 sampleConfig.HashSecret
          (VNPayService.hashDataLoop spacedNameParams 0
            (sortStrings spacedNameParams.keys) [])) := by
  decide!

theorem firstValues_get_list (l : List (GoString × GoString × List GoString))
    (k : GoString) :
    StringMap.get (l.map (fun e => (e.1, e.2.1))) k =
      (match l.find? (fun e => e.1 = k) with
        | some e => e.2.1
        | none => []) := by
  induction l with
  | nil => rfl
  | cons e l ih =>
    by_cases h : e.1 = k
    · simp [StringMap.get, List.find?, h]
    · simp [StringMap.get, List.find?, h, ih]

theorem firstValues_get (q : Values) (k : GoString) : (firstValues q).get k = q.Get k :=
  firstValues_get_list q.entries k

/-- On parameters that all start with "vnp_", none of them `vnp_SecureHashType`, the two
`delete` of the helper leave the parameters that the service signs. -/
theorem delete_eq_signedParams (l : List (GoString × GoString × List GoString))
    (hpre : ∀ e ∈ l, HasPrefix e.1 (bytes "vnp_") = true)
    (htype : ∀ e ∈ l, e.1 ≠ bytes "vnp_SecureHashType") :
    StringMap.delete (StringMap.delete (l.map (fun e => (e.1, e.2.1))) (bytes "vnp_SecureHash"))
        (bytes "vnp_SecureHashType")
      = l.filterMap (fun e =>
          if HasPrefix e.1 (bytes "vnp_") ∧ e.1 ≠ bytes "vnp_SecureHash" then some (e.1, e.2.1)
          else none) := by
  induction l with
  | nil => rfl
  | cons e l ih =>
    have ih1 := ih (fun x hx => hpre x (List.mem_cons_of_mem e hx))
      (fun x hx => htype x (List.mem_cons_of_mem e hx))
    have hp := hpre e (List.mem_cons_self e l)
    have ht := htype e (List.mem_cons_self e l)
    unfold StringMap.delete at ih1 ⊢
    by_cases hh : e.1 = bytes "vnp_SecureHash"
    · simp only [List.map_cons, List.filter_cons, List.filterMap_cons, hh, ne_eq,
        not_true_eq_false, decide_False, and_false, if_false, Bool.false_eq_true]
      exact ih1
    · simp only [List.map_cons, List.filter_cons, List.filterMap_cons, hh, ht, hp, ne_eq,
        not_false_eq_true, decide_True, and_self, if_true]
      rw [ih1]

/-- When the names are protocol names, the helper accepts a callback exactly when it
carries the digest that the service expects. -/
theorem validateCallback_iff (hlp : VNPayHelper) (cfg : VNPayConfig) (q : Values)
    (hsec : hlp.SecretKey = cfg.HashSecret)
    (hpre : ∀ e ∈ q.entries, HasPrefix e.1 (bytes "vnp_") = true)
    (hplain : ∀ e ∈ q.entries, QueryEscape e.1 = e.1)
    (htype : ∀ e ∈ q.entries, e.1 ≠ bytes "vnp_SecureHashType") :
    hlp.ValidateCallback (firstValues q) = true ↔ SignatureValid cfg q := by
  have hd : ((firstValues q).delete (bytes "vnp_SecureHash")).delete
      (bytes "vnp_SecureHashType") = signedParams q :=
    delete_eq_signedParams q.entries hpre htype
  have hk : ∀ k ∈ (signedParams q).keys, QueryEscape k = k := by
    intro k hk
    have hsub := (signedParams_keys_sublist q.entries).subset hk
    obtain ⟨e, he, rfl⟩ := List.mem_map.mp hsub
    exact hplain e he
  unfold VNPayHelper.ValidateCallback VNPayHelper.generateSecureHash SignatureValid
    expectedSecureHash
  simp only [hd, buildQueryString_eq_canonical hlp _ hk, hsec, firstValues_get,
    decide_eq_true_eq]

/-- The `IsValid` of a result of `ProcessReturn`. -/
theorem processReturn_isValid (cfg : VNPayConfig) (d : Driver) (db : Store) (q : Values)
    (res : VNPayReturnResponse) (db1 : Store)
    (h : VNPayService.ProcessReturn cfg d db q = (Except.ok res, db1)) :
    res.IsValid = true ↔ SignatureValid cfg q := by
  by_cases hv : SignatureValid cfg q
  · cases hu : d.updateFails
    · obtain ⟨res1, hres, hval, _⟩ := processReturn_valid cfg d db q hv hu
      rw [hres] at h
      simp only [Prod.mk.injEq, Except.ok.injEq] at h
      rw [← h.1]
      exact ⟨fun _ => hv, fun _ => hval⟩
    · rw [processReturn_update_fails cfg d db q hv hu] at h
      simp only [Prod.mk.injEq] at h
      cases h.1
  · obtain ⟨res1, hres, hval, _⟩ := processReturn_invalid cfg d db q hv
    rw [hres] at h
    simp only [Prod.mk.injEq, Except.ok.injEq] at h
    rw [← h.1, hval]
    exact ⟨fun hf => absurd hf (by decide), fun hs => absurd hs hv⟩

theorem processReturn_returns (cfg : VNPayConfig) (d : Driver) (db : Store) (q : Values)
    (hu : d.updateFails = false) :
    ∃ res db1, VNPayService.ProcessReturn cfg d db q = (Except.ok res, db1) := by
  by_cases hv : SignatureValid cfg q
  · obtain ⟨res1, hres, _⟩ := processReturn_valid cfg d db q hv hu
    exact ⟨_, _, hres⟩
  · obtain ⟨res1, hres, _⟩ := processReturn_invalid cfg d db q hv
    exact ⟨_, _, hres⟩

/-- Two callbacks on which the verifiers disagree. With `vnp_SecureHashType` present and
a secure hash computed without it, the helper accepts and `ProcessReturn` reports
`IsValid = false`; with a parameter `lang` added to a callback that is signed, the helper
rejects and `ProcessReturn` reports `IsValid = true`. -/
theorem validateCallback_disagrees_example :
    sampleHelper.SecretKey = sampleConfig.HashSecret ∧
    (∀ e ∈ hashTypeQuery.entries, e.2.2 = []) ∧
    sampleHelper.ValidateCallback (firstValues hashTypeQuery) = true ∧
    (VNPayService.ProcessReturn sampleConfig sampleDriver
      [sampleInvoice PaymentStatus.Pending 100000] hashTypeQuery).1.toOption.map
        (fun res => res.IsValid) = some false ∧
    (∀ e ∈ extraParamQuery.entries, e.2.2 = []) ∧
    sampleHelper.ValidateCallback (firstValues extraParamQuery) = false ∧
    (VNPayService.ProcessReturn sampleConfig sampleDriver
      [sampleInvoice PaymentStatus.Pending 100000] extraParamQuery).1.toOption.map
        (fun res => res.IsValid) = some true := by
  decide!

/-- C25, as the code has it: for a callback parameter set whose names all start with
"vnp_", are left unchanged by percent-encoding and do not include `vnp_SecureHashType`,
and a helper holding the hash secret of the service, `ValidateCallback` on the first
values of the parameters returns true if and only if the callback carries the digest of
its signed parameters, and if and only if a result of `ProcessReturn` reports
`IsValid = true`; `ProcessReturn` gives a result whenever the update does not fail. -/
theorem validateCallback_agrees_on_protocol_names (hlp : VNPayHelper) (cfg : VNPayConfig)
    (d : Driver) (db : Store) (q : Values)
    (hsec : hlp.SecretKey = cfg.HashSecret)
    (hpre : ∀ e ∈ q.entries, HasPrefix e.1 (bytes "vnp_") = true)
    (hplain : ∀ e ∈ q.entries, QueryEscape e.1 = e.1)
    (htype : ∀ e ∈ q.entries, e.1 ≠ bytes "vnp_SecureHashType") :
    (hlp.ValidateCallback (firstValues q) = true ↔ SignatureValid cfg q) ∧
    (∀ res db1, VNPayService.ProcessReturn cfg d db q = (Except.ok res, db1) →
      (hlp.ValidateCallback (firstValues q) = true ↔ res.IsValid = true)) ∧
    (d.updateFails = false →
      ∃ res db1, VNPayService.ProcessReturn cfg d db q = (Except.ok res, db1)) := by
  have hiff := validateCallback_iff hlp cfg q hsec hpre hplain htype
  refine ⟨hiff, ?_, processReturn_returns cfg d db q⟩
  intro res db1 h
  exact hiff.trans (processReturn_isValid cfg d db q res db1 h).symm

theorem validateCallback_agrees_on_protocol_names_witness :
    (sampleHelper.ValidateCallback (firstValues paidQuery) = true ↔
      SignatureValid sampleConfig paidQuery) ∧
    (sampleHelper.ValidateCallback (firstValues forgedQuery) = true ↔
      SignatureValid sampleConfig forgedQuery) :=
  ⟨(validateCallback_agrees_on_protocol_names sampleHelper sampleConfig sampleDriver
      [sampleInvoice PaymentStatus.Pending 100000] paidQuery rfl (by decide!) (by decide!)
      (by decide!)).1,
    (validateCallback_agrees_on_protocol_names sampleHelper sampleConfig sampleDriver
      [sampleInvoice PaymentStatus.Pending 100000] forgedQuery rfl (by decide!) (by decide!)
      (by decide!)).1⟩

/-! ## Two notifications at once -/

/-- `ProcessIPN` is its read phase followed by its write phase. -/
theorem ipnWrite_ipnRead (cfg : VNPayConfig) (d : Driver) (db : Store) (q : Values) :
    VNPayService.ipnWrite d db (VNPayService.ipnRead cfg d db q)
      = VNPayService.ProcessIPN cfg d db q := by
  unfold VNPayService.ipnRead VNPayService.ProcessIPN
  by_cases hv : VNPayService.callbackSecureHash cfg q = q.Get (bytes "vnp_SecureHash")
  · simp only [hv, if_true]
    cases hg : InvoiceService.GetInvoiceByVNPayTxnRef d db (q.Get (bytes "vnp_TxnRef")) with
    | error e => rfl
    | ok invoice =>
      by_cases ha : (Atoi (q.Get (bytes "vnp_Amount"))).1.tdiv 100 = toCents invoice.FinalAmount
      · by_cases hs : invoice.PaymentStatus = PaymentStatus.Pending
        · simp only [ha, hs, ne_eq, not_true_eq_false, if_false]
          rfl
        · simp only [ha, hs, ne_eq, not_true_eq_false, not_false_eq_true, if_false, if_true]
          rfl
      · simp only [ha, ne_eq, not_false_eq_true, if_true]
        rfl
  · simp only [hv, if_false]
    rfl

/-- The read phase on a signed notification for a Pending invoice whose amount passes the
check: the update is decided. -/
theorem ipnRead_pending (cfg : VNPayConfig) (d : Driver) (db : Store) (q : Values)
    (invoice : Invoice) (h : SignatureValid cfg q)
    (hg : InvoiceRepository.GetInvoiceByVNPayTxnRef d db (q.Get (bytes "vnp_TxnRef"))
      = Except.ok invoice)
    (ha : (Atoi (q.Get (bytes "vnp_Amount"))).1.tdiv 100 = toCents invoice.FinalAmount)
    (hp : invoice.PaymentStatus = PaymentStatus.Pending) :
    VNPayService.ipnRead cfg d db q =
      IPNDecision.update (q.Get (bytes "vnp_TxnRef"))
        (if q.Get (bytes "vnp_ResponseCode") = bytes "00" ∧
            q.Get (bytes "vnp_TransactionStatus") = bytes "00" then PaymentStatus.Completed
          else PaymentStatus.Failed)
        [ (bytes "transactionNo", q.Get (bytes "vnp_TransactionNo")),
          (bytes "bankCode", q.Get (bytes "vnp_BankCode")),
          (bytes "payDate", q.Get (bytes "vnp_PayDate")) ] := by
  unfold VNPayService.ipnRead
  rw [if_pos ((signatureValid_iff cfg q).mpr h)]
  simp only [InvoiceService.GetInvoiceByVNPayTxnRef, hg, ha, hp, ne_eq, not_true_eq_false,
    if_false]

/-- The write phase of a decided update on a database whose `UPDATE` succeeds. -/
theorem ipnWrite_update (d : Driver) (db : Store) (q : Values) (status : PaymentStatus)
    (hu : d.updateFails = false) :
    VNPayService.ipnWrite d db
      (IPNDecision.update (q.Get (bytes "vnp_TxnRef")) status
        [ (bytes "transactionNo", q.Get (bytes "vnp_TransactionNo")),
          (bytes "bankCode", q.Get (bytes "vnp_BankCode")),
          (bytes "payDate", q.Get (bytes "vnp_PayDate")) ])
      = (({ RspCode := bytes "00", Message := bytes "Confirm Success" }, none),
          db.map (fun inv =>
            if inv.VNPayTxnRef = q.Get (bytes "vnp_TxnRef") then reconciled inv status q d.now
            else inv)) := by
  simp only [VNPayService.ipnWrite, InvoiceService.UpdateInvoicePaymentStatus,
    InvoiceRepository.UpdateInvoicePaymentStatus, hu, Bool.false_eq_true, if_false]
  rfl

/-- Two signed notifications for the Pending invoice 1234567, the first of a payment, the
second of a cancellation, both read before either writes: both are acknowledged with
"00", the first write makes the invoice Completed and the second makes it Failed. One
after the other, the second is answered "02" and the invoice stays Completed. -/
theorem interleavedIPN_both_transition_example :
    SignatureValid sampleConfig smallPaidQuery ∧
    SignatureValid sampleConfig smallCancelledQuery ∧
    VNPayService.interleavedIPN sampleConfig sampleDriver laterDriver
        [sampleInvoice PaymentStatus.Pending 1] smallPaidQuery smallCancelledQuery
      = (({ RspCode := bytes "00", Message := bytes "Confirm Success" }, none),
         ({ RspCode := bytes "00", Message := bytes "Confirm Success" }, none),
         [reconciled (sampleInvoice PaymentStatus.Pending 1) PaymentStatus.Completed
            smallPaidQuery sampleDriver.now],
         [reconciled (reconciled (sampleInvoice PaymentStatus.Pending 1)
            PaymentStatus.Completed smallPaidQuery sampleDriver.now) PaymentStatus.Failed
            smallCancelledQuery laterDriver.now]) ∧
    VNPayService.ProcessIPN sampleConfig laterDriver
        (VNPayService.ProcessIPN sampleConfig sampleDriver
          [sampleInvoice PaymentStatus.Pending 1] smallPaidQuery).2 smallCancelledQuery
      = (({ RspCode := bytes "02", Message := bytes "Order already confirmed" }, none),
         [reconciled (sampleInvoice PaymentStatus.Pending 1) PaymentStatus.Completed
            smallPaidQuery sampleDriver.now]) := by
  decide!

/-- C23, as the code has it: when two `ProcessIPN` invocations with valid signatures for
the same Pending invoice, both passing the amount check, are interleaved so that both read
the invoice before either writes, and the updates do not fail, then both are acknowledged
with "00" and both perform the update: the `UPDATE` has no condition on the current
status, so the first write takes every invoice of the reference to the status of the
first notification and the second write overwrites it with the status and the gateway
fields of the second. -/
theorem interleavedIPN_last_write_wins (cfg : VNPayConfig) (d1 d2 : Driver) (db : Store)
    (q1 q2 : Values) (invoice : Invoice)
    (hv1 : SignatureValid cfg q1) (hv2 : SignatureValid cfg q2)
    (ht : q2.Get (bytes "vnp_TxnRef") = q1.Get (bytes "vnp_TxnRef"))
    (hs1 : d1.selectFails = false) (hs2 : d2.selectFails = false)
    (hu1 : d1.updateFails = false) (hu2 : d2.updateFails = false)
    (hf : db.find? (fun i => i.VNPayTxnRef = q1.Get (bytes "vnp_TxnRef")) = some invoice)
    (hp : invoice.PaymentStatus = PaymentStatus.Pending)
    (ha1 : (Atoi (q1.Get (bytes "vnp_Amount"))).1.tdiv 100 = toCents invoice.FinalAmount)
    (ha2 : (Atoi (q2.Get (bytes "vnp_Amount"))).1.tdiv 100 = toCents invoice.FinalAmount) :
    (VNPayService.interleavedIPN cfg d1 d2 db q1 q2).1
      = ({ RspCode := bytes "00", Message := bytes "Confirm Success" }, none) ∧
    (VNPayService.interleavedIPN cfg d1 d2 db q1 q2).2.1
      = ({ RspCode := bytes "00", Message := bytes "Confirm Success" }, none) ∧
    (VNPayService.interleavedIPN cfg d1 d2 db q1 q2).2.2.1
      = db.map (fun inv =>
          if inv.VNPayTxnRef = q1.Get (bytes "vnp_TxnRef") then
            reconciled inv
              (if q1.Get (bytes "vnp_ResponseCode") = bytes "00" ∧
                  q1.Get (bytes "vnp_TransactionStatus") = bytes "00" then
                PaymentStatus.Completed
              else PaymentStatus.Failed) q1 d1.now
          else inv) ∧
    (VNPayService.interleavedIPN cfg d1 d2 db q1 q2).2.2.2
      = (VNPayService.interleavedIPN cfg d1 d2 db q1 q2).2.2.1.map (fun inv =>
          if inv.VNPayTxnRef = q1.Get (bytes "vnp_TxnRef") then
            reconciled inv
              (if q2.Get (bytes "vnp_ResponseCode") = bytes "00" ∧
                  q2.Get (bytes "vnp_TransactionStatus") = bytes "00" then
                PaymentStatus.Completed
              else PaymentStatus.Failed) q2 d2.now
          else inv) ∧
    (∃ inv1, (VNPayService.interleavedIPN cfg d1 d2 db q1 q2).2.2.1.find?
        (fun i => i.VNPayTxnRef = q1.Get (bytes "vnp_TxnRef")) = some inv1 ∧
      inv1.InvoiceID = invoice.InvoiceID ∧
      inv1.PaymentStatus =
        (if q1.Get (bytes "vnp_ResponseCode") = bytes "00" ∧
            q1.Get (bytes "vnp_TransactionStatus") = bytes "00" then PaymentStatus.Completed
          else PaymentStatus.Failed) ∧
      inv1.PaymentStatus ≠ PaymentStatus.Pending) ∧
    (∃ inv2, (VNPayService.interleavedIPN cfg d1 d2 db q1 q2).2.2.2.find?
        (fun i => i.VNPayTxnRef = q1.Get (bytes "vnp_TxnRef")) = some inv2 ∧
      inv2.InvoiceID = invoice.InvoiceID ∧
      inv2.PaymentStatus =
        (if q2.Get (bytes "vnp_ResponseCode") = bytes "00" ∧
            q2.Get (bytes "vnp_TransactionStatus") = bytes "00" then PaymentStatus.Completed
          else PaymentStatus.Failed) ∧
      inv2.VNPayBankCode = q2.Get (bytes "vnp_BankCode") ∧
      inv2.VNPayTxnNo = q2.Get (bytes "vnp_TransactionNo") ∧
      inv2.VNPayPayDate = q2.Get (bytes "vnp_PayDate")) := by
  have hg1 := getInvoice_of_find d1 db _ invoice hs1 hf
  have hg2 := getInvoice_of_find d2 db _ invoice hs2 (ht ▸ hf)
  have hr1 := ipnRead_pending cfg d1 db q1 invoice hv1 hg1 ha1 hp
  have hr2 := ipnRead_pending cfg d2 db q2 invoice hv2 hg2 ha2 hp
  have e1 : (VNPayService.interleavedIPN cfg d1 d2 db q1 q2).2.2.1
      = db.map (fun inv =>
          if inv.VNPayTxnRef = q1.Get (bytes "vnp_TxnRef") then
            reconciled inv
              (if q1.Get (bytes "vnp_ResponseCode") = bytes "00" ∧
                  q1.Get (bytes "vnp_TransactionStatus") = bytes "00" then
                PaymentStatus.Completed
              else PaymentStatus.Failed) q1 d1.now
          else inv) := by
    show (VNPayService.ipnWrite d1 db (VNPayService.ipnRead cfg d1 db q1)).2 = _
    rw [hr1, ipnWrite_update d1 db q1 _ hu1]
  have e2 : (VNPayService.interleavedIPN cfg d1 d2 db q1 q2).2.2.2
      = (VNPayService.interleavedIPN cfg d1 d2 db q1 q2).2.2.1.map (fun inv =>
          if inv.VNPayTxnRef = q1.Get (bytes "vnp_TxnRef") then
            reconciled inv
              (if q2.Get (bytes "vnp_ResponseCode") = bytes "00" ∧
                  q2.Get (bytes "vnp_TransactionStatus") = bytes "00" then
                PaymentStatus.Completed
              else PaymentStatus.Failed) q2 d2.now
          else inv) := by
    show (VNPayService.ipnWrite d2 (VNPayService.ipnWrite d1 db
      (VNPayService.ipnRead cfg d1 db q1)).2 (VNPayService.ipnRead cfg d2 db q2)).2 = _
    rw [hr2, ipnWrite_update d2 _ q2 _ hu2, ht]
    rfl
  have f1 := find_after_update db (q1.Get (bytes "vnp_TxnRef"))
    (fun inv => reconciled inv
      (if q1.Get (bytes "vnp_ResponseCode") = bytes "00" ∧
          q1.Get (bytes "vnp_TransactionStatus") = bytes "00" then PaymentStatus.Completed
        else PaymentStatus.Failed) q1 d1.now) (fun _ => rfl)
  rw [hf, ← e1] at f1
  have f2 := find_after_update (VNPayService.interleavedIPN cfg d1 d2 db q1 q2).2.2.1
    (q1.Get (bytes "vnp_TxnRef"))
    (fun inv => reconciled inv
      (if q2.Get (bytes "vnp_ResponseCode") = bytes "00" ∧
          q2.Get (bytes "vnp_TransactionStatus") = bytes "00" then PaymentStatus.Completed
        else PaymentStatus.Failed) q2 d2.now) (fun _ => rfl)
  rw [f1, ← e2] at f2
  refine ⟨?_, ?_, e1, e2, ⟨_, f1, rfl, rfl, ?_⟩, ⟨_, f2, rfl, rfl, rfl, rfl, rfl⟩⟩
  · show (VNPayService.ipnWrite d1 db (VNPayService.ipnRead cfg d1 db q1)).1 = _
    rw [hr1, ipnWrite_update d1 db q1 _ hu1]
  · show (VNPayService.ipnWrite d2 (VNPayService.ipnWrite d1 db
      (VNPayService.ipnRead cfg d1 db q1)).2 (VNPayService.ipnRead cfg d2 db q2)).1 = _
    rw [hr2, ipnWrite_update d2 _ q2 _ hu2]
  · show (if _ then PaymentStatus.Completed else PaymentStatus.Failed) ≠ PaymentStatus.Pending
    split <;> exact fun h => PaymentStatus.noConfusion h

theorem interleavedIPN_last_write_wins_witness :
    ∃ inv2, (VNPayService.interleavedIPN sampleConfig sampleDriver laterDriver
        [sampleInvoice PaymentStatus.Pending 1] smallPaidQuery smallCancelledQuery).2.2.2.find?
        (fun i => i.VNPayTxnRef = smallPaidQuery.Get (bytes "vnp_TxnRef")) = some inv2 ∧
      inv2.InvoiceID = (sampleInvoice PaymentStatus.Pending 1).InvoiceID ∧
      inv2.PaymentStatus = PaymentStatus.Failed := by
  obtain ⟨inv2, h1, h2, h3, _⟩ :=
    (interleavedIPN_last_write_wins sampleConfig sampleDriver laterDriver
      [sampleInvoice PaymentStatus.Pending 1] smallPaidQuery smallCancelledQuery
      (sampleInvoice PaymentStatus.Pending 1) (by decide!) (by decide!) (by decide!) rfl rfl
      rfl rfl (by decide!) rfl (by decide!) (by decide!)).2.2.2.2.2
  exact ⟨inv2, h1, h2, h3.trans (by decide!)⟩

/-! ## Injectivity of the canonical encoding -/

theorem upperHexDigit_injective : ∀ a b : Fin 16,
    upperHexDigit a.val = upperHexDigit b.val → a = b := by
  decide!

theorem percentEncode_injective (c d : Byte) (h : percentEncode c = percentEncode d) :
    c = d := by
  unfold percentEncode at h
  simp only [List.cons.injEq, true_and, and_true] at h
  have hc := c.isLt
  have hd := d.isLt
  have h1 := upperHexDigit_injective ⟨c.val / 16, by omega⟩ ⟨d.val / 16, by omega⟩ h.1
  have h2 := upperHexDigit_injective ⟨c.val % 16, by omega⟩ ⟨d.val % 16, by omega⟩ h.2
  have e1 : c.val / 16 = d.val / 16 := congrArg Fin.val h1
  have e2 : c.val % 16 = d.val % 16 := congrArg Fin.val h2
  exact Fin.ext (by omega)

theorem isUnreserved_marks : ∀ c : Byte, isUnreserved c = true →
    c ≠ ascii '+' ∧ c ≠ ascii '%' ∧ c ≠ ascii ' ' ∧ c ≠ ascii '&' ∧ c ≠ ascii '=' := by
  decide!

theorem upperHexDigit_marks : ∀ a : Fin 16,
    upperHexDigit a.val ≠ ascii '&' ∧ upperHexDigit a.val ≠ ascii '=' := by
  decide!

/-- The three shapes of what is written for one byte. -/
theorem escapeByte_cases (c : Byte) :
    (isUnreserved c = true ∧ escapeByte c = [c]) ∨
    (c = ascii ' ' ∧ escapeByte c = [ascii '+']) ∨
    (isUnreserved c = false ∧ c ≠ ascii ' ' ∧ escapeByte c = percentEncode c) := by
  rw [escapeByte_spec]
  by_cases hu : isUnreserved c = true
  · exact Or.inl ⟨hu, by rw [if_pos hu]⟩
  · by_cases hs : c = ascii ' '
    · exact Or.inr (Or.inl ⟨hs, by rw [if_neg hu, if_pos hs]⟩)
    · exact Or.inr (Or.inr ⟨by simpa using hu, hs, by rw [if_neg hu, if_neg hs]⟩)

/-- No byte is written as a prefix of what is written for another. -/
theorem escapeByte_append_inj (c d : Byte) (r1 r2 : GoString)
    (h : escapeByte c ++ r1 = escapeByte d ++ r2) : c = d ∧ r1 = r2 := by
  rcases escapeByte_cases c with ⟨hc, ec⟩ | ⟨hc, ec⟩ | ⟨hc, hc1, ec⟩ <;>
  rcases escapeByte_cases d with ⟨hd, ed⟩ | ⟨hd, ed⟩ | ⟨hd, hd1, ed⟩ <;>
  rw [ec, ed] at h
  · simp only [List.cons_append, List.nil_append, List.cons.injEq] at h
    exact h
  · simp only [List.cons_append, List.nil_append, List.cons.injEq] at h
    exact absurd h.1 (isUnreserved_marks c hc).1
  · simp only [percentEncode, List.cons_append, List.nil_append, List.cons.injEq] at h
    exact absurd h.1 (isUnreserved_marks c hc).2.1
  · simp only [List.cons_append, List.nil_append, List.cons.injEq] at h
    exact absurd h.1.symm (isUnreserved_marks d hd).1
  · simp only [List.cons_append, List.nil_append, List.cons.injEq] at h
    exact ⟨hc.trans hd.symm, h.2⟩
  · simp only [percentEncode, List.cons_append, List.nil_append, List.cons.injEq] at h
    exact absurd h.1 (by decide)
  · simp only [percentEncode, List.cons_append, List.nil_append, List.cons.injEq] at h
    exact absurd h.1.symm (isUnreserved_marks d hd).2.1
  · simp only [percentEncode, List.cons_append, List.nil_append, List.cons.injEq] at h
    exact absurd h.1 (by decide)
  · simp only [percentEncode, List.cons_append, List.nil_append, List.cons.injEq,
      true_and] at h
    refine ⟨percentEncode_injective c d ?_, h.2.2⟩
    simp only [percentEncode, h.1, h.2.1]

theorem escapeByte_ne_nil (c : Byte) : escapeByte c ≠ [] := by
  rcases escapeByte_cases c with ⟨_, ec⟩ | ⟨_, ec⟩ | ⟨_, _, ec⟩ <;> rw [ec] <;>
  simp [percentEncode]

/-- `url.QueryEscape` gives distinct strings distinct encodings. -/
theorem QueryEscape_injective (s t : GoString) (h : QueryEscape s = QueryEscape t) :
    s = t := by
  induction s generalizing t with
  | nil =>
    cases t with
    | nil => rfl
    | cons d t =>
      have h1 : escapeByte d ++ QueryEscape t = [] := h.symm
      exact absurd (List.append_eq_nil.mp h1).1 (escapeByte_ne_nil d)
  | cons c s ih =>
    cases t with
    | nil =>
      have h1 : escapeByte c ++ QueryEscape s = [] := h
      exact absurd (List.append_eq_nil.mp h1).1 (escapeByte_ne_nil c)
    | cons d t =>
      have h1 : escapeByte c ++ QueryEscape s = escapeByte d ++ QueryEscape t := h
      obtain ⟨hcd, hst⟩ := escapeByte_append_inj c d _ _ h1
      rw [hcd, ih t hst]

theorem escapeByte_no_separator (c : Byte) :
    ascii '&' ∉ escapeByte c ∧ ascii '=' ∉ escapeByte c := by
  have hc := c.isLt
  rcases escapeByte_cases c with ⟨hu, ec⟩ | ⟨_, ec⟩ | ⟨_, _, ec⟩ <;> rw [ec]
  · have hm := isUnreserved_marks c hu
    simp only [List.mem_singleton]
    exact ⟨fun h => hm.2.2.2.1 h.symm, fun h => hm.2.2.2.2 h.symm⟩
  · exact ⟨by decide, by decide⟩
  · have h1 := upperHexDigit_marks ⟨c.val / 16, by omega⟩
    have h2 := upperHexDigit_marks ⟨c.val % 16, by omega⟩
    simp only [percentEncode, List.mem_cons, List.mem_singleton, List.not_mem_nil, or_false,
      not_or]
    exact ⟨⟨by decide, fun h => h1.1 h.symm, fun h => h2.1 h.symm⟩,
      ⟨by decide, fun h => h1.2 h.symm, fun h => h2.2 h.symm⟩⟩

/-- `url.QueryEscape` writes neither "&" nor "=". -/
theorem QueryEscape_no_separator (s : GoString) :
    ascii '&' ∉ QueryEscape s ∧ ascii '=' ∉ QueryEscape s := by
  unfold QueryEscape
  constructor
  · intro h
    obtain ⟨c, _, hc⟩ := List.mem_flatMap.mp h
    exact (escapeByte_no_separator c).1 hc
  · intro h
    obtain ⟨c, _, hc⟩ := List.mem_flatMap.mp h
    exact (escapeByte_no_separator c).2 hc

/-- A string is cut at the first occurrence of a byte in one way only. -/
theorem append_cons_inj (b : Byte) (x1 x2 r1 r2 : GoString) (h1 : b ∉ x1) (h2 : b ∉ x2)
    (h : x1 ++ b :: r1 = x2 ++ b :: r2) : x1 = x2 ∧ r1 = r2 := by
  induction x1 generalizing x2 with
  | nil =>
    cases x2 with
    | nil => exact ⟨rfl, (List.cons.inj h).2⟩
    | cons y ys =>
      have hy : b = y := (List.cons.inj h).1
      exact absurd (hy ▸ List.mem_cons_self b ys) h2
  | cons a as ih =>
    cases x2 with
    | nil =>
      have ha : a = b := (List.cons.inj h).1
      exact absurd (ha ▸ List.mem_cons_self a as) h1
    | cons y ys =>
      have hh := List.cons.inj h
      obtain ⟨e1, e2⟩ := ih ys (fun hb => h1 (List.mem_cons_of_mem a hb))
        (fun hb => h2 (List.mem_cons_of_mem y hb)) hh.2
      exact ⟨by rw [hh.1, e1], e2⟩

/-- The segment `name=value` at the head of a canonical string, and what follows it, are
determined by the string. -/
theorem segment_inj (k1 v1 k2 v2 t1 t2 : GoString)
    (ht1 : t1 = [] ∨ ∃ u, t1 = ascii '&' :: u) (ht2 : t2 = [] ∨ ∃ u, t2 = ascii '&' :: u)
    (h : QueryEscape k1 ++ bytes "=" ++ QueryEscape v1 ++ t1
      = QueryEscape k2 ++ bytes "=" ++ QueryEscape v2 ++ t2) :
    k1 = k2 ∧ v1 = v2 ∧ t1 = t2 := by
  have he : bytes "=" = [ascii '='] := by decide
  rw [he] at h
  simp only [List.append_assoc, List.singleton_append] at h
  have hkr : QueryEscape k1 = QueryEscape k2 ∧ QueryEscape v1 ++ t1 = QueryEscape v2 ++ t2 :=
    append_cons_inj (ascii '=') _ _ _ _ (QueryEscape_no_separator k1).2
      (QueryEscape_no_separator k2).2 h
  obtain ⟨hk, hr⟩ := hkr
  have hk1 := QueryEscape_injective _ _ hk
  rcases ht1 with rfl | ⟨u1, rfl⟩ <;> rcases ht2 with rfl | ⟨u2, rfl⟩
  · simp only [List.append_nil] at hr
    exact ⟨hk1, QueryEscape_injective _ _ hr, rfl⟩
  · simp only [List.append_nil] at hr
    have hm : ascii '&' ∈ QueryEscape v1 := by
      rw [hr]
      exact List.mem_append_right _ (List.mem_cons_self _ _)
    exact absurd hm (QueryEscape_no_separator v1).1
  · simp only [List.append_nil] at hr
    have hm : ascii '&' ∈ QueryEscape v2 := by
      rw [← hr]
      exact List.mem_append_right _ (List.mem_cons_self _ _)
    exact absurd hm (QueryEscape_no_separator v2).1
  · have hvu : QueryEscape v1 = QueryEscape v2 ∧ u1 = u2 :=
      append_cons_inj (ascii '&') _ _ _ _ (QueryEscape_no_separator v1).1
        (QueryEscape_no_separator v2).1 hr
    obtain ⟨hv, hu⟩ := hvu
    exact ⟨hk1, QueryEscape_injective _ _ hv, by rw [hu]⟩

theorem segments_shape (l : List (GoString × GoString)) :
    (l.flatMap (fun p => bytes "&" ++ (QueryEscape p.1 ++ bytes "=" ++ QueryEscape p.2))) = [] ∨
    ∃ u, (l.flatMap (fun p => bytes "&" ++ (QueryEscape p.1 ++ bytes "=" ++ QueryEscape p.2)))
      = ascii '&' :: u := by
  cases l with
  | nil => exact Or.inl rfl
  | cons p l => exact Or.inr ⟨_, rfl⟩

/-- The segments that follow the first are determined by their concatenation. -/
theorem segments_inj (l1 l2 : List (GoString × GoString))
    (h : l1.flatMap (fun p => bytes "&" ++ (QueryEscape p.1 ++ bytes "=" ++ QueryEscape p.2))
      = l2.flatMap (fun p => bytes "&" ++ (QueryEscape p.1 ++ bytes "=" ++ QueryEscape p.2))) :
    l1 = l2 := by
  induction l1 generalizing l2 with
  | nil =>
    cases l2 with
    | nil => rfl
    | cons p l =>
      have ha : bytes "&" = [ascii '&'] := by decide
      simp only [List.flatMap_cons, List.flatMap_nil, ha, List.singleton_append,
        List.cons_append] at h
      cases h
  | cons p1 l1 ih =>
    have ha : bytes "&" = [ascii '&'] := by decide
    cases l2 with
    | nil =>
      simp only [List.flatMap_cons, List.flatMap_nil, ha, List.singleton_append,
        List.cons_append] at h
      cases h
    | cons p2 l2 =>
      simp only [List.flatMap_cons, ha, List.singleton_append, List.cons_append,
        List.cons.injEq, true_and] at h
      have hs := segment_inj p1.1 p1.2 p2.1 p2.2 _ _
        (by have := segments_shape l1; rwa [ha] at this)
        (by have := segments_shape l2; rwa [ha] at this)
        (by simpa only [List.append_assoc, ha, List.singleton_append] using h)
      have hl := ih l2 (by rw [ha]; exact hs.2.2)
      rw [hl, Prod.ext hs.1 hs.2.1]

/-- The list of the pairs is determined by the join of their segments. -/
theorem intercalate_segments_inj (l1 l2 : List (GoString × GoString))
    (h : (bytes "&").intercalate
        (l1.map (fun p => QueryEscape p.1 ++ bytes "=" ++ QueryEscape p.2))
      = (bytes "&").intercalate
        (l2.map (fun p => QueryEscape p.1 ++ bytes "=" ++ QueryEscape p.2))) :
    l1 = l2 := by
  apply segments_inj
  have key : ∀ l : List (GoString × GoString),
      l.flatMap (fun p => bytes "&" ++ (QueryEscape p.1 ++ bytes "=" ++ QueryEscape p.2))
        = if l = [] then [] else
          bytes "&" ++ (bytes "&").intercalate
            (l.map (fun p => QueryEscape p.1 ++ bytes "=" ++ QueryEscape p.2)) := by
    intro l
    cases l with
    | nil => rfl
    | cons p l =>
      rw [if_neg (List.cons_ne_nil p l), List.map_cons, intercalate_cons, List.flatMap_cons,
        List.flatMap_map]
      simp only [List.append_assoc]
  have hnil : ∀ l : List (GoString × GoString),
      (bytes "&").intercalate
        (l.map (fun p => QueryEscape p.1 ++ bytes "=" ++ QueryEscape p.2)) = [] → l = [] := by
    intro l hl
    cases l with
    | nil => rfl
    | cons p l =>
      rw [List.map_cons, intercalate_cons] at hl
      have h3 := (List.append_eq_nil.mp (List.append_eq_nil.mp (List.append_eq_nil.mp hl).1).1).2
      exact absurd h3 (by decide)
  rw [key l1, key l2]
  by_cases h1 : l1 = []
  · have h2 : l2 = [] := hnil l2 (by rw [← h, h1]; rfl)
    rw [if_pos h1, if_pos h2]
  · have h2 : l2 ≠ [] := fun h2 => h1 (hnil l1 (by rw [h, h2]; rfl))
    rw [if_neg h1, if_neg h2, h]

/-- A listing with distinct names is a rearrangement of its pairs in the order of the
names. -/
theorem sorted_pairs_perm (m : StringMap) (hn : m.keys.Nodup) :
    ((sortStrings m.keys).map (fun k => (k, m.get k))).Perm m := by
  have h1 : ((sortStrings m.keys).map (fun k => (k, m.get k))).Perm
      (m.keys.map (fun k => (k, m.get k))) := (sortStrings_perm m.keys).map _
  have h2 : m.keys.map (fun k => (k, m.get k)) = m := by
    unfold StringMap.keys
    rw [List.map_map]
    conv_rhs => rw [← List.map_id m]
    apply List.map_congr_left
    intro e he
    show (e.1, m.get e.1) = e
    rw [get_of_mem m e.1 e.2 hn he]
  rw [h2] at h1
  exact h1

/-- Two listings with distinct names and one canonical string list the same pairs. -/
theorem canonicalString_injective (m1 m2 : StringMap) (h1 : m1.keys.Nodup)
    (h2 : m2.keys.Nodup) (h : canonicalString m1 = canonicalString m2) : m1.Perm m2 := by
  unfold canonicalString at h
  have e : ∀ m : StringMap,
      (sortStrings m.keys).map (fun k => QueryEscape k ++ bytes "=" ++ QueryEscape (m.get k))
        = ((sortStrings m.keys).map (fun k => (k, m.get k))).map
            (fun p => QueryEscape p.1 ++ bytes "=" ++ QueryEscape p.2) := by
    intro m
    rw [List.map_map]
    rfl
  rw [e m1, e m2] at h
  have hl := intercalate_segments_inj _ _ h
  exact ((sorted_pairs_perm m1 h1).symm.trans (hl ▸ List.Perm.refl _)).trans
    (sorted_pairs_perm m2 h2)

/-- Claim C26. The canonical encoding of the service is injective: two parameter mappings
(listings with pairwise distinct names) for which the loop of the service builds the same
string hold the same pairs, so they have the same names and the same value under every
name; for `url.QueryEscape` writes neither "&" nor "=" and gives distinct strings
distinct encodings. -/
theorem canonical_encoding_injective (m1 m2 : StringMap) (h1 : m1.keys.Nodup)
    (h2 : m2.keys.Nodup)
    (h : VNPayService.hashDataLoop m1 0 (sortStrings m1.keys) []
      = VNPayService.hashDataLoop m2 0 (sortStrings m2.keys) []) :
    m1.Perm m2 ∧
    (∀ k v, (k, v) ∈ m1 ↔ (k, v) ∈ m2) ∧
    (∀ k, k ∈ m1.keys ↔ k ∈ m2.keys) ∧
    (∀ k, m1.get k = m2.get k) ∧
    (∀ s, ascii '&' ∉ QueryEscape s ∧ ascii '=' ∉ QueryEscape s) ∧
    (∀ s t, QueryEscape s = QueryEscape t → s = t) := by
  rw [hashDataLoop_eq_canonical, hashDataLoop_eq_canonical] at h
  have hp := canonicalString_injective m1 m2 h1 h2 h
  refine ⟨hp, fun k v => hp.mem_iff, fun k => (hp.map Prod.fst).mem_iff,
    fun k => (get_perm h1 hp k).symm, QueryEscape_no_separator, QueryEscape_injective⟩

theorem canonical_encoding_injective_witness :
    sampleListing.Perm sampleListingPermuted ∧
    ∀ k, sampleListing.get k = sampleListingPermuted.get k :=
  ⟨(canonical_encoding_injective sampleListing sampleListingPermuted (by decide!) (by decide!)
      (by decide!)).1,
    (canonical_encoding_injective sampleListing sampleListingPermuted (by decide!) (by decide!)
      (by decide!)).2.2.2.1⟩

end VNPay
